import Mathlib

/-! OBJBaker and the selection lists

A shallow embedding of `libraries/baking/src/OBJBaker.cpp` and of the list
functions of `interface/src/scripting/SelectionScriptingInterface.cpp`.

* `QVariant`, `FBXNode`, `FBXGeometry`, ... are the data the baker reads and builds.
* `OBJBaker` is the mutable member state of the C++ class; every member function
  becomes a function that takes the state and returns the new one.
* `ModelBaker::compressMesh`, `ModelBaker::compressTexture` and the default
  constructor of `FBXMaterial` are declared outside this translation unit: they
  are the fields of `Collaborators`, and every theorem holds for all of them.
* `qlonglong` counters are integers reduced to the signed 64-bit range by `wrap64`.
* An access outside a vector (`geometry.meshes[0]` on a document without meshes,
  `_materialIDs[i]` past the end) has no defined result: the embedding returns `none`.
* `bake`, `loadOBJ`, `handleOBJNetworkReply` and `bakeOBJ` act on a `BakeSession`:
  the members they use, the files seen through `QFile`, and the list of signals
  sent and stages entered. `OBJReader::readOBJ` and `FBXWriter::encodeFBX` are
  fields of `BakeEnvironment`.
* `GameplayObjects` and `SelectionScriptingInterface` carry the members the list
  functions use; the `QMap` of lists is an association list kept in key order,
  and the default of `containsData`, set in a header, is a parameter.
-/

namespace Hifi

/-! ## Data model -/

/-- The property values the baker stores in a node: the `QVariant` alternatives
that `OBJBaker.cpp` constructs. Floating-point payloads are only copied, never
computed with; they are carried as rationals. -/
inductive QVariant where
  | longlong (v : Int)
  | qstring (s : String)
  | byteArray (s : String)
  | float (v : Rat)
  | double (v : Rat)
deriving DecidableEq

/-- A node of the FBX tree: a name, an ordered property list, ordered children. -/
structure FBXNode where
  name : String
  properties : List QVariant
  children : List FBXNode

/-- A default-constructed `FBXNode`. -/
def FBXNode.empty : FBXNode := { name := "", properties := [], children := [] }

instance : Inhabited FBXNode := ⟨FBXNode.empty⟩

/-- The effect of `node.children.append(child)`. -/
def FBXNode.appendChild (node child : FBXNode) : FBXNode :=
  { node with children := node.children ++ [child] }

/-- The usage hints of `image::TextureUsage::Type` that the baker hands out. -/
inductive TextureUsage where
  | ALBEDO_TEXTURE
  | SPECULAR_TEXTURE
deriving DecidableEq

structure Vec3 where
  x : Rat
  y : Rat
  z : Rat
deriving DecidableEq

structure FBXTexture where
  filename : String
deriving DecidableEq

/-- The fields of `FBXMaterial` read by the baker. -/
structure FBXMaterial where
  diffuseColor : Vec3
  specularColor : Vec3
  shininess : Rat
  opacity : Rat
  albedoTexture : FBXTexture
  specularTexture : FBXTexture
deriving DecidableEq

structure FBXMeshPart where
  materialID : String
deriving DecidableEq

/-- The baker reads only the parts of a mesh; the mesh as a whole is handed to
the mesh compressor. -/
structure FBXMesh where
  parts : List FBXMeshPart
deriving DecidableEq

/-- The document produced by the reader: `materials` is the `QHash` from
material name to material, kept as an association list. -/
structure FBXGeometry where
  meshes : List FBXMesh
  materials : List (String × FBXMaterial)
deriving DecidableEq

/-- One call of `compressTexture`: the file name passed and the usage the
callback answers. -/
abbrev TextureRequest := String × TextureUsage

/-- The code this translation unit calls but does not define.
`compressMesh mesh hasDeformers` answers the success flag and the contents left
in `dracoNode` (the mesh itself is taken to be left as it was);
`compressTexture` may depend on the calls made before it and answers `none` for
a null pointer; `defaultMaterial` is a default-constructed `FBXMaterial`. -/
structure Collaborators where
  compressMesh : FBXMesh → Bool → Bool × FBXNode
  compressTexture : List TextureRequest → String → TextureUsage → Option String
  defaultMaterial : FBXMaterial

/-- The member state of `OBJBaker` used by `createFBXNodeTree`, together with
the list of texture compressions requested so far. -/
structure OBJBaker where
  _nodeID : Int
  _geometryID : Int
  _modelID : Int
  _textureID : Int
  _materialIDs : List Int
  _mapTextureMaterial : List (Int × Nat)
  _objectNode : FBXNode
  textureCalls : List TextureRequest

/-! ## Constants of `OBJBaker.cpp` -/

def UNIT_SCALE_FACTOR : Rat := 100
def PROPERTIES70_NODE_NAME : String := "Properties70"
def P_NODE_NAME : String := "P"
def C_NODE_NAME : String := "C"
def FBX_HEADER_EXTENSION : String := "FBXHeaderExtension"
def GLOBAL_SETTINGS_NODE_NAME : String := "GlobalSettings"
def OBJECTS_NODE_NAME : String := "Objects"
def GEOMETRY_NODE_NAME : String := "Geometry"
def MODEL_NODE_NAME : String := "Model"
def MATERIAL_NODE_NAME : String := "Material"
def TEXTURE_NODE_NAME : String := "Texture"
def TEXTURENAME_NODE_NAME : String := "TextureName"
def RELATIVEFILENAME_NODE_NAME : String := "RelativeFilename"
def CONNECTIONS_NODE_NAME : String := "Connections"
def CONNECTIONS_NODE_PROPERTY : String := "OO"
def CONNECTIONS_NODE_PROPERTY_1 : String := "OP"
def MESH : String := "Mesh"

/-! ## Machine integers and the material hash -/

/-- Reduction of an integer to the range of `qlonglong`, `[-2^63, 2^63)`. -/
def wrap64 (x : Int) : Int :=
  (x + 9223372036854775808) % 18446744073709551616 - 9223372036854775808

/-- The value of `_nodeID` after `_nodeID++`. -/
def nextNodeID (n : Int) : Int := wrap64 (n + 1)

/-- The non-const `geometry.materials[key]`: the stored material, or a
default-constructed one that is inserted under `key` first. -/
def lookupOrInsert (d : FBXMaterial) (materials : List (String × FBXMaterial)) (key : String) :
    FBXMaterial × List (String × FBXMaterial) :=
  match materials.lookup key with
  | some m => (m, materials)
  | none => (d, materials ++ [(key, d)])

/-- The result of `geometry.materials.keys()`. -/
def materialKeys (materials : List (String × FBXMaterial)) : List String :=
  materials.map Prod.fst

/-! ## `OBJBaker::setMaterialNodeProperties` -/

/-- Lines 353-413: allocate the material id, record it, fill in the node's
properties and append the `Properties70` child. Returns the new baker state, the
material node and the geometry (whose material hash the lookup may extend). -/
def setMaterialNodeProperties (env : Collaborators) (b : OBJBaker) (materialNode : FBXNode)
    (material : String) (geometry : FBXGeometry) : OBJBaker × FBXNode × FBXGeometry :=
  let materialID := b._nodeID
  let b1 : OBJBaker :=
    { b with _nodeID := nextNodeID b._nodeID, _materialIDs := b._materialIDs ++ [materialID] }
  let found := lookupOrInsert env.defaultMaterial geometry.materials material
  let currentMaterial := found.1
  let pNodeDiffuseColor : FBXNode :=
    { name := P_NODE_NAME
      properties := [.qstring "DiffuseColor", .qstring "Color", .qstring "", .qstring "A",
        .float currentMaterial.diffuseColor.x, .float currentMaterial.diffuseColor.y,
        .float currentMaterial.diffuseColor.z]
      children := [] }
  let pNodeSpecularColor : FBXNode :=
    { name := P_NODE_NAME
      properties := [.qstring "SpecularColor", .qstring "Color", .qstring "", .qstring "A",
        .float currentMaterial.specularColor.x, .float currentMaterial.specularColor.y,
        .float currentMaterial.specularColor.z]
      children := [] }
  let pNodeShininess : FBXNode :=
    { name := P_NODE_NAME
      properties := [.qstring "Shininess", .qstring "Number", .qstring "", .qstring "A",
        .float currentMaterial.shininess]
      children := [] }
  let pNodeOpacity : FBXNode :=
    { name := P_NODE_NAME
      properties := [.qstring "Opacity", .qstring "Number", .qstring "", .qstring "A",
        .float currentMaterial.opacity]
      children := [] }
  let properties70Node : FBXNode :=
    { name := PROPERTIES70_NODE_NAME
      properties := []
      children := [pNodeDiffuseColor, pNodeSpecularColor, pNodeShininess, pNodeOpacity] }
  (b1,
   { materialNode with
      properties := [.longlong materialID, .qstring material, .byteArray MESH]
      children := materialNode.children ++ [properties70Node] },
   { geometry with materials := found.2 })

/-! ## `OBJBaker::createFBXNodeTree` -/

/-- Lines 172-173: the header node, which `createFBXNodeTree` builds and attaches
to nothing. -/
def headerNode : FBXNode :=
  { name := FBX_HEADER_EXTENSION, properties := [], children := [] }

/-- Lines 177-194: the `GlobalSettings` node. -/
def globalSettingsNode : FBXNode :=
  let pNode : FBXNode :=
    { name := P_NODE_NAME
      properties := [.qstring "UnitScaleFactor", .qstring "double", .qstring "Number",
        .qstring "", .double UNIT_SCALE_FACTOR]
      children := [] }
  let properties70Node : FBXNode :=
    { name := PROPERTIES70_NODE_NAME, properties := [], children := [pNode] }
  { name := GLOBAL_SETTINGS_NODE_NAME, properties := [], children := [properties70Node] }

/-- Lines 236-243: the body of the material loop for one mesh part. With exactly
one material in the hash the node is set from every key of the hash, otherwise
from the part's own material name. -/
def materialNodeFor (env : Collaborators) (b : OBJBaker) (meshPart : FBXMeshPart)
    (geometry : FBXGeometry) : OBJBaker × FBXNode × FBXGeometry :=
  let materialNode : FBXNode := { name := MATERIAL_NODE_NAME, properties := [], children := [] }
  if geometry.materials.length = 1 then
    (materialKeys geometry.materials).foldl
      (fun acc materialID => setMaterialNodeProperties env acc.1 acc.2.1 materialID acc.2.2)
      (b, materialNode, geometry)
  else
    setMaterialNodeProperties env b materialNode meshPart.materialID geometry

/-- Lines 233-246: the loop over the mesh parts that appends one material node
per part to `_objectNode`. -/
def materialLoop (env : Collaborators) :
    List FBXMeshPart → OBJBaker → FBXGeometry → OBJBaker × FBXGeometry
  | [], b, geometry => (b, geometry)
  | meshPart :: rest, b, geometry =>
    let step := materialNodeFor env b meshPart geometry
    let b1 : OBJBaker := { step.1 with _objectNode := step.1._objectNode.appendChild step.2.1 }
    materialLoop env rest b1 step.2.2

/-- Line 268: the tag stored in the `TextureName` node. -/
def texturePropertyString (currentMaterial : FBXMaterial) : String :=
  if currentMaterial.albedoTexture.filename ≠ "" then "Kd" else "Ka"

/-- Line 278: the file name handed to the texture compressor. -/
def textureFileName (currentMaterial : FBXMaterial) : String :=
  if currentMaterial.albedoTexture.filename ≠ "" then currentMaterial.albedoTexture.filename
  else currentMaterial.specularTexture.filename

/-- Lines 281-283: the answer of the texture-type callback. -/
def textureContentTypeCallback (currentMaterial : FBXMaterial) : TextureUsage :=
  if currentMaterial.albedoTexture.filename ≠ "" then TextureUsage.ALBEDO_TEXTURE
  else TextureUsage.SPECULAR_TEXTURE

/-- Lines 251-297: the loop over the mesh parts `i, i+1, ...` that builds the
texture nodes. The flag is `false` when the loop left the function at line 289
because the compressor answered a null pointer. -/
def textureLoop (env : Collaborators) :
    List FBXMeshPart → Nat → OBJBaker → FBXGeometry → Bool × OBJBaker × FBXGeometry
  | [], _, b, geometry => (true, b, geometry)
  | meshPart :: rest, i, b, geometry =>
    let material := meshPart.materialID
    let found := lookupOrInsert env.defaultMaterial geometry.materials material
    let currentMaterial := found.1
    let geometry1 : FBXGeometry := { geometry with materials := found.2 }
    if currentMaterial.albedoTexture.filename ≠ "" ∨
        currentMaterial.specularTexture.filename ≠ "" then
      let b1 : OBJBaker :=
        { b with _textureID := b._nodeID
                 _mapTextureMaterial := b._mapTextureMaterial ++ [(b._nodeID, i)] }
      let textureNode : FBXNode :=
        { name := TEXTURE_NODE_NAME, properties := [.longlong b1._nodeID], children := [] }
      let b2 : OBJBaker := { b1 with _nodeID := nextNodeID b1._nodeID }
      let textureNameNode : FBXNode :=
        { name := TEXTURENAME_NODE_NAME
          properties := [.byteArray (texturePropertyString currentMaterial)]
          children := [] }
      let relativeFilenameNode : FBXNode :=
        { name := RELATIVEFILENAME_NODE_NAME, properties := [], children := [] }
      let request : TextureRequest :=
        (textureFileName currentMaterial, textureContentTypeCallback currentMaterial)
      let b3 : OBJBaker := { b2 with textureCalls := b2.textureCalls ++ [request] }
      match env.compressTexture b2.textureCalls request.1 request.2 with
      | none => (false, b3, geometry1)
      | some textureFile =>
        let relativeFilenameNode1 : FBXNode :=
          { relativeFilenameNode with properties := [.byteArray textureFile] }
        let textureNode1 : FBXNode :=
          { textureNode with children := [textureNameNode, relativeFilenameNode1] }
        let b4 : OBJBaker := { b3 with _objectNode := b3._objectNode.appendChild textureNode1 }
        textureLoop env rest (i + 1) b4 geometry1
    else
      textureLoop env rest (i + 1) b geometry1

/-- An object-to-object `C` node (lines 304-310 and 315-321). -/
def cNodeOO (source target : Int) : FBXNode :=
  { name := C_NODE_NAME
    properties := [.byteArray CONNECTIONS_NODE_PROPERTY, .longlong source, .longlong target]
    children := [] }

/-- An object-to-property `C` node (lines 327-334 and 337-344). -/
def cNodeOP (source target : Int) (propertyName : String) : FBXNode :=
  { name := C_NODE_NAME
    properties := [.byteArray CONNECTIONS_NODE_PROPERTY_1, .longlong source, .longlong target,
      .qstring propertyName]
    children := [] }

/-- Lines 314-323: connect all materials to the model. -/
def connectMaterials (modelID : Int) : List Int → FBXNode → FBXNode
  | [], connectionsNode => connectionsNode
  | materialID :: rest, connectionsNode =>
    connectMaterials modelID rest (connectionsNode.appendChild (cNodeOO materialID modelID))

/-- Lines 326-346: connect textures to materials. `_materialIDs[texMat.second]`
is defined only inside the vector. -/
def connectTextures (materialIDs : List Int) : List (Int × Nat) → FBXNode → Option FBXNode
  | [], connectionsNode => some connectionsNode
  | texMat :: rest, connectionsNode =>
    match materialIDs[texMat.2]? with
    | none => none
    | some materialID =>
      let cAmbientNode := cNodeOP texMat.1 materialID "AmbientFactor"
      let cDiffuseNode := cNodeOP texMat.1 materialID "DiffuseColor"
      connectTextures materialIDs rest
        ((connectionsNode.appendChild cAmbientNode).appendChild cDiffuseNode)

/-- What a call of `createFBXNodeTree` leaves behind: whether it ran to its last
line (`completed`) or returned at line 289, the baker's members, the root node
and the geometry it was handed by reference. -/
structure BuildResult where
  completed : Bool
  baker : OBJBaker
  rootNode : FBXNode
  geometry : FBXGeometry

/-- Lines 170-350. `none` stands for an access outside a vector. The header node
of lines 172-173 (`headerNode`) takes no part in the result. -/
def createFBXNodeTree (env : Collaborators) (b : OBJBaker) (rootNode : FBXNode)
    (geometry : FBXGeometry) : Option BuildResult :=
  match geometry.meshes with
  | [] => none
  | mesh0 :: _ =>
    -- lines 197-209
    let b1 : OBJBaker :=
      { b with _objectNode := { b._objectNode with name := OBJECTS_NODE_NAME }
               _geometryID := b._nodeID }
    let geometryNode : FBXNode :=
      { name := GEOMETRY_NODE_NAME
        properties := [.longlong b1._nodeID, .byteArray GEOMETRY_NODE_NAME, .byteArray MESH]
        children := [] }
    let b2 : OBJBaker := { b1 with _nodeID := nextNodeID b1._nodeID }
    -- lines 212-215
    let hasDeformers := false
    let dracoNode := (env.compressMesh mesh0 hasDeformers).2
    let geometryNode1 := geometryNode.appendChild dracoNode
    -- lines 218-229
    let b3 : OBJBaker := { b2 with _modelID := b2._nodeID, _nodeID := nextNodeID b2._nodeID }
    let modelNode : FBXNode :=
      { name := MODEL_NODE_NAME
        properties := [.longlong b3._nodeID, .byteArray MODEL_NODE_NAME, .byteArray MESH]
        children := [] }
    let b4 : OBJBaker :=
      { b3 with _objectNode := { b3._objectNode with children := [geometryNode1, modelNode] } }
    -- lines 232-246
    let meshParts := mesh0.parts
    let afterMaterials := materialLoop env meshParts b4 geometry
    -- lines 250-297
    let afterTextures := textureLoop env meshParts 0 afterMaterials.1 afterMaterials.2
    let b5 := afterTextures.2.1
    let geometry1 := afterTextures.2.2
    if afterTextures.1 = false then
      some { completed := false, baker := b5, rootNode := rootNode, geometry := geometry1 }
    else
      -- lines 300-323
      let connectionsNode : FBXNode :=
        { name := CONNECTIONS_NODE_NAME
          properties := []
          children := [cNodeOO b5._geometryID b5._modelID] }
      let connectionsNode1 := connectMaterials b5._modelID b5._materialIDs connectionsNode
      -- lines 326-346
      match connectTextures b5._materialIDs b5._mapTextureMaterial connectionsNode1 with
      | none => none
      | some connectionsNode2 =>
        -- line 349
        some { completed := true
               baker := b5
               rootNode :=
                 { rootNode with children := [globalSettingsNode, b5._objectNode, connectionsNode2] }
               geometry := geometry1 }


/-! ## Vocabulary of the statements -/

/-- The identity a node carries: its first property, when that is an integer. -/
def FBXNode.identity (node : FBXNode) : Option Int :=
  match node.properties with
  | .longlong v :: _ => some v
  | _ => none

/-- The kind tag of a `C` node: its first property, when that is a byte array. -/
def FBXNode.edgeKind (node : FBXNode) : Option String :=
  match node.properties with
  | .byteArray k :: _ => some k
  | _ => none

/-- The number of nodes among `nodes` whose kind tag is `kind`. -/
def countEdges (kind : String) (nodes : List FBXNode) : Nat :=
  nodes.countP (fun c => c.edgeKind == some kind)

/-- The number of nodes among `nodes` named `name`. -/
def countNamed (name : String) (nodes : List FBXNode) : Nat :=
  nodes.countP (fun c => c.name == name)

/-- The material that `geometry.materials[name]` yields on the document: the
stored one, or the default-constructed one when `name` is not a key. -/
def materialOf (env : Collaborators) (geometry : FBXGeometry) (name : String) : FBXMaterial :=
  (lookupOrInsert env.defaultMaterial geometry.materials name).1

/-- The document after the access `geometry.materials[name]`. -/
def touch (env : Collaborators) (geometry : FBXGeometry) (name : String) : FBXGeometry :=
  { geometry with materials := (lookupOrInsert env.defaultMaterial geometry.materials name).2 }

/-- The condition of line 254: one of the two texture file names is not empty. -/
def hasTexture (m : FBXMaterial) : Prop :=
  m.albedoTexture.filename ≠ "" ∨ m.specularTexture.filename ≠ ""

instance : DecidablePred hasTexture :=
  fun m => inferInstanceAs (Decidable (m.albedoTexture.filename ≠ "" ∨ m.specularTexture.filename ≠ ""))

/-- The indices of the mesh parts whose material has a texture, in increasing order. -/
def texturedIndices (env : Collaborators) (geometry : FBXGeometry) (parts : List FBXMeshPart) :
    List Nat :=
  ((parts.enum).filter (fun ip => hasTexture (materialOf env geometry ip.2.materialID))).map Prod.fst

/-- The materials of the mesh parts whose material has a texture, in part order. -/
def texturedMaterials (env : Collaborators) (geometry : FBXGeometry) (parts : List FBXMeshPart) :
    List FBXMaterial :=
  (parts.map (fun p => materialOf env geometry p.materialID)).filter (fun m => hasTexture m)

/-- The `Properties70` child that lines 365-410 build from a material. -/
def materialProperties70 (currentMaterial : FBXMaterial) : FBXNode :=
  { name := PROPERTIES70_NODE_NAME
    properties := []
    children :=
      [{ name := P_NODE_NAME
         properties := [.qstring "DiffuseColor", .qstring "Color", .qstring "", .qstring "A",
           .float currentMaterial.diffuseColor.x, .float currentMaterial.diffuseColor.y,
           .float currentMaterial.diffuseColor.z]
         children := [] },
       { name := P_NODE_NAME
         properties := [.qstring "SpecularColor", .qstring "Color", .qstring "", .qstring "A",
           .float currentMaterial.specularColor.x, .float currentMaterial.specularColor.y,
           .float currentMaterial.specularColor.z]
         children := [] },
       { name := P_NODE_NAME
         properties := [.qstring "Shininess", .qstring "Number", .qstring "", .qstring "A",
           .float currentMaterial.shininess]
         children := [] },
       { name := P_NODE_NAME
         properties := [.qstring "Opacity", .qstring "Number", .qstring "", .qstring "A",
           .float currentMaterial.opacity]
         children := [] }] }

/-- A `Material` node with identity `id` for the material called `name`. -/
def materialNodeOf (id : Int) (name : String) (currentMaterial : FBXMaterial) : FBXNode :=
  { name := MATERIAL_NODE_NAME
    properties := [.longlong id, .qstring name, .byteArray MESH]
    children := [materialProperties70 currentMaterial] }

/-- A `Texture` node with identity `id`, slot tag `tag` and relative file name `file`. -/
def textureNodeOf (id : Int) (tag file : String) : FBXNode :=
  { name := TEXTURE_NODE_NAME
    properties := [.longlong id]
    children :=
      [{ name := TEXTURENAME_NODE_NAME, properties := [.byteArray tag], children := [] },
       { name := RELATIVEFILENAME_NODE_NAME, properties := [.byteArray file], children := [] }] }

/-- The material name the loop body of lines 236-243 uses for a mesh part. -/
def materialNameFor (geometry : FBXGeometry) (meshPart : FBXMeshPart) : String :=
  match geometry.materials with
  | [(k, _)] => k
  | _ => meshPart.materialID

/-- The material names the material loop uses, part by part. -/
def materialNames (env : Collaborators) : List FBXMeshPart → FBXGeometry → List String
  | [], _ => []
  | meshPart :: rest, geometry =>
    materialNameFor geometry meshPart ::
      materialNames env rest (touch env geometry (materialNameFor geometry meshPart))

/-- One executed body of the texture loop: the identity it allocated, the part
index, the part's material, the compressor calls made before it and the file
name the compressor answered. -/
structure TextureStep where
  id : Int
  index : Nat
  material : FBXMaterial
  history : List TextureRequest
  file : String

/-- The compressor call of a texture step. -/
def TextureStep.request (s : TextureStep) : TextureRequest :=
  (textureFileName s.material, textureContentTypeCallback s.material)

/-- The texture node of a texture step. -/
def TextureStep.node (s : TextureStep) : FBXNode :=
  textureNodeOf s.id (texturePropertyString s.material) s.file

/-- The texture steps of a run of the texture loop over `parts` in which every
compression succeeds, for part indices from `i`, identities from `n` and
earlier compressor calls `h`. -/
def textureSteps (env : Collaborators) (matOf : String → FBXMaterial) :
    List FBXMeshPart → Nat → Int → List TextureRequest → List TextureStep
  | [], _, _, _ => []
  | meshPart :: rest, i, n, h =>
    let m := matOf meshPart.materialID
    if hasTexture m then
      { id := n, index := i, material := m, history := h
        file := (env.compressTexture h (textureFileName m) (textureContentTypeCallback m)).getD "" } ::
        textureSteps env matOf rest (i + 1) (nextNodeID n)
          (h ++ [(textureFileName m, textureContentTypeCallback m)])
    else textureSteps env matOf rest (i + 1) n h

/-- The object-to-property edges of lines 326-346 for the recorded pairs. -/
def textureEdges (materialIDs : List Int) (pairs : List (Int × Nat)) : List FBXNode :=
  pairs.flatMap (fun texMat =>
    [cNodeOP texMat.1 (materialIDs.getD texMat.2 0) "AmbientFactor",
     cNodeOP texMat.1 (materialIDs.getD texMat.2 0) "DiffuseColor"])

/-- The `Geometry` node of lines 200-215 with identity `id` and mesh payload `dracoNode`. -/
def geometryNodeOf (id : Int) (dracoNode : FBXNode) : FBXNode :=
  { name := GEOMETRY_NODE_NAME
    properties := [.longlong id, .byteArray GEOMETRY_NODE_NAME, .byteArray MESH]
    children := [dracoNode] }

/-- The `Model` node of lines 218-227 whose first property is `id`. -/
def modelNodeOf (id : Int) : FBXNode :=
  { name := MODEL_NODE_NAME
    properties := [.longlong id, .byteArray MODEL_NODE_NAME, .byteArray MESH]
    children := [] }

/-- The baker at line 229, after the geometry and model nodes have been built
for the first mesh `mesh0`. -/
def bakerAfterModel (env : Collaborators) (b : OBJBaker) (mesh0 : FBXMesh) : OBJBaker :=
  { b with
    _nodeID := nextNodeID (nextNodeID b._nodeID)
    _geometryID := b._nodeID
    _modelID := nextNodeID b._nodeID
    _objectNode :=
      { name := OBJECTS_NODE_NAME
        properties := b._objectNode.properties
        children := [geometryNodeOf b._nodeID (env.compressMesh mesh0 false).2,
          modelNodeOf (nextNodeID (nextNodeID b._nodeID))] } }

/-- The flag, baker and document at line 299, after the material and texture loops. -/
def afterLoops (env : Collaborators) (b : OBJBaker) (geometry : FBXGeometry) (mesh0 : FBXMesh) :
    Bool × OBJBaker × FBXGeometry :=
  textureLoop env mesh0.parts 0
    (materialLoop env mesh0.parts (bakerAfterModel env b mesh0) geometry).1
    (materialLoop env mesh0.parts (bakerAfterModel env b mesh0) geometry).2

/-- The material identities a call allocates for a first mesh with `count` parts. -/
def newMaterialIDs (b : OBJBaker) (count : Nat) : List Int :=
  List.iterate nextNodeID (nextNodeID (nextNodeID b._nodeID)) count

/-- The value of `_nodeID` when the texture loop starts. -/
def firstTextureID (b : OBJBaker) (count : Nat) : Int :=
  nextNodeID^[count] (nextNodeID (nextNodeID b._nodeID))

/-- The material nodes a call appends to `_objectNode` for the first mesh `mesh0`. -/
def newMaterialNodes (env : Collaborators) (b : OBJBaker) (geometry : FBXGeometry)
    (mesh0 : FBXMesh) : List FBXNode :=
  List.zipWith (fun id name => materialNodeOf id name (materialOf env geometry name))
    (newMaterialIDs b mesh0.parts.length) (materialNames env mesh0.parts geometry)

/-- The texture steps of a call that runs to its end on the first mesh `mesh0`. -/
def newTextureSteps (env : Collaborators) (b : OBJBaker) (geometry : FBXGeometry)
    (mesh0 : FBXMesh) : List TextureStep :=
  textureSteps env (materialOf env geometry) mesh0.parts 0
    (firstTextureID b mesh0.parts.length) b.textureCalls

/-- The `Connections` node of lines 300-346 for the final baker state. -/
def connectionsNodeOf (b : OBJBaker) : FBXNode :=
  { name := CONNECTIONS_NODE_NAME
    properties := []
    children := cNodeOO b._geometryID b._modelID ::
      (b._materialIDs.map (fun m => cNodeOO m b._modelID) ++
        textureEdges b._materialIDs b._mapTextureMaterial) }

/-! ## Sample inputs -/

/-- A material without textures: diffuse (1,1,1), specular (0,0,0), shininess 0, opacity 1. -/
def plainMaterial : FBXMaterial :=
  { diffuseColor := ⟨1, 1, 1⟩, specularColor := ⟨0, 0, 0⟩, shininess := 0, opacity := 1
    albedoTexture := ⟨""⟩, specularTexture := ⟨""⟩ }

/-- A material with the given albedo and specular texture file names. -/
def texturedMaterial (albedo specular : String) : FBXMaterial :=
  { plainMaterial with albedoTexture := ⟨albedo⟩, specularTexture := ⟨specular⟩ }

/-- Compressors that always succeed: the mesh compressor leaves a `DracoMesh`
node, the texture compressor answers the file name under `baked/`. -/
def sampleCollaborators : Collaborators :=
  { compressMesh := fun _ _ => (true, { name := "DracoMesh", properties := [], children := [] })
    compressTexture := fun _ file _ => some ("baked/" ++ file)
    defaultMaterial := plainMaterial }

/-- A baker at the start of a bake: no material or texture recorded, `_nodeID = n`. -/
def freshBaker (n : Int) : OBJBaker :=
  { _nodeID := n, _geometryID := 0, _modelID := 0, _textureID := 0, _materialIDs := []
    _mapTextureMaterial := [], _objectNode := FBXNode.empty, textureCalls := [] }

/-- The end-to-end scenario: one mesh, one part, the single material "default". -/
def defaultScenario : FBXGeometry :=
  { meshes := [{ parts := [{ materialID := "default" }] }]
    materials := [("default", plainMaterial)] }

/-- One material "default" without textures, referenced by two mesh parts. -/
def twoPartsOneMaterial : FBXGeometry :=
  { meshes := [{ parts := [{ materialID := "default" }, { materialID := "default" }] }]
    materials := [("default", plainMaterial)] }

/-- Two materials with distinct albedo textures, one mesh part referencing the first. -/
def twoMaterialsOnePart : FBXGeometry :=
  { meshes := [{ parts := [{ materialID := "a" }] }]
    materials := [("a", texturedMaterial "a.png" ""), ("b", texturedMaterial "b.png" "")] }

/-- Two materials without textures, two mesh parts that both reference the first. -/
def sharedMaterial : FBXGeometry :=
  { meshes := [{ parts := [{ materialID := "a" }, { materialID := "a" }] }]
    materials := [("a", plainMaterial), ("b", plainMaterial)] }

/-- Three parts: the first with albedo and specular textures, the second with
none, the third with a specular texture only. -/
def mixedTextures : FBXGeometry :=
  { meshes := [{ parts := [{ materialID := "a" }, { materialID := "c" }, { materialID := "b" }] }]
    materials := [("a", texturedMaterial "a.png" "as.png"), ("b", texturedMaterial "" "b.png"),
      ("c", plainMaterial)] }

/-! ## The bake session: `bake`, `loadOBJ`, `handleOBJNetworkReply`, `bakeOBJ` -/

/-- What the baker asks of the `QUrl` it is given. -/
structure QUrl where
  isLocalFile : Bool
  toString : String
  toLocalFile : String
  fileName : String

/-- What the baker reads from a finished `QNetworkReply`: whether `error()` is
`NoError`, and the body `readAll()` returns. -/
structure QNetworkReply where
  noError : Bool
  body : String

/-- The files the baker works on through `QFile`: the contents of the existing
files, the paths that can be read, the paths that can be opened for writing, and
the paths on which `write` answers -1. -/
structure FileSystem where
  content : String → Option String
  readable : String → Bool
  writable : String → Bool
  writeFails : String → Bool

/-- The answer of `QFile::exists`. -/
def FileSystem.fileExists (fs : FileSystem) (path : String) : Bool :=
  (fs.content path).isSome

/-- The bytes `readAll` yields after `open(QIODevice::ReadOnly)`, or `none` when
the file cannot be opened. -/
def FileSystem.openForReading (fs : FileSystem) (path : String) : Option String :=
  if fs.readable path then fs.content path else none

/-- The file system in which `path` holds `data`. -/
def FileSystem.store (fs : FileSystem) (path data : String) : FileSystem :=
  { fs with content := fun p => if p = path then some data else fs.content p }

/-- The effect of `write(data)` on a file opened with `QIODevice::WriteOnly`:
the file holds `data`, or nothing when the write fails. -/
def FileSystem.writeAll (fs : FileSystem) (path data : String) : FileSystem :=
  fs.store path (if fs.writeFails path then "" else data)

/-- The effect of `QFile::copy`: the target receives the bytes of the source,
unless the source cannot be read, the target exists already or cannot be
written; `copy` never overwrites a file. -/
def FileSystem.copy (fs : FileSystem) (source target : String) : FileSystem :=
  match fs.openForReading source with
  | none => fs
  | some data =>
    if fs.fileExists target = true ∨ fs.writable target = false ∨ fs.writeFails target = true then fs
    else fs.store target data

/-- The signals sent and the stages entered during a bake, in order. -/
inductive BakeEvent where
  | networkRequest
  | OBJLoaded
  | bakeOBJ
  | readOBJ
  | createFBXNodeTree
  | encodeFBX
  | finished
deriving DecidableEq

/-- The code called by the bake that this translation unit does not define:
the compressors, `OBJReader::readOBJ` (bytes, `combineParts`, url; `none` for a
null pointer) and `FBXWriter::encodeFBX`. -/
structure BakeEnvironment extends Collaborators where
  readOBJ : String → Bool → QUrl → Option FBXGeometry
  encodeFBX : FBXNode → String

/-- The state of one bake: the members of `OBJBaker` and of its base classes
that the four functions use, the number of connections from `OBJLoaded` to
`bakeOBJ`, the files, and the events so far. -/
structure BakeSession where
  baker : OBJBaker
  _modelURL : QUrl
  _originalOutputDir : String
  _originalModelFilePath : String
  _bakedOutputDir : String
  _bakedModelFilePath : String
  _outputFiles : List String
  _errorList : List String
  bakeOBJConnections : Nat
  fileSystem : FileSystem
  events : List BakeEvent

/-- Modelled from the spec: `Baker::handleError`, which is defined outside this
translation unit. The failed state "records a human-readable error string in the
session's error list and signals completion-with-errors". -/
def handleError (s : BakeSession) (error : String) : BakeSession :=
  { s with _errorList := s._errorList ++ [error], events := s.events ++ [BakeEvent.finished] }

/-- `QString::lastIndexOf(ch)` on the characters from position `i` on, `last`
being the answer for the characters before. -/
def lastIndexOfFrom (ch : Char) : List Char → Nat → Int → Int
  | [], _, last => last
  | c :: rest, i, last => lastIndexOfFrom ch rest (i + 1) (if c = ch then (i : Int) else last)

/-- `QString::lastIndexOf(ch)`: the position of the last `ch`, or -1. -/
def lastIndexOf (s : String) (ch : Char) : Int :=
  lastIndexOfFrom ch s.data 0 (-1)

/-- `QString::left(n)`: the `n` leftmost characters; the entire string when `n`
is negative or not smaller than the size. -/
def left (s : String) (n : Int) : String :=
  if n < 0 ∨ (s.data.length : Int) ≤ n then s else String.mk (s.data.take n.toNat)

/-- Lines 147-151: the path of the baked file. -/
def bakedModelFilePathFor (s : BakeSession) : String :=
  let fileName := s._modelURL.fileName
  let baseName := left fileName (lastIndexOf fileName '.')
  let bakedFilename := baseName ++ ".baked.fbx"
  s._bakedOutputDir ++ "/" ++ bakedFilename

/-- Lines 125-168. `none` stands for undefined behaviour: `*geometry` on a null
pointer, or an access outside a vector in `createFBXNodeTree`. -/
def bakeOBJ (env : BakeEnvironment) (s : BakeSession) : Option BakeSession :=
  let s0 : BakeSession := { s with events := s.events ++ [BakeEvent.bakeOBJ] }
  -- lines 127-131
  match s0.fileSystem.openForReading s0._originalModelFilePath with
  | none => some (handleError s0 ("Error opening " ++ s0._originalModelFilePath ++ " for reading"))
  | some objData =>
    -- lines 135-137
    let combineParts := true
    let s1 : BakeSession := { s0 with events := s0.events ++ [BakeEvent.readOBJ] }
    match env.readOBJ objData combineParts s1._modelURL with
    | none => none
    | some geometry =>
      -- lines 140-141
      let s2 : BakeSession := { s1 with events := s1.events ++ [BakeEvent.createFBXNodeTree] }
      match createFBXNodeTree env.toCollaborators s2.baker FBXNode.empty geometry with
      | none => none
      | some built =>
        let rootNode := built.rootNode
        -- line 144
        let encodedFBX := env.encodeFBX rootNode
        -- lines 147-151
        let s3 : BakeSession :=
          { s2 with baker := built.baker
                    events := s2.events ++ [BakeEvent.encodeFBX]
                    _bakedModelFilePath := bakedModelFilePathFor s2 }
        -- lines 153-158
        if s3.fileSystem.writable s3._bakedModelFilePath = false then
          some (handleError s3 ("Error opening " ++ s3._bakedModelFilePath ++ " for writing"))
        else
          -- lines 160-167
          some { s3 with fileSystem := s3.fileSystem.writeAll s3._bakedModelFilePath encodedFBX
                         _outputFiles := s3._outputFiles ++ [s3._bakedModelFilePath]
                         events := s3.events ++ [BakeEvent.finished] }

/-- The slots connected to a signal run one after the other. -/
def runSlots (slot : BakeSession → Option BakeSession) : Nat → BakeSession → Option BakeSession
  | 0, s => some s
  | n + 1, s => (slot s).bind (runSlots slot n)

/-- The statement `emit OBJLoaded()`: every connection made by `bake` runs `bakeOBJ`. -/
def emitOBJLoaded (env : BakeEnvironment) (s : BakeSession) : Option BakeSession :=
  runSlots (bakeOBJ env) s.bakeOBJConnections
    { s with events := s.events ++ [BakeEvent.OBJLoaded] }

/-- Lines 47-87. For a remote url the request is sent and the function returns;
the reply is handled by `handleOBJNetworkReply`. -/
def loadOBJ (env : BakeEnvironment) (s : BakeSession) : Option BakeSession :=
  if s._modelURL.isLocalFile = true then
    let localOBJ := s._modelURL.toLocalFile
    if s.fileSystem.fileExists localOBJ = false then
      some (handleError s ("Could not find " ++ s._modelURL.toString))
    else
      let fs1 :=
        if s._originalOutputDir ≠ "" then
          s.fileSystem.copy localOBJ (s._originalOutputDir ++ "/" ++ s._modelURL.fileName)
        else s.fileSystem
      let fs2 := fs1.copy localOBJ s._originalModelFilePath
      emitOBJLoaded env { s with fileSystem := fs2 }
  else
    some { s with events := s.events ++ [BakeEvent.networkRequest] }

/-- Lines 89-123, for the reply that finished. -/
def handleOBJNetworkReply (env : BakeEnvironment) (requestReply : QNetworkReply)
    (s : BakeSession) : Option BakeSession :=
  if requestReply.noError = true then
    if s.fileSystem.writable s._originalModelFilePath = false then
      some (handleError s ("Could not create copy of " ++ s._modelURL.toString ++
        " (Failed to open " ++ s._originalModelFilePath ++ ")"))
    else if s.fileSystem.writeFails s._originalModelFilePath = true then
      some (handleError
        { s with fileSystem := s.fileSystem.writeAll s._originalModelFilePath requestReply.body }
        ("Could not create copy of " ++ s._modelURL.toString ++ " (Failed to write)"))
    else
      let fs1 := s.fileSystem.writeAll s._originalModelFilePath requestReply.body
      let fs2 :=
        if s._originalOutputDir ≠ "" then
          fs1.copy s._originalModelFilePath (s._originalOutputDir ++ "/" ++ s._modelURL.fileName)
        else fs1
      emitOBJLoaded env { s with fileSystem := fs2 }
  else
    some (handleError s ("Failed to download " ++ s._modelURL.toString))

/-- Lines 37-45: connect `OBJLoaded` to `bakeOBJ`, then load. -/
def bake (env : BakeEnvironment) (s : BakeSession) : Option BakeSession :=
  loadOBJ env { s with bakeOBJConnections := s.bakeOBJConnections + 1 }

/-! ## Sample sessions -/

/-- A file system with the single file `path`, every path readable and writable. -/
def singleFile (path data : String) : FileSystem :=
  { content := fun p => if p = path then some data else none
    readable := fun _ => true
    writable := fun _ => true
    writeFails := fun _ => false }

/-- The sample compressors with a reader that answers `geometry` for every input
and a writer that answers "tree" for a root with children and "empty" otherwise. -/
def sampleEnvironment (geometry : Option FBXGeometry) : BakeEnvironment :=
  { sampleCollaborators with
    readOBJ := fun _ _ _ => geometry
    encodeFBX := fun root => if root.children.isEmpty then "empty" else "tree" }

/-- A session for the local file `/in/a.b.obj` on the file system `fs`: working
copy `/work/a.b.obj`, baked output directory `/out`, no mirror directory. -/
def sampleSession (fs : FileSystem) : BakeSession :=
  { baker := freshBaker 0
    _modelURL := { isLocalFile := true, toString := "file:///in/a.b.obj"
                   toLocalFile := "/in/a.b.obj", fileName := "a.b.obj" }
    _originalOutputDir := ""
    _originalModelFilePath := "/work/a.b.obj"
    _bakedOutputDir := "/out"
    _bakedModelFilePath := ""
    _outputFiles := []
    _errorList := []
    bakeOBJConnections := 0
    fileSystem := fs
    events := [] }

/-- The file system that holds only the working copy `/work/a.b.obj`. -/
def workingCopy : FileSystem := singleFile "/work/a.b.obj" "v 0 0 0"

/-- The sample environment on the end-to-end scenario document, with a mesh
compressor that reports failure and leaves the node it was given empty. -/
def failingMeshEnvironment : BakeEnvironment :=
  { sampleEnvironment (some defaultScenario) with
    compressMesh := fun _ _ => (false, FBXNode.empty) }

/-- The sample environment on the document `twoMaterialsOnePart`, with a texture
compressor that answers a null pointer. -/
def failingTextureEnvironment : BakeEnvironment :=
  { sampleEnvironment (some twoMaterialsOnePart) with
    compressTexture := fun _ _ _ => none }

/-- The sample compressors with a texture compressor that answers a null pointer. -/
def failingTextureCollaborators : Collaborators :=
  { sampleCollaborators with compressTexture := fun _ _ _ => none }

/-- A document with one mesh without parts and no material. -/
def emptyMeshDocument : FBXGeometry :=
  { meshes := [{ parts := [] }], materials := [] }

/-! ## Further sample sessions -/

/-- The file system that holds only the local input file `/in/a.b.obj`. -/
def localInput : FileSystem := singleFile "/in/a.b.obj" "v 0 0 0"

/-- The file system without files in which every path can be written. -/
def noFiles : FileSystem :=
  { content := fun _ => none
    readable := fun _ => true
    writable := fun _ => true
    writeFails := fun _ => false }

/-- The copy of `source` to `target` is made or cannot be made: the target
exists, the source cannot be read, or the target cannot be written. -/
def FileSystem.settled (fs : FileSystem) (source target : String) : Prop :=
  fs.fileExists target = true ∨ fs.readable source = false ∨ fs.writable target = false ∨
    fs.writeFails target = true

/-- A session for the remote reference `http://h/a.b.obj` on the file system
`fs`, before `bake`: working copy `/work/a.b.obj`, baked output directory
`/out`, mirror directory `/orig`. -/
def remoteSession (fs : FileSystem) : BakeSession :=
  { baker := freshBaker 0
    _modelURL := { isLocalFile := false, toString := "http://h/a.b.obj"
                   toLocalFile := "", fileName := "a.b.obj" }
    _originalOutputDir := "/orig"
    _originalModelFilePath := "/work/a.b.obj"
    _bakedOutputDir := "/out"
    _bakedModelFilePath := ""
    _outputFiles := []
    _errorList := []
    bakeOBJConnections := 0
    fileSystem := fs
    events := [] }

/-- The remote session after `bake`: `bakeOBJ` is connected to `OBJLoaded` and
the request is on its way. -/
def awaitingReply (fs : FileSystem) : BakeSession :=
  { remoteSession fs with bakeOBJConnections := 1, events := [BakeEvent.networkRequest] }

/-- The local sample session with `bakeOBJ` connected to `OBJLoaded`. -/
def connectedSession (fs : FileSystem) : BakeSession :=
  { sampleSession fs with bakeOBJConnections := 1 }

/-- A baker with the counter and the empty records of `freshBaker n`, whose
other members hold values left over from earlier work. -/
def staleBaker (n : Int) : OBJBaker :=
  { freshBaker n with
    _geometryID := 7, _modelID := 9, _textureID := 5
    _objectNode := { name := "stale", properties := [], children := [globalSettingsNode] } }

/-- A reply without transport error whose body is "v 0 0 0". -/
def sampleReply : QNetworkReply := { noError := true, body := "v 0 0 0" }

/-! ## The selection lists: `GameplayObjects` and `SelectionScriptingInterface` -/

/-- A `QUuid`; the selection code only compares identifiers for equality. -/
abbrev QUuid := Nat

/-- The identifier handed to the overloads of `addToGameplayObjects` and
`removeFromGameplayObjects`, with its static type: a plain `QUuid` (an avatar),
an `EntityItemID` or an `OverlayID`. -/
inductive ItemID where
  | avatar (avatarID : QUuid)
  | entity (entityID : QUuid)
  | overlay (overlayID : QUuid)
deriving DecidableEq

/-- The members of `GameplayObjects` used by lines 16-53. -/
structure GameplayObjects where
  containsData : Bool
  _avatarIDs : List QUuid
  _entityIDs : List QUuid
  _overlayIDs : List QUuid
deriving DecidableEq

/-- `GameplayObjects::GameplayObjects()` (lines 16-17): the three vectors start
empty. The initial value of `containsData` comes from the class definition,
which this translation unit does not contain; it is the parameter `flag`. -/
def GameplayObjects.constructed (flag : Bool) : GameplayObjects :=
  { containsData := flag, _avatarIDs := [], _entityIDs := [], _overlayIDs := [] }

/-- Lines 19-25, 32-38 and 45-51: the three overloads of
`GameplayObjects::addToGameplayObjects`, with the value returned. -/
def GameplayObjects.addToGameplayObjects (o : GameplayObjects) : ItemID → Bool × GameplayObjects
  | .avatar avatarID =>
    let o1 : GameplayObjects := { o with containsData := true }
    if avatarID ∉ o1._avatarIDs then
      (true, { o1 with _avatarIDs := o1._avatarIDs ++ [avatarID] })
    else (true, o1)
  | .entity entityID =>
    let o1 : GameplayObjects := { o with containsData := true }
    if entityID ∉ o1._entityIDs then
      (true, { o1 with _entityIDs := o1._entityIDs ++ [entityID] })
    else (true, o1)
  | .overlay overlayID =>
    let o1 : GameplayObjects := { o with containsData := true }
    if overlayID ∉ o1._overlayIDs then
      (true, { o1 with _overlayIDs := o1._overlayIDs ++ [overlayID] })
    else (true, o1)

/-- Lines 26-29, 39-42 and 52-55: the three overloads of
`GameplayObjects::removeFromGameplayObjects`; `erase(remove(...), end())` keeps
the elements different from the identifier, in their order. -/
def GameplayObjects.removeFromGameplayObjects (o : GameplayObjects) :
    ItemID → Bool × GameplayObjects
  | .avatar avatarID =>
    (true, { o with _avatarIDs := o._avatarIDs.filter (fun x => x != avatarID) })
  | .entity entityID =>
    (true, { o with _entityIDs := o._entityIDs.filter (fun x => x != entityID) })
  | .overlay overlayID =>
    (true, { o with _overlayIDs := o._overlayIDs.filter (fun x => x != overlayID) })

/-- `QMap::find`: the value stored under `key`, or `none` for `end()`. -/
def QMap.find {α : Type} : List (String × α) → String → Option α
  | [], _ => none
  | (k, v) :: rest, key => if k = key then some v else QMap.find rest key

/-- `QMap::value`: the value stored under `key`, or a default-constructed one. -/
def QMap.value {α : Type} (constructed : α) (m : List (String × α)) (key : String) : α :=
  (QMap.find m key).getD constructed

/-- `QMap::insert` and `operator[]` followed by an assignment: the value under
`key` is replaced, or a new entry is put at its place in key order (the
order of the characters, first difference first). -/
def QMap.insert {α : Type} : List (String × α) → String → α → List (String × α)
  | [], key, value => [(key, value)]
  | (k, v) :: rest, key, value =>
    if key = k then (key, value) :: rest
    else if key.data < k.data then (key, value) :: (k, v) :: rest
    else (k, v) :: QMap.insert rest key value

/-- A write through the iterator that `QMap::find` answered for `key`. -/
def QMap.assign {α : Type} : List (String × α) → String → α → List (String × α)
  | [], _, _ => []
  | (k, v) :: rest, key, value =>
    if k = key then (k, value) :: rest else (k, v) :: QMap.assign rest key value

/-- `QMap::remove`: the number of entries removed, and the map without them. -/
def QMap.remove {α : Type} (m : List (String × α)) (key : String) : Nat × List (String × α) :=
  ((m.filter (fun kv => kv.1 == key)).length, m.filter (fun kv => kv.1 != key))

/-- The members of `SelectionScriptingInterface` that the list functions use:
the selection map, the names that have a scene handler, and, in order, the
scene updates made and the `selectedItemsListChanged` signals emitted. -/
structure SelectionScriptingInterface where
  _selectedItemsListMap : List (String × GameplayObjects)
  _handlerMap : List String
  sceneUpdates : List String
  selectedItemsListChanged : List String

/-- Lines 347-357: the handler of the list, when there is one, updates the
scene (it reads the list and changes no selection), then the signal is emitted. -/
def SelectionScriptingInterface.onSelectedItemsListChanged (s : SelectionScriptingInterface)
    (listName : String) : SelectionScriptingInterface :=
  let s1 : SelectionScriptingInterface :=
    if listName ∈ s._handlerMap then { s with sceneUpdates := s.sceneUpdates ++ [listName] }
    else s
  { s1 with selectedItemsListChanged := s1.selectedItemsListChanged ++ [listName] }

/-- Lines 201-210: the template `addToGameplayObjects`. -/
def SelectionScriptingInterface.addToGameplayObjects (flag : Bool)
    (s : SelectionScriptingInterface) (listName : String) (idToAdd : ItemID) :
    Bool × SelectionScriptingInterface :=
  let currentList := QMap.value (GameplayObjects.constructed flag) s._selectedItemsListMap listName
  let currentList1 := (currentList.addToGameplayObjects idToAdd).2
  let s1 : SelectionScriptingInterface :=
    { s with _selectedItemsListMap := QMap.insert s._selectedItemsListMap listName currentList1 }
  (true, s1.onSelectedItemsListChanged listName)

/-- Lines 211-228: the template `removeFromGameplayObjects`. -/
def SelectionScriptingInterface.removeFromGameplayObjects (s : SelectionScriptingInterface)
    (listName : String) (idToRemove : ItemID) : Bool × SelectionScriptingInterface :=
  match QMap.find s._selectedItemsListMap listName with
  | some currentList =>
    let currentList1 := (currentList.removeFromGameplayObjects idToRemove).2
    let s1 : SelectionScriptingInterface :=
      { s with _selectedItemsListMap := QMap.assign s._selectedItemsListMap listName currentList1 }
    (true, s1.onSelectedItemsListChanged listName)
  | none => (false, s)

/-- Lines 72-81. -/
def SelectionScriptingInterface.addToSelectedItemsList (flag : Bool)
    (s : SelectionScriptingInterface) (listName itemType : String) (id : QUuid) :
    Bool × SelectionScriptingInterface :=
  if itemType = "avatar" then s.addToGameplayObjects flag listName (.avatar id)
  else if itemType = "entity" then s.addToGameplayObjects flag listName (.entity id)
  else if itemType = "overlay" then s.addToGameplayObjects flag listName (.overlay id)
  else (false, s)

/-- Lines 82-91. -/
def SelectionScriptingInterface.removeFromSelectedItemsList (s : SelectionScriptingInterface)
    (listName itemType : String) (id : QUuid) : Bool × SelectionScriptingInterface :=
  if itemType = "avatar" then s.removeFromGameplayObjects listName (.avatar id)
  else if itemType = "entity" then s.removeFromGameplayObjects listName (.entity id)
  else if itemType = "overlay" then s.removeFromGameplayObjects listName (.overlay id)
  else (false, s)

/-- Lines 93-100. -/
def SelectionScriptingInterface.clearSelectedItemsList (flag : Bool)
    (s : SelectionScriptingInterface) (listName : String) : Bool × SelectionScriptingInterface :=
  let cleared := QMap.insert s._selectedItemsListMap listName (GameplayObjects.constructed flag)
  let s1 : SelectionScriptingInterface := { s with _selectedItemsListMap := cleared }
  (true, s1.onSelectedItemsListChanged listName)

/-- Lines 314-326. -/
def SelectionScriptingInterface.removeListFromMap (s : SelectionScriptingInterface)
    (listName : String) : Bool × SelectionScriptingInterface :=
  let removed := QMap.remove s._selectedItemsListMap listName
  if removed.1 ≠ 0 then
    (true, SelectionScriptingInterface.onSelectedItemsListChanged
      { s with _selectedItemsListMap := removed.2 } listName)
  else (false, { s with _selectedItemsListMap := removed.2 })

/-- Lines 277-312: the `QVariantMap` returned, as its entries in key order; each
value is the `QList` of the identifiers. -/
def SelectionScriptingInterface.getSelectedItemsList (s : SelectionScriptingInterface)
    (listName : String) : List (String × List QUuid) :=
  let list : List (String × List QUuid) := []
  match QMap.find s._selectedItemsListMap listName with
  | some currentList =>
    let avatarIDs : List QUuid :=
      if currentList.containsData = true ∧ ¬ currentList._avatarIDs.isEmpty = true then
        currentList._avatarIDs.foldl (fun acc j => acc ++ [j]) []
      else []
    let entityIDs : List QUuid :=
      if currentList.containsData = true ∧ ¬ currentList._entityIDs.isEmpty = true then
        currentList._entityIDs.foldl (fun acc j => acc ++ [j]) []
      else []
    let overlayIDs : List QUuid :=
      if currentList.containsData = true ∧ ¬ currentList._overlayIDs.isEmpty = true then
        currentList._overlayIDs.foldl (fun acc j => acc ++ [j]) []
      else []
    let list1 := QMap.insert list "avatars" avatarIDs
    let list2 := QMap.insert list1 "entities" entityIDs
    let list3 := QMap.insert list2 "overlays" overlayIDs
    list3
  | none => list

/-- The interface after its constructor (lines 56-57): no list, no handler. -/
def SelectionScriptingInterface.constructed : SelectionScriptingInterface :=
  { _selectedItemsListMap := [], _handlerMap := [], sceneUpdates := [],
    selectedItemsListChanged := [] }

/-- A call of one of the two `GameplayObjects` member functions. -/
inductive GameplayCall where
  | addToGameplayObjects (id : ItemID)
  | removeFromGameplayObjects (id : ItemID)

/-- The object after a call. -/
def GameplayObjects.call (o : GameplayObjects) : GameplayCall → GameplayObjects
  | .addToGameplayObjects id => (o.addToGameplayObjects id).2
  | .removeFromGameplayObjects id => (o.removeFromGameplayObjects id).2

/-- The object after a sequence of calls, first call first. -/
def GameplayObjects.calls (o : GameplayObjects) (cs : List GameplayCall) : GameplayObjects :=
  cs.foldl GameplayObjects.call o

/-- The vector of a `GameplayObjects` that an identifier of the given static
type is kept in. -/
def GameplayObjects.idsFor (o : GameplayObjects) : ItemID → List QUuid
  | .avatar _ => o._avatarIDs
  | .entity _ => o._entityIDs
  | .overlay _ => o._overlayIDs

/-- The `QUuid` inside an identifier. -/
def ItemID.uuid : ItemID → QUuid
  | .avatar id => id
  | .entity id => id
  | .overlay id => id

/-- A call of one of the functions of the interface that write the selection map. -/
inductive SelectionCall where
  | addToSelectedItemsList (listName itemType : String) (id : QUuid)
  | removeFromSelectedItemsList (listName itemType : String) (id : QUuid)
  | clearSelectedItemsList (listName : String)
  | removeListFromMap (listName : String)

/-- The interface after a call. -/
def SelectionScriptingInterface.call (flag : Bool) (s : SelectionScriptingInterface) :
    SelectionCall → SelectionScriptingInterface
  | .addToSelectedItemsList listName itemType id =>
    (s.addToSelectedItemsList flag listName itemType id).2
  | .removeFromSelectedItemsList listName itemType id =>
    (s.removeFromSelectedItemsList listName itemType id).2
  | .clearSelectedItemsList listName => (s.clearSelectedItemsList flag listName).2
  | .removeListFromMap listName => (s.removeListFromMap listName).2

/-- The interface after a sequence of calls, first call first. -/
def SelectionScriptingInterface.calls (flag : Bool) (s : SelectionScriptingInterface)
    (cs : List SelectionCall) : SelectionScriptingInterface :=
  cs.foldl (SelectionScriptingInterface.call flag) s

/-- The vectors of an object whose `containsData` is not set are empty. -/
def GameplayObjects.consistent (o : GameplayObjects) : Prop :=
  o.containsData = false → o._avatarIDs = [] ∧ o._entityIDs = [] ∧ o._overlayIDs = []

/-- The static type of an identifier. -/
def ItemID.itemType : ItemID → String
  | .avatar _ => "avatar"
  | .entity _ => "entity"
  | .overlay _ => "overlay"

/-- A sample sequence of calls: two avatars and an entity are added to the
list "a", an overlay to the list "b"; the first avatar is added again and
then removed. -/
def sampleCalls : List SelectionCall :=
  [.addToSelectedItemsList "b" "overlay" 9, .addToSelectedItemsList "a" "avatar" 1,
   .addToSelectedItemsList "a" "avatar" 2, .addToSelectedItemsList "a" "entity" 7,
   .addToSelectedItemsList "a" "avatar" 1, .removeFromSelectedItemsList "a" "avatar" 1]

/-- A sample sequence of calls on one object: the avatars 1, 2 and 1 again are
added, then the entity 7, and the avatar 1 is removed. -/
def sampleGameplayCalls : List GameplayCall :=
  [.addToGameplayObjects (.avatar 1), .addToGameplayObjects (.avatar 2),
   .addToGameplayObjects (.avatar 1), .addToGameplayObjects (.entity 7),
   .removeFromGameplayObjects (.avatar 1)]

/-- Two materials with distinct albedo textures, each referenced by one of the
two mesh parts. -/
def twoTexturedParts : FBXGeometry :=
  { meshes := [{ parts := [{ materialID := "a" }, { materialID := "b" }] }]
    materials := [("a", texturedMaterial "a.png" ""), ("b", texturedMaterial "b.png" "")] }

/-- Three materials with the albedo textures "a.png", "b.png" and "c.png",
referenced in this order by the three mesh parts. -/
def threeTextures : FBXGeometry :=
  { meshes := [{ parts := [{ materialID := "a" }, { materialID := "b" }, { materialID := "c" }] }]
    materials := [("a", texturedMaterial "a.png" ""), ("b", texturedMaterial "b.png" ""),
      ("c", texturedMaterial "c.png" "")] }

/-- The sample compressors with a texture compressor that answers a null pointer
for the file `file` and succeeds on every other file. -/
def failsOn (file : String) : Collaborators :=
  { sampleCollaborators with
    compressTexture := fun _ f _ => if f = file then none else some ("baked/" ++ f) }

/-! ## Nodes -/

@[simp] theorem FBXNode.eta (node : FBXNode) :
    ({ name := node.name, properties := node.properties, children := node.children } : FBXNode) =
      node := by
  cases node
  rfl

/-! ## Machine integers -/

theorem nextNodeID_eq_add_one (n : Int) (hlo : -9223372036854775808 ≤ n)
    (hhi : n + 1 < 9223372036854775808) : nextNodeID n = n + 1 := by
  unfold nextNodeID wrap64
  omega

theorem iterate_nextNodeID_eq (k : Nat) : ∀ (n : Int), -9223372036854775808 ≤ n →
    n + k < 9223372036854775808 → nextNodeID^[k] n = n + k := by
  induction k with
  | zero => intro n _ _; simp
  | succ k ih =>
    intro n hlo hhi
    have h1 : nextNodeID n = n + 1 := nextNodeID_eq_add_one n hlo (by push_cast at hhi; omega)
    rw [Function.iterate_succ_apply, h1, ih (n + 1) (by omega) (by push_cast at hhi; omega)]
    push_cast
    ring

theorem mem_iterate_nextNodeID (k : Nat) (n x : Int) (hlo : -9223372036854775808 ≤ n)
    (hhi : n + k ≤ 9223372036854775808) (hx : x ∈ List.iterate nextNodeID n k) :
    ∃ j : Nat, j < k ∧ x = n + j := by
  rw [List.mem_iterate] at hx
  obtain ⟨j, hj, rfl⟩ := hx
  exact ⟨j, hj, iterate_nextNodeID_eq j n hlo (by omega)⟩

theorem pairwise_iterate_nextNodeID (k : Nat) : ∀ (n : Int), -9223372036854775808 ≤ n →
    n + k < 9223372036854775808 → (List.iterate nextNodeID n k).Pairwise (· < ·) := by
  induction k with
  | zero => intro n _ _; simp [List.iterate]
  | succ k ih =>
    intro n hlo hhi
    have h1 : nextNodeID n = n + 1 := nextNodeID_eq_add_one n hlo (by push_cast at hhi; omega)
    rw [List.iterate, List.pairwise_cons]
    refine ⟨?_, ih _ (by omega) (by push_cast at hhi; omega)⟩
    intro x hx
    obtain ⟨j, _, rfl⟩ := mem_iterate_nextNodeID k _ x (by omega) (by push_cast at hhi; omega) hx
    omega

/-! ## The material hash -/

theorem materialOf_touch (env : Collaborators) (g : FBXGeometry) (name key : String) :
    materialOf env (touch env g name) key = materialOf env g key := by
  unfold materialOf touch lookupOrInsert
  cases h : g.materials.lookup name with
  | some m => simp
  | none =>
    simp only [List.lookup_append]
    cases hk : g.materials.lookup key with
    | some m => simp
    | none =>
      by_cases hkn : key == name <;> simp [List.lookup, hkn]

theorem touch_meshes (env : Collaborators) (g : FBXGeometry) (name : String) :
    (touch env g name).meshes = g.meshes := rfl

theorem touch_length (env : Collaborators) (g : FBXGeometry) (name : String) :
    g.materials.length ≤ (touch env g name).materials.length := by
  unfold touch lookupOrInsert
  cases h : g.materials.lookup name <;> simp

theorem touch_of_lookup (env : Collaborators) (g : FBXGeometry) (name : String) (m : FBXMaterial)
    (h : g.materials.lookup name = some m) : touch env g name = g := by
  unfold touch lookupOrInsert
  simp [h]

theorem materialOf_of_lookup (env : Collaborators) (g : FBXGeometry) (name : String)
    (m : FBXMaterial) (h : g.materials.lookup name = some m) : materialOf env g name = m := by
  unfold materialOf lookupOrInsert
  simp [h]

theorem materialNameFor_of_length (g : FBXGeometry) (p : FBXMeshPart)
    (h : g.materials.length ≠ 1) : materialNameFor g p = p.materialID := by
  unfold materialNameFor
  split
  · rename_i k m heq
    simp [heq] at h
  · rfl

theorem materialNameFor_single (g : FBXGeometry) (p : FBXMeshPart) (k : String) (m : FBXMaterial)
    (h : g.materials = [(k, m)]) : materialNameFor g p = k := by
  unfold materialNameFor
  simp [h]

/-! ## `setMaterialNodeProperties` and the material loop -/

theorem setMaterialNodeProperties_eq (env : Collaborators) (b : OBJBaker) (node : FBXNode)
    (name : String) (g : FBXGeometry) :
    setMaterialNodeProperties env b node name g =
      ({ b with _nodeID := nextNodeID b._nodeID, _materialIDs := b._materialIDs ++ [b._nodeID] },
       { node with
          properties := [.longlong b._nodeID, .qstring name, .byteArray MESH]
          children := node.children ++ [materialProperties70 (materialOf env g name)] },
       touch env g name) := rfl

theorem materialNodeFor_eq (env : Collaborators) (b : OBJBaker) (p : FBXMeshPart)
    (g : FBXGeometry) :
    materialNodeFor env b p g =
      ({ b with _nodeID := nextNodeID b._nodeID, _materialIDs := b._materialIDs ++ [b._nodeID] },
       materialNodeOf b._nodeID (materialNameFor g p) (materialOf env g (materialNameFor g p)),
       touch env g (materialNameFor g p)) := by
  unfold materialNodeFor
  by_cases h : g.materials.length = 1
  · obtain ⟨⟨k, m⟩, hkm⟩ := List.length_eq_one.mp h
    rw [if_pos h, materialNameFor_single g p k m hkm]
    simp [hkm, materialKeys, setMaterialNodeProperties_eq, materialNodeOf]
  · rw [if_neg h, materialNameFor_of_length g p h]
    simp [setMaterialNodeProperties_eq, materialNodeOf]

theorem materialNames_length (env : Collaborators) (parts : List FBXMeshPart) :
    ∀ g : FBXGeometry, (materialNames env parts g).length = parts.length := by
  induction parts with
  | nil => intro g; rfl
  | cons p ps ih => intro g; simp [materialNames, ih]

theorem materialNames_of_two_le (env : Collaborators) (parts : List FBXMeshPart) :
    ∀ g : FBXGeometry, 2 ≤ g.materials.length →
      materialNames env parts g = parts.map (fun p => p.materialID) := by
  induction parts with
  | nil => intro g _; rfl
  | cons p ps ih =>
    intro g hg
    have h1 : materialNameFor g p = p.materialID := materialNameFor_of_length g p (by omega)
    have h2 := touch_length env g p.materialID
    simp [materialNames, h1, ih (touch env g p.materialID) (by omega)]

theorem materialNames_single (env : Collaborators) (parts : List FBXMeshPart) (g : FBXGeometry)
    (k : String) (m : FBXMaterial) (h : g.materials = [(k, m)]) :
    materialNames env parts g = List.replicate parts.length k := by
  induction parts with
  | nil => rfl
  | cons p ps ih =>
    have h1 : materialNameFor g p = k := materialNameFor_single g p k m h
    have h2 : touch env g k = g := touch_of_lookup env g k m (by simp [h])
    simp [materialNames, h1, h2, ih, List.replicate_succ]

/-- The document after the material loop. -/
theorem materialLoop_geometry (env : Collaborators) (parts : List FBXMeshPart) :
    ∀ (b : OBJBaker) (g : FBXGeometry),
      (materialLoop env parts b g).2.meshes = g.meshes ∧
      ∀ key, materialOf env (materialLoop env parts b g).2 key = materialOf env g key := by
  induction parts with
  | nil => intro b g; simp [materialLoop]
  | cons p ps ih =>
    intro b g
    simp only [materialLoop, materialNodeFor_eq]
    refine ⟨?_, ?_⟩
    · rw [(ih _ _).1, touch_meshes]
    · intro key
      rw [(ih _ _).2, materialOf_touch]

/-- The baker after the material loop: one identity and one node per mesh part. -/
theorem materialLoop_baker (env : Collaborators) (parts : List FBXMeshPart) :
    ∀ (b : OBJBaker) (g : FBXGeometry),
      (materialLoop env parts b g).1 =
        { b with
          _nodeID := nextNodeID^[parts.length] b._nodeID
          _materialIDs := b._materialIDs ++ List.iterate nextNodeID b._nodeID parts.length
          _objectNode :=
            { b._objectNode with
              children := b._objectNode.children ++
                List.zipWith (fun id name => materialNodeOf id name (materialOf env g name))
                  (List.iterate nextNodeID b._nodeID parts.length) (materialNames env parts g) } } := by
  induction parts with
  | nil => intro b g; simp [materialLoop, materialNames, List.iterate]
  | cons p ps ih =>
    intro b g
    simp only [materialLoop, materialNodeFor_eq]
    rw [ih]
    simp [materialNames, List.iterate, FBXNode.appendChild, materialOf_touch]

/-! ## The texture loop -/

theorem textureLoop_nil (env : Collaborators) (i : Nat) (b : OBJBaker) (g : FBXGeometry) :
    textureLoop env [] i b g = (true, b, g) := rfl

theorem textureLoop_cons (env : Collaborators) (p : FBXMeshPart) (ps : List FBXMeshPart) (i : Nat)
    (b : OBJBaker) (g : FBXGeometry) :
    textureLoop env (p :: ps) i b g =
      if hasTexture (materialOf env g p.materialID) then
        match env.compressTexture b.textureCalls
            (textureFileName (materialOf env g p.materialID))
            (textureContentTypeCallback (materialOf env g p.materialID)) with
        | none =>
          (false,
           { b with
              _nodeID := nextNodeID b._nodeID
              _textureID := b._nodeID
              _mapTextureMaterial := b._mapTextureMaterial ++ [(b._nodeID, i)]
              textureCalls := b.textureCalls ++
                [(textureFileName (materialOf env g p.materialID),
                  textureContentTypeCallback (materialOf env g p.materialID))] },
           touch env g p.materialID)
        | some textureFile =>
          textureLoop env ps (i + 1)
            { b with
              _nodeID := nextNodeID b._nodeID
              _textureID := b._nodeID
              _mapTextureMaterial := b._mapTextureMaterial ++ [(b._nodeID, i)]
              textureCalls := b.textureCalls ++
                [(textureFileName (materialOf env g p.materialID),
                  textureContentTypeCallback (materialOf env g p.materialID))]
              _objectNode := b._objectNode.appendChild
                (textureNodeOf b._nodeID (texturePropertyString (materialOf env g p.materialID))
                  textureFile) }
            (touch env g p.materialID)
      else textureLoop env ps (i + 1) b (touch env g p.materialID) := by
  simp only [textureLoop, hasTexture, materialOf, touch, textureNodeOf]

/-- What the texture loop leaves behind in every case: the identities and part
indices it recorded, and the nodes it appended. -/
theorem textureLoop_ids (env : Collaborators) (parts : List FBXMeshPart) :
    ∀ (i : Nat) (b : OBJBaker) (g : FBXGeometry), ∃ (idxs : List Nat) (nodes : List FBXNode),
      (textureLoop env parts i b g).2.1._mapTextureMaterial =
        b._mapTextureMaterial ++ (List.iterate nextNodeID b._nodeID idxs.length).zip idxs ∧
      (textureLoop env parts i b g).2.1._nodeID = nextNodeID^[idxs.length] b._nodeID ∧
      idxs.length ≤ parts.length ∧
      idxs.Pairwise (· < ·) ∧
      (∀ j ∈ idxs, i ≤ j ∧ j < i + parts.length) ∧
      (textureLoop env parts i b g).2.1._materialIDs = b._materialIDs ∧
      (textureLoop env parts i b g).2.1._geometryID = b._geometryID ∧
      (textureLoop env parts i b g).2.1._modelID = b._modelID ∧
      (textureLoop env parts i b g).2.1._objectNode.children = b._objectNode.children ++ nodes ∧
      (∀ node ∈ nodes, node.name = TEXTURE_NODE_NAME) := by
  induction parts with
  | nil =>
    intro i b g
    exact ⟨[], [], by simp [textureLoop_nil, List.iterate]⟩
  | cons p ps ih =>
    intro i b g
    rw [textureLoop_cons]
    by_cases hT : hasTexture (materialOf env g p.materialID)
    · rw [if_pos hT]
      cases hc : env.compressTexture b.textureCalls
          (textureFileName (materialOf env g p.materialID))
          (textureContentTypeCallback (materialOf env g p.materialID)) with
      | none =>
        refine ⟨[i], [], ?_⟩
        simp [List.iterate]
      | some f =>
        simp only
        obtain ⟨idxs, nodes, h1, h2, h3, h4, h5, h6, h7, h8, h9, h10⟩ := ih (i + 1)
          { b with
              _nodeID := nextNodeID b._nodeID
              _textureID := b._nodeID
              _mapTextureMaterial := b._mapTextureMaterial ++ [(b._nodeID, i)]
              textureCalls := b.textureCalls ++
                [(textureFileName (materialOf env g p.materialID),
                  textureContentTypeCallback (materialOf env g p.materialID))]
              _objectNode := b._objectNode.appendChild
                (textureNodeOf b._nodeID (texturePropertyString (materialOf env g p.materialID)) f) }
          (touch env g p.materialID)
        refine ⟨i :: idxs, textureNodeOf b._nodeID
          (texturePropertyString (materialOf env g p.materialID)) f :: nodes, ?_⟩
        rw [h1, h2, h6, h7, h8, h9]
        refine ⟨by simp [List.iterate], by simp [Function.iterate_succ_apply], by simp; omega,
          ?_, ?_, rfl, rfl, rfl, by simp [FBXNode.appendChild], ?_⟩
        · rw [List.pairwise_cons]
          exact ⟨fun j hj => by have := h5 j hj; omega, h4⟩
        · intro j hj
          rcases List.mem_cons.mp hj with rfl | hj
          · simp
          · have := h5 j hj
            simp only [List.length_cons]
            omega
        · intro node hnode
          rcases List.mem_cons.mp hnode with rfl | hnode
          · rfl
          · exact h10 node hnode
    · rw [if_neg hT]
      obtain ⟨idxs, nodes, h1, h2, h3, h4, h5, h6, h7, h8, h9, h10⟩ :=
        ih (i + 1) b (touch env g p.materialID)
      refine ⟨idxs, nodes, h1, h2, by simp; omega, h4, ?_, h6, h7, h8, h9, h10⟩
      intro j hj
      have := h5 j hj
      simp only [List.length_cons]
      omega

/-- The texture loop when it runs to its end: everything it leaves behind is
read off the texture steps, and every step's file name is the compressor's answer. -/
theorem textureLoop_completed (env : Collaborators) (matOf : String → FBXMaterial)
    (parts : List FBXMeshPart) :
    ∀ (i : Nat) (b : OBJBaker) (g : FBXGeometry),
      (∀ key, materialOf env g key = matOf key) →
      (textureLoop env parts i b g).1 = true →
      (∃ tid, (textureLoop env parts i b g).2.1 =
        { b with
          _nodeID := nextNodeID^[(textureSteps env matOf parts i b._nodeID b.textureCalls).length]
            b._nodeID
          _textureID := tid
          _mapTextureMaterial := b._mapTextureMaterial ++
            (textureSteps env matOf parts i b._nodeID b.textureCalls).map (fun s => (s.id, s.index))
          textureCalls := b.textureCalls ++
            (textureSteps env matOf parts i b._nodeID b.textureCalls).map TextureStep.request
          _objectNode :=
            { b._objectNode with
              children := b._objectNode.children ++
                (textureSteps env matOf parts i b._nodeID b.textureCalls).map TextureStep.node } }) ∧
      ∀ s ∈ textureSteps env matOf parts i b._nodeID b.textureCalls,
        env.compressTexture s.history s.request.1 s.request.2 = some s.file := by
  induction parts with
  | nil =>
    intro i b g _ _
    exact ⟨⟨b._textureID, by simp [textureLoop_nil, textureSteps]⟩, by simp [textureSteps]⟩
  | cons p ps ih =>
    intro i b g hg hc
    rw [textureLoop_cons] at hc ⊢
    have hm : matOf p.materialID = materialOf env g p.materialID := (hg _).symm
    have hg1 : ∀ key, materialOf env (touch env g p.materialID) key = matOf key := by
      intro key
      rw [materialOf_touch, hg]
    by_cases hT : hasTexture (materialOf env g p.materialID)
    · rw [if_pos hT] at hc ⊢
      cases hf : env.compressTexture b.textureCalls
          (textureFileName (materialOf env g p.materialID))
          (textureContentTypeCallback (materialOf env g p.materialID)) with
      | none => simp [hf] at hc
      | some f =>
        simp only [hf] at hc ⊢
        obtain ⟨⟨tid, h1⟩, h2⟩ := ih (i + 1) _ _ hg1 hc
        refine ⟨⟨tid, ?_⟩, ?_⟩
        · rw [h1]
          simp [textureSteps, hm, hT, hf, FBXNode.appendChild, TextureStep.request,
            TextureStep.node, Function.iterate_succ_apply]
        · intro s hs
          simp only [textureSteps, hm, hT, if_true, hf, Option.getD_some, List.mem_cons] at hs
          rcases hs with rfl | hs
          · exact hf
          · exact h2 s hs
    · rw [if_neg hT] at hc ⊢
      obtain ⟨⟨tid, h1⟩, h2⟩ := ih (i + 1) b _ hg1 hc
      refine ⟨⟨tid, ?_⟩, ?_⟩
      · rw [h1]
        simp [textureSteps, hm, hT]
      · intro s hs
        simp only [textureSteps, hm, hT, if_false] at hs
        exact h2 s hs

/-- The texture loop runs to its end when the compressor never answers a null pointer. -/
theorem textureLoop_succeeds (env : Collaborators)
    (hok : ∀ h f u, env.compressTexture h f u ≠ none) (parts : List FBXMeshPart) :
    ∀ (i : Nat) (b : OBJBaker) (g : FBXGeometry), (textureLoop env parts i b g).1 = true := by
  induction parts with
  | nil => intro i b g; rfl
  | cons p ps ih =>
    intro i b g
    rw [textureLoop_cons]
    by_cases hT : hasTexture (materialOf env g p.materialID)
    · rw [if_pos hT]
      cases hf : env.compressTexture b.textureCalls
          (textureFileName (materialOf env g p.materialID))
          (textureContentTypeCallback (materialOf env g p.materialID)) with
      | none => exact absurd hf (hok _ _ _)
      | some f => exact ih _ _ _
    · rw [if_neg hT]
      exact ih _ _ _

/-- The texture loop without textured parts does nothing to the baker. -/
theorem textureLoop_untextured (env : Collaborators) (parts : List FBXMeshPart) :
    ∀ (i : Nat) (b : OBJBaker) (g : FBXGeometry),
      (∀ p ∈ parts, ¬ hasTexture (materialOf env g p.materialID)) →
      (textureLoop env parts i b g).1 = true ∧ (textureLoop env parts i b g).2.1 = b := by
  induction parts with
  | nil => intro i b g _; exact ⟨rfl, rfl⟩
  | cons p ps ih =>
    intro i b g h
    rw [textureLoop_cons, if_neg (h p (List.mem_cons_self _ _))]
    apply ih
    intro q hq
    rw [materialOf_touch]
    exact h q (List.mem_cons_of_mem _ hq)

/-! ## The texture steps -/

theorem textureSteps_id (env : Collaborators) (matOf : String → FBXMaterial)
    (parts : List FBXMeshPart) : ∀ (i : Nat) (n : Int) (h : List TextureRequest),
      (textureSteps env matOf parts i n h).map (fun s => s.id) =
        List.iterate nextNodeID n (textureSteps env matOf parts i n h).length := by
  induction parts with
  | nil => intro i n h; rfl
  | cons p ps ih =>
    intro i n h
    by_cases hT : hasTexture (matOf p.materialID)
    · simp [textureSteps, hT, List.iterate, ih]
    · simp [textureSteps, hT, ih]

theorem textureSteps_index (env : Collaborators) (matOf : String → FBXMaterial)
    (parts : List FBXMeshPart) : ∀ (i : Nat) (n : Int) (h : List TextureRequest),
      (textureSteps env matOf parts i n h).map (fun s => s.index) =
        ((parts.enumFrom i).filter (fun ip => hasTexture (matOf ip.2.materialID))).map Prod.fst := by
  induction parts with
  | nil => intro i n h; rfl
  | cons p ps ih =>
    intro i n h
    by_cases hT : hasTexture (matOf p.materialID)
    · simp [textureSteps, hT, ih, List.filter_cons]
    · simp [textureSteps, hT, ih, List.filter_cons]

theorem textureSteps_material (env : Collaborators) (matOf : String → FBXMaterial)
    (parts : List FBXMeshPart) : ∀ (i : Nat) (n : Int) (h : List TextureRequest),
      (textureSteps env matOf parts i n h).map (fun s => s.material) =
        (parts.map (fun p => matOf p.materialID)).filter (fun m => hasTexture m) := by
  induction parts with
  | nil => intro i n h; rfl
  | cons p ps ih =>
    intro i n h
    by_cases hT : hasTexture (matOf p.materialID)
    · simp [textureSteps, hT, ih, List.filter_cons]
    · simp [textureSteps, hT, ih, List.filter_cons]

theorem textureSteps_part (env : Collaborators) (matOf : String → FBXMaterial)
    (parts : List FBXMeshPart) : ∀ (i : Nat) (n : Int) (h : List TextureRequest),
      ∀ s ∈ textureSteps env matOf parts i n h, hasTexture s.material ∧
        ∃ p, parts[s.index - i]? = some p ∧ i ≤ s.index ∧ s.material = matOf p.materialID := by
  induction parts with
  | nil => intro i n h s hs; simp [textureSteps] at hs
  | cons p ps ih =>
    intro i n h s hs
    have key : ∀ n1 h1, s ∈ textureSteps env matOf ps (i + 1) n1 h1 → hasTexture s.material ∧
        ∃ q, (p :: ps)[s.index - i]? = some q ∧ i ≤ s.index ∧ s.material = matOf q.materialID := by
      intro n1 h1 hs1
      obtain ⟨hT1, q, hq, hle, hmat⟩ := ih (i + 1) n1 h1 s hs1
      refine ⟨hT1, q, ?_, by omega, hmat⟩
      have : s.index - i = (s.index - (i + 1)) + 1 := by omega
      rw [this, List.getElem?_cons_succ]
      exact hq
    by_cases hT : hasTexture (matOf p.materialID)
    · simp only [textureSteps, hT, if_true, List.mem_cons] at hs
      rcases hs with rfl | hs
      · exact ⟨hT, p, by simp, le_refl _, rfl⟩
      · exact key _ _ hs
    · simp only [textureSteps, hT, if_false] at hs
      exact key _ _ hs

theorem textureSteps_mem_index (env : Collaborators) (matOf : String → FBXMaterial)
    (parts : List FBXMeshPart) : ∀ (i : Nat) (n : Int) (h : List TextureRequest) (k : Nat)
      (p : FBXMeshPart), parts[k]? = some p →
      (i + k ∈ (textureSteps env matOf parts i n h).map (fun s => s.index) ↔
        hasTexture (matOf p.materialID)) := by
  intro i n h k p hp
  rw [textureSteps_index]
  simp only [List.mem_map, List.mem_filter, decide_eq_true_eq]
  constructor
  · rintro ⟨⟨j, q⟩, ⟨hmem, hq⟩, hj⟩
    simp only at hj hq
    subst hj
    have := List.mk_mem_enumFrom_iff_le_and_getElem?_sub.mp hmem
    simp only [Nat.add_sub_cancel_left] at this
    rw [hp] at this
    cases this.2
    exact hq
  · intro hT
    refine ⟨(i + k, p), ⟨?_, hT⟩, rfl⟩
    rw [List.mk_mem_enumFrom_iff_le_and_getElem?_sub]
    simp [hp]

theorem textureSteps_history (env : Collaborators) (matOf : String → FBXMaterial)
    (parts : List FBXMeshPart) : ∀ (i : Nat) (n : Int) (h : List TextureRequest) (k : Nat)
      (s : TextureStep), (textureSteps env matOf parts i n h)[k]? = some s →
      s.history = h ++ ((textureSteps env matOf parts i n h).take k).map TextureStep.request := by
  induction parts with
  | nil => intro i n h k s hs; simp [textureSteps] at hs
  | cons p ps ih =>
    intro i n h k s hs
    by_cases hT : hasTexture (matOf p.materialID)
    · simp only [textureSteps, hT, if_true] at hs ⊢
      cases k with
      | zero =>
        simp only [List.getElem?_cons_zero, Option.some.injEq] at hs
        subst hs
        simp
      | succ k =>
        simp only [List.getElem?_cons_succ] at hs
        rw [ih _ _ _ k s hs]
        simp [TextureStep.request]
    · simp only [textureSteps, hT, if_false] at hs ⊢
      exact ih _ _ _ k s hs

theorem textureSteps_index_pairwise (env : Collaborators) (matOf : String → FBXMaterial)
    (parts : List FBXMeshPart) (i : Nat) (n : Int) (h : List TextureRequest) :
    ((textureSteps env matOf parts i n h).map (fun s => s.index)).Pairwise (· < ·) := by
  rw [textureSteps_index, List.pairwise_map]
  apply List.Pairwise.filter
  rw [← List.pairwise_map (f := Prod.fst) (R := fun a b : Nat => a < b), List.enumFrom_map_fst]
  exact List.pairwise_lt_range' i parts.length

/-! ## The connections -/

theorem connectMaterials_eq (modelID : Int) (ids : List Int) : ∀ c : FBXNode,
    connectMaterials modelID ids c =
      { c with children := c.children ++ ids.map (fun m => cNodeOO m modelID) } := by
  induction ids with
  | nil => intro c; simp [connectMaterials]
  | cons m ms ih => intro c; simp [connectMaterials, ih, FBXNode.appendChild]

theorem connectTextures_eq (mats : List Int) (pairs : List (Int × Nat)) : ∀ c : FBXNode,
    (∀ tm ∈ pairs, tm.2 < mats.length) →
    connectTextures mats pairs c =
      some { c with children := c.children ++ textureEdges mats pairs } := by
  induction pairs with
  | nil => intro c _; simp [connectTextures, textureEdges]
  | cons tm rest ih =>
    intro c h
    have h1 : tm.2 < mats.length := h tm (List.mem_cons_self _ _)
    have h2 : mats[tm.2]? = some (mats.getD tm.2 0) := by
      simp [List.getD_eq_getElem?_getD, List.getElem?_eq_getElem h1]
    simp only [connectTextures, h2]
    rw [ih _ (fun x hx => h x (List.mem_cons_of_mem _ hx))]
    simp [textureEdges, FBXNode.appendChild]

theorem connectTextures_some (mats : List Int) (pairs : List (Int × Nat)) : ∀ c c1 : FBXNode,
    connectTextures mats pairs c = some c1 → ∀ tm ∈ pairs, tm.2 < mats.length := by
  induction pairs with
  | nil => intro c c1 _ tm htm; simp at htm
  | cons p rest ih =>
    intro c c1 h tm htm
    simp only [connectTextures] at h
    cases hp : mats[p.2]? with
    | none => simp [hp] at h
    | some m =>
      simp only [hp] at h
      rcases List.mem_cons.mp htm with rfl | htm
      · exact (List.getElem?_eq_some.mp hp).1
      · exact ih _ _ h tm htm

/-! ## `createFBXNodeTree` -/

theorem createFBXNodeTree_nil (env : Collaborators) (b : OBJBaker) (root : FBXNode)
    (g : FBXGeometry) (hg : g.meshes = []) : createFBXNodeTree env b root g = none := by
  simp [createFBXNodeTree, hg]

theorem createFBXNodeTree_cons (env : Collaborators) (b : OBJBaker) (root : FBXNode)
    (g : FBXGeometry) (mesh0 : FBXMesh) (rest : List FBXMesh) (hg : g.meshes = mesh0 :: rest) :
    createFBXNodeTree env b root g =
      if (afterLoops env b g mesh0).1 = false then
        some { completed := false, baker := (afterLoops env b g mesh0).2.1, rootNode := root
               geometry := (afterLoops env b g mesh0).2.2 }
      else
        match connectTextures (afterLoops env b g mesh0).2.1._materialIDs
            (afterLoops env b g mesh0).2.1._mapTextureMaterial
            { name := CONNECTIONS_NODE_NAME
              properties := []
              children :=
                cNodeOO (afterLoops env b g mesh0).2.1._geometryID
                    (afterLoops env b g mesh0).2.1._modelID ::
                  (afterLoops env b g mesh0).2.1._materialIDs.map
                    (fun m => cNodeOO m (afterLoops env b g mesh0).2.1._modelID) } with
        | none => none
        | some connectionsNode =>
          some { completed := true
                 baker := (afterLoops env b g mesh0).2.1
                 rootNode :=
                   { root with
                     children := [globalSettingsNode, (afterLoops env b g mesh0).2.1._objectNode,
                       connectionsNode] }
                 geometry := (afterLoops env b g mesh0).2.2 } := by
  simp only [createFBXNodeTree, hg, connectMaterials_eq, afterLoops, bakerAfterModel,
    geometryNodeOf, modelNodeOf, FBXNode.appendChild, List.nil_append, List.singleton_append]

/-- The baker at line 299 in every case. -/
theorem afterLoops_ids (env : Collaborators) (b : OBJBaker) (g : FBXGeometry) (mesh0 : FBXMesh) :
    ∃ (idxs : List Nat) (nodes : List FBXNode),
      (afterLoops env b g mesh0).2.1._geometryID = b._nodeID ∧
      (afterLoops env b g mesh0).2.1._modelID = nextNodeID b._nodeID ∧
      (afterLoops env b g mesh0).2.1._materialIDs =
        b._materialIDs ++ newMaterialIDs b mesh0.parts.length ∧
      (afterLoops env b g mesh0).2.1._mapTextureMaterial = b._mapTextureMaterial ++
        (List.iterate nextNodeID (firstTextureID b mesh0.parts.length) idxs.length).zip idxs ∧
      (afterLoops env b g mesh0).2.1._nodeID =
        nextNodeID^[idxs.length] (firstTextureID b mesh0.parts.length) ∧
      idxs.length ≤ mesh0.parts.length ∧
      idxs.Pairwise (· < ·) ∧
      (∀ j ∈ idxs, j < mesh0.parts.length) ∧
      (afterLoops env b g mesh0).2.1._objectNode.children =
        geometryNodeOf b._nodeID (env.compressMesh mesh0 false).2 ::
          modelNodeOf (nextNodeID (nextNodeID b._nodeID)) ::
            (newMaterialNodes env b g mesh0 ++ nodes) ∧
      (∀ node ∈ nodes, node.name = TEXTURE_NODE_NAME) := by
  obtain ⟨idxs, nodes, h1, h2, h3, h4, h5, h6, h7, h8, h9, h10⟩ :=
    textureLoop_ids env mesh0.parts 0
      (materialLoop env mesh0.parts (bakerAfterModel env b mesh0) g).1
      (materialLoop env mesh0.parts (bakerAfterModel env b mesh0) g).2
  refine ⟨idxs, nodes, ?_, ?_, ?_, ?_, ?_, h3, h4, ?_, ?_, h10⟩
  · rw [afterLoops, h7, materialLoop_baker]; rfl
  · rw [afterLoops, h8, materialLoop_baker]; rfl
  · rw [afterLoops, h6, materialLoop_baker]; rfl
  · rw [afterLoops, h1, materialLoop_baker]; rfl
  · rw [afterLoops, h2, materialLoop_baker]; rfl
  · intro j hj
    have := h5 j hj
    omega
  · rw [afterLoops, h9, materialLoop_baker]
    simp [bakerAfterModel, newMaterialNodes, newMaterialIDs]

/-- The baker at line 299 when the texture loop ran to its end. -/
theorem afterLoops_completed (env : Collaborators) (b : OBJBaker) (g : FBXGeometry)
    (mesh0 : FBXMesh) (hc : (afterLoops env b g mesh0).1 = true) :
    (∃ tid, (afterLoops env b g mesh0).2.1 =
      { _nodeID := nextNodeID^[(newTextureSteps env b g mesh0).length]
          (firstTextureID b mesh0.parts.length)
        _geometryID := b._nodeID
        _modelID := nextNodeID b._nodeID
        _textureID := tid
        _materialIDs := b._materialIDs ++ newMaterialIDs b mesh0.parts.length
        _mapTextureMaterial := b._mapTextureMaterial ++
          (newTextureSteps env b g mesh0).map (fun s => (s.id, s.index))
        _objectNode :=
          { name := OBJECTS_NODE_NAME
            properties := b._objectNode.properties
            children :=
              geometryNodeOf b._nodeID (env.compressMesh mesh0 false).2 ::
                modelNodeOf (nextNodeID (nextNodeID b._nodeID)) ::
                  (newMaterialNodes env b g mesh0 ++
                    (newTextureSteps env b g mesh0).map TextureStep.node) }
        textureCalls := b.textureCalls ++
          (newTextureSteps env b g mesh0).map TextureStep.request }) ∧
    ∀ s ∈ newTextureSteps env b g mesh0,
      env.compressTexture s.history s.request.1 s.request.2 = some s.file := by
  have hgeo := (materialLoop_geometry env mesh0.parts (bakerAfterModel env b mesh0) g).2
  obtain ⟨⟨tid, h1⟩, h2⟩ := textureLoop_completed env (materialOf env g) mesh0.parts 0
    (materialLoop env mesh0.parts (bakerAfterModel env b mesh0) g).1
    (materialLoop env mesh0.parts (bakerAfterModel env b mesh0) g).2 hgeo hc
  rw [materialLoop_baker] at h1 h2
  refine ⟨⟨tid, ?_⟩, ?_⟩
  · rw [afterLoops, materialLoop_baker, h1]
    simp [bakerAfterModel, newTextureSteps, firstTextureID, newMaterialNodes, newMaterialIDs]
  · simpa [bakerAfterModel, newTextureSteps, firstTextureID] using h2

/-- What a call returns, in terms of the state at line 299. -/
theorem createFBXNodeTree_some (env : Collaborators) (b : OBJBaker) (root : FBXNode)
    (g : FBXGeometry) (mesh0 : FBXMesh) (rest : List FBXMesh) (hg : g.meshes = mesh0 :: rest)
    (r : BuildResult) (h : createFBXNodeTree env b root g = some r) :
    r.baker = (afterLoops env b g mesh0).2.1 ∧
    r.completed = (afterLoops env b g mesh0).1 ∧
    r.geometry = (afterLoops env b g mesh0).2.2 ∧
    (r.completed = false → r.rootNode = root) ∧
    (r.completed = true →
      r.rootNode =
        { root with children := [globalSettingsNode, r.baker._objectNode, connectionsNodeOf r.baker] } ∧
      ∀ tm ∈ r.baker._mapTextureMaterial, tm.2 < r.baker._materialIDs.length) := by
  rw [createFBXNodeTree_cons env b root g mesh0 rest hg] at h
  by_cases hc : (afterLoops env b g mesh0).1 = false
  · rw [if_pos hc] at h
    cases h
    simp [hc]
  · rw [if_neg hc] at h
    have hc1 : (afterLoops env b g mesh0).1 = true := by simpa using hc
    cases hct : connectTextures (afterLoops env b g mesh0).2.1._materialIDs
        (afterLoops env b g mesh0).2.1._mapTextureMaterial
        { name := CONNECTIONS_NODE_NAME
          properties := []
          children :=
            cNodeOO (afterLoops env b g mesh0).2.1._geometryID
                (afterLoops env b g mesh0).2.1._modelID ::
              (afterLoops env b g mesh0).2.1._materialIDs.map
                (fun m => cNodeOO m (afterLoops env b g mesh0).2.1._modelID) } with
    | none => simp [hct] at h
    | some c =>
      have hrange := connectTextures_some _ _ _ _ hct
      rw [connectTextures_eq _ _ _ hrange] at hct
      simp only [Option.some.injEq] at hct
      simp only [hct.symm, connectTextures_eq _ _ _ hrange, Option.some.injEq] at h
      subst h
      refine ⟨rfl, hc1.symm, rfl, ?_, ?_⟩
      · intro hf
        simp at hf
      · intro _
        exact ⟨by simp [connectionsNodeOf], hrange⟩

/-- On a baker that has recorded no material and no texture yet, a call on a
document with at least one mesh always returns. -/
theorem createFBXNodeTree_fresh (env : Collaborators) (b : OBJBaker) (root : FBXNode)
    (g : FBXGeometry) (mesh0 : FBXMesh) (rest : List FBXMesh) (hg : g.meshes = mesh0 :: rest)
    (hm : b._materialIDs = []) (ht : b._mapTextureMaterial = []) :
    ∃ r, createFBXNodeTree env b root g = some r := by
  rw [createFBXNodeTree_cons env b root g mesh0 rest hg]
  by_cases hc : (afterLoops env b g mesh0).1 = false
  · rw [if_pos hc]
    exact ⟨_, rfl⟩
  · rw [if_neg hc]
    obtain ⟨idxs, nodes, _, _, h3, h4, _, _, _, h8, _, _⟩ := afterLoops_ids env b g mesh0
    have hrange : ∀ tm ∈ (afterLoops env b g mesh0).2.1._mapTextureMaterial,
        tm.2 < (afterLoops env b g mesh0).2.1._materialIDs.length := by
      intro tm htm
      rw [h4, ht, List.nil_append] at htm
      rw [h3, hm, List.nil_append, newMaterialIDs, List.length_iterate]
      exact h8 tm.2 (List.of_mem_zip htm).2
    rw [connectTextures_eq _ _ _ hrange]
    exact ⟨_, rfl⟩

/-! ## Documents with a single material and no texture -/

theorem zipWith_replicate_right {α β γ : Type} (f : α → β → γ) (k : β) (l : List α) (n : Nat)
    (h : n = l.length) : List.zipWith f l (List.replicate n k) = l.map (fun a => f a k) := by
  subst h
  induction l with
  | nil => simp
  | cons a l ih => simp [List.replicate_succ, ih]

theorem createFBXNodeTree_single_material (env : Collaborators) (b : OBJBaker) (root : FBXNode)
    (g : FBXGeometry) (mesh0 : FBXMesh) (rest : List FBXMesh) (k : String) (m : FBXMaterial)
    (hg : g.meshes = mesh0 :: rest) (hmat : g.materials = [(k, m)]) (hno : ¬ hasTexture m)
    (hparts : ∀ p ∈ mesh0.parts, p.materialID = k)
    (hm : b._materialIDs = []) (ht : b._mapTextureMaterial = []) :
    ∃ r, createFBXNodeTree env b root g = some r ∧ r.completed = true ∧
      r.baker._geometryID = b._nodeID ∧ r.baker._modelID = nextNodeID b._nodeID ∧
      r.baker._materialIDs = newMaterialIDs b mesh0.parts.length ∧
      r.baker._mapTextureMaterial = [] ∧
      r.baker._nodeID = nextNodeID^[mesh0.parts.length] (nextNodeID (nextNodeID b._nodeID)) ∧
      r.baker._objectNode =
        { name := OBJECTS_NODE_NAME
          properties := b._objectNode.properties
          children :=
            geometryNodeOf b._nodeID (env.compressMesh mesh0 false).2 ::
              modelNodeOf (nextNodeID (nextNodeID b._nodeID)) ::
                (newMaterialIDs b mesh0.parts.length).map (fun id => materialNodeOf id k m) } ∧
      r.rootNode =
        { root with
          children := [globalSettingsNode, r.baker._objectNode,
            { name := CONNECTIONS_NODE_NAME
              properties := []
              children := cNodeOO b._nodeID (nextNodeID b._nodeID) ::
                (newMaterialIDs b mesh0.parts.length).map
                  (fun id => cNodeOO id (nextNodeID b._nodeID)) }] } := by
  have hk : materialOf env g k = m := materialOf_of_lookup env g k m (by simp [hmat])
  have hgeo := (materialLoop_geometry env mesh0.parts (bakerAfterModel env b mesh0) g).2
  obtain ⟨hc, hb⟩ := textureLoop_untextured env mesh0.parts 0
    (materialLoop env mesh0.parts (bakerAfterModel env b mesh0) g).1
    (materialLoop env mesh0.parts (bakerAfterModel env b mesh0) g).2
    (by
      intro p hp
      rw [hgeo, hparts p hp, hk]
      exact hno)
  have hb1 : (afterLoops env b g mesh0).2.1 =
      (materialLoop env mesh0.parts (bakerAfterModel env b mesh0) g).1 := hb
  have hc1 : (afterLoops env b g mesh0).1 = true := hc
  obtain ⟨r, hr⟩ := createFBXNodeTree_fresh env b root g mesh0 rest hg hm ht
  obtain ⟨h1, h2, _, _, h5⟩ := createFBXNodeTree_some env b root g mesh0 rest hg r hr
  have hcomp : r.completed = true := by rw [h2, hc1]
  have hbaker : r.baker =
      { bakerAfterModel env b mesh0 with
        _nodeID := nextNodeID^[mesh0.parts.length] (nextNodeID (nextNodeID b._nodeID))
        _materialIDs := newMaterialIDs b mesh0.parts.length
        _objectNode :=
          { name := OBJECTS_NODE_NAME
            properties := b._objectNode.properties
            children :=
              geometryNodeOf b._nodeID (env.compressMesh mesh0 false).2 ::
                modelNodeOf (nextNodeID (nextNodeID b._nodeID)) ::
                  (newMaterialIDs b mesh0.parts.length).map (fun id => materialNodeOf id k m) } } := by
    rw [h1, hb1, materialLoop_baker, materialNames_single env mesh0.parts g k m hmat,
      zipWith_replicate_right _ _ _ _ (by simp [List.length_iterate]), hk]
    simp [bakerAfterModel, hm, newMaterialIDs]
  refine ⟨r, hr, hcomp, ?_, ?_, ?_, ?_, ?_, ?_, ?_⟩
  · rw [hbaker]; rfl
  · rw [hbaker]; rfl
  · rw [hbaker]
  · rw [hbaker]; exact ht
  · rw [hbaker]
  · rw [hbaker]
  · rw [(h5 hcomp).1, hbaker]
    simp [connectionsNodeOf, bakerAfterModel, ht, textureEdges]

theorem countNamed_map_materialNodeOf (ids : List Int) (k : String) (m : FBXMaterial) :
    countNamed MATERIAL_NODE_NAME (ids.map (fun id => materialNodeOf id k m)) = ids.length := by
  induction ids with
  | nil => rfl
  | cons a l ih =>
    simp only [countNamed, List.map_cons, List.length_cons] at ih ⊢
    rw [List.countP_cons_of_pos _ _ (by simp [materialNodeOf]), ih]

theorem countEdges_map_cNodeOO (kind : String) (ids : List Int) (target : Int) :
    countEdges kind (ids.map (fun id => cNodeOO id target)) =
      if kind = CONNECTIONS_NODE_PROPERTY then ids.length else 0 := by
  induction ids with
  | nil => simp [countEdges]
  | cons a l ih =>
    simp only [countEdges, List.map_cons, List.length_cons] at ih ⊢
    by_cases hk : kind = CONNECTIONS_NODE_PROPERTY
    · rw [if_pos hk] at ih ⊢
      rw [List.countP_cons_of_pos _ _ (by simp [cNodeOO, FBXNode.edgeKind, hk]), ih]
    · rw [if_neg hk] at ih ⊢
      rw [List.countP_cons_of_neg _ _ (by
        simp [cNodeOO, FBXNode.edgeKind]
        exact fun h => hk h.symm), ih]

theorem countEdges_textureEdges (kind : String) (mats : List Int) (pairs : List (Int × Nat)) :
    countEdges kind (textureEdges mats pairs) =
      if kind = CONNECTIONS_NODE_PROPERTY_1 then 2 * pairs.length else 0 := by
  induction pairs with
  | nil => simp [countEdges, textureEdges]
  | cons a l ih =>
    simp only [countEdges, textureEdges, List.flatMap_cons, List.length_cons,
      List.countP_append] at ih ⊢
    by_cases hk : kind = CONNECTIONS_NODE_PROPERTY_1
    · rw [if_pos hk] at ih ⊢
      rw [ih]
      simp [List.countP_cons, cNodeOP, FBXNode.edgeKind, hk]
      omega
    · rw [if_neg hk] at ih ⊢
      rw [ih]
      have hk1 : ¬ CONNECTIONS_NODE_PROPERTY_1 = kind := fun h => hk h.symm
      simp [List.countP_cons, cNodeOP, FBXNode.edgeKind, hk1]

theorem countEdges_cons (kind : String) (node : FBXNode) (nodes : List FBXNode) :
    countEdges kind (node :: nodes) =
      countEdges kind nodes + if node.edgeKind = some kind then 1 else 0 := by
  simp [countEdges, List.countP_cons]

theorem countEdges_append (kind : String) (l1 l2 : List FBXNode) :
    countEdges kind (l1 ++ l2) = countEdges kind l1 + countEdges kind l2 := by
  simp [countEdges, List.countP_append]

theorem countNamed_cons (name : String) (node : FBXNode) (nodes : List FBXNode) :
    countNamed name (node :: nodes) =
      countNamed name nodes + if node.name = name then 1 else 0 := by
  simp [countNamed, List.countP_cons]

theorem countNamed_append (name : String) (l1 l2 : List FBXNode) :
    countNamed name (l1 ++ l2) = countNamed name l1 + countNamed name l2 := by
  simp [countNamed, List.countP_append]

theorem iterate_nextNodeID_add_two (k : Nat) (n : Int) :
    nextNodeID^[k + 2] n = nextNodeID^[k] (nextNodeID (nextNodeID n)) := by
  rw [Function.iterate_add_apply]
  rfl

/-! ## Calls that run to the end -/

/-- The result of a call that ran to its last line. -/
theorem createFBXNodeTree_completed (env : Collaborators) (b : OBJBaker) (root : FBXNode)
    (g : FBXGeometry) (mesh0 : FBXMesh) (rest : List FBXMesh) (hg : g.meshes = mesh0 :: rest)
    (r : BuildResult) (h : createFBXNodeTree env b root g = some r) (hc : r.completed = true) :
    (∃ tid, r.baker =
      { _nodeID := nextNodeID^[(newTextureSteps env b g mesh0).length]
          (firstTextureID b mesh0.parts.length)
        _geometryID := b._nodeID
        _modelID := nextNodeID b._nodeID
        _textureID := tid
        _materialIDs := b._materialIDs ++ newMaterialIDs b mesh0.parts.length
        _mapTextureMaterial := b._mapTextureMaterial ++
          (newTextureSteps env b g mesh0).map (fun s => (s.id, s.index))
        _objectNode :=
          { name := OBJECTS_NODE_NAME
            properties := b._objectNode.properties
            children :=
              geometryNodeOf b._nodeID (env.compressMesh mesh0 false).2 ::
                modelNodeOf (nextNodeID (nextNodeID b._nodeID)) ::
                  (newMaterialNodes env b g mesh0 ++
                    (newTextureSteps env b g mesh0).map TextureStep.node) }
        textureCalls := b.textureCalls ++
          (newTextureSteps env b g mesh0).map TextureStep.request }) ∧
    (∀ s ∈ newTextureSteps env b g mesh0,
      env.compressTexture s.history s.request.1 s.request.2 = some s.file) ∧
    r.rootNode =
      { root with children := [globalSettingsNode, r.baker._objectNode, connectionsNodeOf r.baker] } ∧
    ∀ tm ∈ r.baker._mapTextureMaterial, tm.2 < r.baker._materialIDs.length := by
  obtain ⟨h1, h2, _, _, h5⟩ := createFBXNodeTree_some env b root g mesh0 rest hg r h
  have hc1 : (afterLoops env b g mesh0).1 = true := by rw [← h2, hc]
  obtain ⟨⟨tid, h6⟩, h7⟩ := afterLoops_completed env b g mesh0 hc1
  exact ⟨⟨tid, by rw [h1, h6]⟩, h7, (h5 hc).1, (h5 hc).2⟩

/-- With compressors that never fail, a call on a baker that has recorded no
material and no texture runs to its last line. -/
theorem createFBXNodeTree_fresh_completed (env : Collaborators) (b : OBJBaker) (root : FBXNode)
    (g : FBXGeometry) (mesh0 : FBXMesh) (rest : List FBXMesh) (hg : g.meshes = mesh0 :: rest)
    (hok : ∀ h f u, env.compressTexture h f u ≠ none)
    (hm : b._materialIDs = []) (ht : b._mapTextureMaterial = []) :
    ∃ r, createFBXNodeTree env b root g = some r ∧ r.completed = true := by
  obtain ⟨r, hr⟩ := createFBXNodeTree_fresh env b root g mesh0 rest hg hm ht
  obtain ⟨_, h2, _⟩ := createFBXNodeTree_some env b root g mesh0 rest hg r hr
  refine ⟨r, hr, ?_⟩
  rw [h2]
  exact textureLoop_succeeds env hok _ _ _ _

theorem newTextureSteps_length (env : Collaborators) (b : OBJBaker) (g : FBXGeometry)
    (mesh0 : FBXMesh) :
    (newTextureSteps env b g mesh0).length = (texturedMaterials env g mesh0.parts).length := by
  have h := congrArg List.length
    (textureSteps_material env (materialOf env g) mesh0.parts 0
      (firstTextureID b mesh0.parts.length) b.textureCalls)
  rw [List.length_map] at h
  exact h

theorem texturedMaterials_length_of_all (env : Collaborators) (g : FBXGeometry)
    (parts : List FBXMeshPart) (h : ∀ p ∈ parts, hasTexture (materialOf env g p.materialID)) :
    (texturedMaterials env g parts).length = parts.length := by
  unfold texturedMaterials
  rw [List.filter_eq_self.mpr]
  · simp
  · intro m hm
    obtain ⟨p, hp, rfl⟩ := List.mem_map.mp hm
    simpa using h p hp

/-! ## Identities carried by the emitted nodes, and their order -/

theorem identity_zipWith_materialNodeOf (F : String → FBXMaterial) (ids : List Int) :
    ∀ names : List String, names.length = ids.length →
      (List.zipWith (fun id name => materialNodeOf id name (F name)) ids names).map
        FBXNode.identity = ids.map some := by
  induction ids with
  | nil => intro names _; simp
  | cons a l ih =>
    intro names h
    cases names with
    | nil => simp at h
    | cons c names =>
      simp only [List.zipWith_cons_cons, List.map_cons, ih names (by simpa using h)]
      rfl

theorem newMaterialNodes_identity (env : Collaborators) (b : OBJBaker) (g : FBXGeometry)
    (mesh0 : FBXMesh) :
    (newMaterialNodes env b g mesh0).map FBXNode.identity =
      (newMaterialIDs b mesh0.parts.length).map some := by
  unfold newMaterialNodes
  apply identity_zipWith_materialNodeOf
  rw [materialNames_length, newMaterialIDs, List.length_iterate]

theorem newMaterialNodes_length (env : Collaborators) (b : OBJBaker) (g : FBXGeometry)
    (mesh0 : FBXMesh) : (newMaterialNodes env b g mesh0).length = mesh0.parts.length := by
  simp [newMaterialNodes, newMaterialIDs, List.length_iterate, materialNames_length]

theorem name_zipWith_materialNodeOf (F : String → FBXMaterial) (ids : List Int) :
    ∀ names : List String,
      ∀ node ∈ List.zipWith (fun id name => materialNodeOf id name (F name)) ids names,
        node.name = MATERIAL_NODE_NAME := by
  induction ids with
  | nil => intro names node h; simp at h
  | cons a l ih =>
    intro names node h
    cases names with
    | nil => simp at h
    | cons c names =>
      rw [List.zipWith_cons_cons, List.mem_cons] at h
      rcases h with rfl | h
      · rfl
      · exact ih names node h

theorem newMaterialNodes_name (env : Collaborators) (b : OBJBaker) (g : FBXGeometry)
    (mesh0 : FBXMesh) :
    ∀ node ∈ newMaterialNodes env b g mesh0, node.name = MATERIAL_NODE_NAME :=
  name_zipWith_materialNodeOf _ _ _

theorem iterate_nextNodeID_range (k : Nat) : ∀ (n : Int), -9223372036854775808 ≤ n →
    n + k < 9223372036854775808 →
    List.iterate nextNodeID n k = (List.range k).map (fun j : Nat => n + j) := by
  induction k with
  | zero => intro n _ _; simp [List.iterate]
  | succ k ih =>
    intro n hlo hhi
    have h1 : nextNodeID n = n + 1 := nextNodeID_eq_add_one n hlo (by push_cast at hhi; omega)
    rw [List.iterate, h1, ih (n + 1) (by omega) (by push_cast at hhi; omega),
      List.range_succ_eq_map]
    simp only [List.map_cons, List.map_map, Nat.cast_zero, add_zero, List.cons.injEq, true_and]
    apply List.map_congr_left
    intro j _
    simp only [Function.comp, Nat.cast_succ]
    ring

theorem pairwise_zip_lt (l1 : List Int) : ∀ l2 : List Nat, l1.Pairwise (· < ·) →
    l2.Pairwise (· < ·) → (l1.zip l2).Pairwise (fun s t => s.1 < t.1 ∧ s.2 < t.2) := by
  induction l1 with
  | nil => intro l2 _ _; simp
  | cons a l ih =>
    intro l2 h1 h2
    cases l2 with
    | nil => simp
    | cons c l2 =>
      rw [List.zip_cons_cons, List.pairwise_cons]
      rw [List.pairwise_cons] at h1 h2
      refine ⟨?_, ih l2 h1.2 h2.2⟩
      intro st hst
      have := List.of_mem_zip hst
      exact ⟨h1.1 _ this.1, h2.1 _ this.2⟩

theorem map_fst_zip_of_length {α β : Type} (l1 : List α) : ∀ l2 : List β,
    l1.length = l2.length → (l1.zip l2).map Prod.fst = l1 := by
  induction l1 with
  | nil => intro l2 _; simp
  | cons a l ih =>
    intro l2 h
    cases l2 with
    | nil => simp at h
    | cons c l2 => simp [ih l2 (by simpa using h)]

/-! ## Further facts on `createFBXNodeTree` -/

theorem createFBXNodeTree_meshes (env : Collaborators) (b : OBJBaker) (root : FBXNode)
    (g : FBXGeometry) (r : BuildResult) (h : createFBXNodeTree env b root g = some r) :
    ∃ mesh0 rest, g.meshes = mesh0 :: rest := by
  cases hg : g.meshes with
  | nil => rw [createFBXNodeTree_nil env b root g hg] at h; cases h
  | cons mesh0 rest => exact ⟨mesh0, rest, rfl⟩

theorem newTextureSteps_length_le (env : Collaborators) (b : OBJBaker) (g : FBXGeometry)
    (mesh0 : FBXMesh) : (newTextureSteps env b g mesh0).length ≤ mesh0.parts.length := by
  rw [newTextureSteps_length, texturedMaterials]
  exact (List.length_filter_le _ _).trans (by simp)

theorem newTextureSteps_name (env : Collaborators) (b : OBJBaker) (g : FBXGeometry)
    (mesh0 : FBXMesh) :
    ∀ node ∈ (newTextureSteps env b g mesh0).map TextureStep.node,
      node.name = TEXTURE_NODE_NAME := by
  intro node hnode
  obtain ⟨s, _, rfl⟩ := List.mem_map.mp hnode
  rfl

theorem newTextureSteps_identity (env : Collaborators) (b : OBJBaker) (g : FBXGeometry)
    (mesh0 : FBXMesh) :
    ((newTextureSteps env b g mesh0).map TextureStep.node).map FBXNode.identity =
      ((newTextureSteps env b g mesh0).map (fun s => s.id)).map some := by
  rw [List.map_map, List.map_map]
  apply List.map_congr_left
  intro s _
  rfl

/-- The texture loop when it leaves the function at line 289: the compressor
calls made are those for the textured parts up to the part at which the
compressor answered a null pointer, which is the last call. -/
theorem textureLoop_aborted (env : Collaborators) (matOf : String → FBXMaterial)
    (parts : List FBXMeshPart) :
    ∀ (i : Nat) (b : OBJBaker) (g : FBXGeometry),
      (∀ key, materialOf env g key = matOf key) →
      (textureLoop env parts i b g).1 = false →
      ∃ (k : Nat) (p : FBXMeshPart), parts[k]? = some p ∧ hasTexture (matOf p.materialID) ∧
        (textureLoop env parts i b g).2.1.textureCalls =
          b.textureCalls ++
            (((parts.take (k + 1)).map (fun q => matOf q.materialID)).filter
              (fun m => hasTexture m)).map
              (fun m => (textureFileName m, textureContentTypeCallback m)) ∧
        env.compressTexture
            (b.textureCalls ++
              (((parts.take k).map (fun q => matOf q.materialID)).filter
                (fun m => hasTexture m)).map
                (fun m => (textureFileName m, textureContentTypeCallback m)))
            (textureFileName (matOf p.materialID))
            (textureContentTypeCallback (matOf p.materialID)) = none := by
  induction parts with
  | nil => intro i b g _ hc; simp [textureLoop_nil] at hc
  | cons q qs ih =>
    intro i b g hg hc
    rw [textureLoop_cons] at hc ⊢
    have hm : materialOf env g q.materialID = matOf q.materialID := hg _
    have hg1 : ∀ key, materialOf env (touch env g q.materialID) key = matOf key := by
      intro key
      rw [materialOf_touch, hg]
    rw [hm] at hc ⊢
    by_cases hT : hasTexture (matOf q.materialID)
    · rw [if_pos hT] at hc ⊢
      cases hf : env.compressTexture b.textureCalls (textureFileName (matOf q.materialID))
          (textureContentTypeCallback (matOf q.materialID)) with
      | none =>
        refine ⟨0, q, by simp, hT, ?_, ?_⟩
        · simp [hT]
        · simpa using hf
      | some f =>
        simp only [hf] at hc ⊢
        obtain ⟨k, p, hp, hTp, hcalls, hnone⟩ := ih (i + 1) _ _ hg1 hc
        refine ⟨k + 1, p, by simpa using hp, hTp, ?_, ?_⟩
        · rw [hcalls]
          simp [List.filter_cons, hT]
        · simpa [List.filter_cons, hT] using hnone
    · rw [if_neg hT] at hc ⊢
      obtain ⟨k, p, hp, hTp, hcalls, hnone⟩ := ih (i + 1) b _ hg1 hc
      refine ⟨k + 1, p, by simpa using hp, hTp, ?_, ?_⟩
      · rw [hcalls]
        simp [List.filter_cons, hT]
      · simpa [List.filter_cons, hT] using hnone

theorem materialLoop_textureCalls (env : Collaborators) (parts : List FBXMeshPart) (b : OBJBaker)
    (g : FBXGeometry) : (materialLoop env parts b g).1.textureCalls = b.textureCalls := by
  rw [materialLoop_baker]

/-! ## `QString::lastIndexOf` and `QString::left` -/

theorem lastIndexOfFrom_not_mem (ch : Char) (l : List Char) :
    ∀ (i : Nat) (last : Int), ch ∉ l → lastIndexOfFrom ch l i last = last := by
  induction l with
  | nil => intro i last _; rfl
  | cons c rest ih =>
    intro i last h
    have hc : ¬ c = ch := fun e => h (by simp [e])
    have hrest : ch ∉ rest := fun e => h (List.mem_cons_of_mem _ e)
    simp only [lastIndexOfFrom, if_neg hc]
    exact ih _ _ hrest

theorem lastIndexOfFrom_append (ch : Char) (ext : List Char) (hext : ch ∉ ext)
    (pre : List Char) : ∀ (i : Nat) (last : Int),
      lastIndexOfFrom ch (pre ++ ch :: ext) i last = (i : Int) + pre.length := by
  induction pre with
  | nil =>
    intro i last
    simp only [List.nil_append, lastIndexOfFrom, if_true, List.length_nil]
    rw [lastIndexOfFrom_not_mem ch ext _ _ hext]
    simp
  | cons c rest ih =>
    intro i last
    have := ih (i + 1) (if c = ch then (i : Int) else last)
    simp only [List.cons_append, lastIndexOfFrom, List.length_cons]
    rw [show rest.append (ch :: ext) = rest ++ ch :: ext from rfl, this]
    push_cast
    ring

/-- The base name of a file name with an extension is the text before the last dot. -/
theorem left_lastIndexOf_dot (pre ext : String) (hext : '.' ∉ ext.data) :
    left (pre ++ "." ++ ext) (lastIndexOf (pre ++ "." ++ ext) '.') = pre := by
  have hdata : (pre ++ "." ++ ext).data = pre.data ++ '.' :: ext.data := by
    simp [String.data_append]
  have hidx : lastIndexOf (pre ++ "." ++ ext) '.' = (pre.data.length : Int) := by
    rw [lastIndexOf, hdata, lastIndexOfFrom_append '.' ext.data hext]
    simp
  rw [hidx, left, hdata]
  have hnot : ¬ (((pre.data.length : Nat) : Int) < 0 ∨
      (((pre.data ++ '.' :: ext.data).length : Nat) : Int) ≤ ((pre.data.length : Nat) : Int)) := by
    simp only [List.length_append, List.length_cons]
    omega
  rw [if_neg hnot]
  simp

/-- A file name without a dot is its own base name. -/
theorem left_lastIndexOf_no_dot (name : String) (h : '.' ∉ name.data) :
    left name (lastIndexOf name '.') = name := by
  rw [lastIndexOf, lastIndexOfFrom_not_mem '.' name.data _ _ h, left]
  simp

/-! ## `bakeOBJ` -/

/-- The session at line 153, after the tree has been built and serialized. -/
theorem bakeOBJ_of_built (env : BakeEnvironment) (s : BakeSession) (objData : String)
    (geometry : FBXGeometry) (built : BuildResult)
    (hread : s.fileSystem.openForReading s._originalModelFilePath = some objData)
    (hparse : env.readOBJ objData true s._modelURL = some geometry)
    (hbuild : createFBXNodeTree env.toCollaborators s.baker FBXNode.empty geometry = some built) :
    bakeOBJ env s =
      if s.fileSystem.writable (bakedModelFilePathFor s) = false then
        some (handleError
          { s with baker := built.baker
                   events := s.events ++ [BakeEvent.bakeOBJ, BakeEvent.readOBJ,
                     BakeEvent.createFBXNodeTree, BakeEvent.encodeFBX]
                   _bakedModelFilePath := bakedModelFilePathFor s }
          ("Error opening " ++ bakedModelFilePathFor s ++ " for writing"))
      else
        some { s with baker := built.baker
                      _bakedModelFilePath := bakedModelFilePathFor s
                      fileSystem := s.fileSystem.writeAll (bakedModelFilePathFor s)
                        (env.encodeFBX built.rootNode)
                      _outputFiles := s._outputFiles ++ [bakedModelFilePathFor s]
                      events := s.events ++ [BakeEvent.bakeOBJ, BakeEvent.readOBJ,
                        BakeEvent.createFBXNodeTree, BakeEvent.encodeFBX, BakeEvent.finished] } := by
  simp only [bakeOBJ, hread, hparse, hbuild, bakedModelFilePathFor, List.append_assoc,
    List.singleton_append, List.cons_append, List.nil_append]

/-- The only errors `bakeOBJ` records are the two failures to open a file. -/
theorem bakeOBJ_errors (env : BakeEnvironment) (s s1 : BakeSession)
    (h : bakeOBJ env s = some s1) :
    s1._errorList = s._errorList ∨
    s1._errorList =
      s._errorList ++ ["Error opening " ++ s._originalModelFilePath ++ " for reading"] ∨
    s1._errorList =
      s._errorList ++ ["Error opening " ++ bakedModelFilePathFor s ++ " for writing"] := by
  cases hread : s.fileSystem.openForReading s._originalModelFilePath with
  | none =>
    simp only [bakeOBJ, hread] at h
    cases h
    exact Or.inr (Or.inl rfl)
  | some objData =>
    cases hparse : env.readOBJ objData true s._modelURL with
    | none => simp [bakeOBJ, hread, hparse] at h
    | some geometry =>
      cases hbuild : createFBXNodeTree env.toCollaborators s.baker FBXNode.empty geometry with
      | none => simp [bakeOBJ, hread, hparse, hbuild] at h
      | some built =>
        rw [bakeOBJ_of_built env s objData geometry built hread hparse hbuild] at h
        by_cases hw : s.fileSystem.writable (bakedModelFilePathFor s) = false
        · rw [if_pos hw] at h
          cases h
          exact Or.inr (Or.inr rfl)
        · rw [if_neg hw] at h
          cases h
          exact Or.inl rfl

/-- When the tree is built, `bakeOBJ` returns with the computed output path. -/
theorem bakeOBJ_path_of_built (env : BakeEnvironment) (s : BakeSession) (objData : String)
    (geometry : FBXGeometry) (built : BuildResult)
    (hread : s.fileSystem.openForReading s._originalModelFilePath = some objData)
    (hparse : env.readOBJ objData true s._modelURL = some geometry)
    (hbuild : createFBXNodeTree env.toCollaborators s.baker FBXNode.empty geometry = some built) :
    ∃ s1, bakeOBJ env s = some s1 ∧ s1._bakedModelFilePath = bakedModelFilePathFor s ∧
      s1.baker = built.baker := by
  rw [bakeOBJ_of_built env s objData geometry built hread hparse hbuild]
  by_cases hw : s.fileSystem.writable (bakedModelFilePathFor s) = false
  · rw [if_pos hw]
    exact ⟨_, rfl, rfl, rfl⟩
  · rw [if_neg hw]
    exact ⟨_, rfl, rfl, rfl⟩

/-! ## Files -/

/-- `QFile::copy` leaves every existing file as it is. -/
theorem copy_content_of_exists (fs : FileSystem) (source target p : String)
    (hp : fs.fileExists p = true) : (fs.copy source target).content p = fs.content p := by
  unfold FileSystem.copy
  cases fs.openForReading source with
  | none => rfl
  | some data =>
    simp only
    split
    · rfl
    · rename_i hcond
      have hne : p ≠ target := by
        intro e
        apply hcond
        left
        rw [← e]
        exact hp
      simp [FileSystem.store, hne]

theorem copy_readable (fs : FileSystem) (source target : String) :
    (fs.copy source target).readable = fs.readable := by
  unfold FileSystem.copy
  cases fs.openForReading source with
  | none => rfl
  | some data =>
    simp only
    split <;> rfl

theorem copy_writable (fs : FileSystem) (source target : String) :
    (fs.copy source target).writable = fs.writable := by
  unfold FileSystem.copy
  cases fs.openForReading source with
  | none => rfl
  | some data =>
    simp only
    split <;> rfl

theorem copy_writeFails (fs : FileSystem) (source target : String) :
    (fs.copy source target).writeFails = fs.writeFails := by
  unfold FileSystem.copy
  cases fs.openForReading source with
  | none => rfl
  | some data =>
    simp only
    split <;> rfl

/-- After `QFile::copy`, copying the same source to the same target again changes nothing. -/
theorem copy_copy_same (fs : FileSystem) (source target : String) :
    (fs.copy source target).copy source target = fs.copy source target := by
  by_cases hex : fs.fileExists target = true
  · have h1 : fs.copy source target = fs := by
      unfold FileSystem.copy
      cases fs.openForReading source with
      | none => rfl
      | some data => simp [hex]
    rw [h1, h1]
  · cases hsrc : fs.openForReading source with
    | none =>
      have h1 : fs.copy source target = fs := by
        unfold FileSystem.copy
        rw [hsrc]
      rw [h1, h1]
    | some data =>
      by_cases hcond : fs.writable target = false ∨ fs.writeFails target = true
      · have h1 : fs.copy source target = fs := by
          unfold FileSystem.copy
          rw [hsrc]
          simp only
          rw [if_pos (Or.inr hcond)]
        rw [h1, h1]
      · have h1 : fs.copy source target = fs.store target data := by
          unfold FileSystem.copy
          rw [hsrc]
          simp only
          rw [if_neg]
          intro h
          rcases h with h | h
          · exact hex h
          · exact hcond h
        rw [h1]
        unfold FileSystem.copy
        cases (fs.store target data).openForReading source with
        | none => rfl
        | some d2 =>
          simp only
          rw [if_pos]
          left
          simp [FileSystem.fileExists, FileSystem.store]

/-! ## Signals and stages -/

/-- The events of a call of `bakeOBJ` that returns: it ends with one `finished`. -/
theorem bakeOBJ_events (env : BakeEnvironment) (s s1 : BakeSession)
    (h : bakeOBJ env s = some s1) :
    (s1.events = s.events ++ [BakeEvent.bakeOBJ, BakeEvent.finished] ∨
      s1.events = s.events ++ [BakeEvent.bakeOBJ, BakeEvent.readOBJ,
        BakeEvent.createFBXNodeTree, BakeEvent.encodeFBX, BakeEvent.finished]) ∧
    s1.bakeOBJConnections = s.bakeOBJConnections := by
  cases hread : s.fileSystem.openForReading s._originalModelFilePath with
  | none =>
    simp only [bakeOBJ, hread] at h
    cases h
    exact ⟨Or.inl (by simp [handleError]), rfl⟩
  | some objData =>
    cases hparse : env.readOBJ objData true s._modelURL with
    | none => simp [bakeOBJ, hread, hparse] at h
    | some geometry =>
      cases hbuild : createFBXNodeTree env.toCollaborators s.baker FBXNode.empty geometry with
      | none => simp [bakeOBJ, hread, hparse, hbuild] at h
      | some built =>
        rw [bakeOBJ_of_built env s objData geometry built hread hparse hbuild] at h
        by_cases hw : s.fileSystem.writable (bakedModelFilePathFor s) = false
        · rw [if_pos hw] at h
          cases h
          exact ⟨Or.inr (by simp [handleError]), rfl⟩
        · rw [if_neg hw] at h
          cases h
          exact ⟨Or.inr rfl, rfl⟩

/-- The slots connected to `OBJLoaded` only add events, none of them `OBJLoaded`. -/
theorem runSlots_events (env : BakeEnvironment) (n : Nat) : ∀ (s s1 : BakeSession),
    runSlots (bakeOBJ env) n s = some s1 →
    ∃ rest, s1.events = s.events ++ rest ∧ BakeEvent.OBJLoaded ∉ rest ∧
      rest.count BakeEvent.finished = n := by
  induction n with
  | zero =>
    intro s s1 h
    simp only [runSlots, Option.some.injEq] at h
    subst h
    exact ⟨[], by simp, by simp, by simp⟩
  | succ n ih =>
    intro s s1 h
    simp only [runSlots] at h
    cases hb : bakeOBJ env s with
    | none => simp [hb] at h
    | some s2 =>
      simp only [hb, Option.some_bind] at h
      obtain ⟨rest, h1, h2, h3⟩ := ih s2 s1 h
      obtain ⟨hev, _⟩ := bakeOBJ_events env s s2 hb
      rcases hev with hev | hev
      · refine ⟨[BakeEvent.bakeOBJ, BakeEvent.finished] ++ rest, ?_, ?_, ?_⟩
        · rw [h1, hev, List.append_assoc]
        · simp only [List.mem_append, not_or]
          exact ⟨by decide, h2⟩
        · rw [List.count_append, h3]
          simp [List.count_cons]
          omega
      · refine ⟨[BakeEvent.bakeOBJ, BakeEvent.readOBJ, BakeEvent.createFBXNodeTree,
          BakeEvent.encodeFBX, BakeEvent.finished] ++ rest, ?_, ?_, ?_⟩
        · rw [h1, hev, List.append_assoc]
        · simp only [List.mem_append, not_or]
          exact ⟨by decide, h2⟩
        · rw [List.count_append, h3]
          simp [List.count_cons]
          omega

/-- The statement `emit OBJLoaded()` puts `OBJLoaded` first among the new events. -/
theorem emitOBJLoaded_events (env : BakeEnvironment) (s s1 : BakeSession)
    (h : emitOBJLoaded env s = some s1) :
    ∃ rest, s1.events = s.events ++ BakeEvent.OBJLoaded :: rest ∧
      rest.count BakeEvent.finished = s.bakeOBJConnections := by
  unfold emitOBJLoaded at h
  obtain ⟨rest, h1, _, h3⟩ := runSlots_events env _ _ _ h
  exact ⟨rest, by rw [h1]; simp, h3⟩

/-! ## What a call of `createFBXNodeTree` depends on -/

/-- The document the material loop leaves does not depend on the baker. -/
theorem materialLoop_geometry_eq (env : Collaborators) (parts : List FBXMeshPart) :
    ∀ (b1 b2 : OBJBaker) (g : FBXGeometry),
      (materialLoop env parts b1 g).2 = (materialLoop env parts b2 g).2 := by
  induction parts with
  | nil => intro b1 b2 g; rfl
  | cons p ps ih =>
    intro b1 b2 g
    simp only [materialLoop, materialNodeFor_eq]
    exact ih _ _ _

/-- The material loop carries `_textureID` along. -/
theorem materialLoop_textureID (env : Collaborators) (parts : List FBXMeshPart) (b : OBJBaker)
    (g : FBXGeometry) (t : Int) :
    materialLoop env parts { b with _textureID := t } g =
      ({ (materialLoop env parts b g).1 with _textureID := t }, (materialLoop env parts b g).2) := by
  have h1 := materialLoop_baker env parts { b with _textureID := t } g
  have h2 := materialLoop_baker env parts b g
  have h3 := materialLoop_geometry_eq env parts { b with _textureID := t } b g
  apply Prod.ext
  · rw [h1, h2]
  · exact h3

/-- The texture loop reads `_textureID` nowhere: started with another value, it
ends in the same state up to that member. -/
theorem textureLoop_textureID (env : Collaborators) (parts : List FBXMeshPart) :
    ∀ (i : Nat) (b : OBJBaker) (g : FBXGeometry) (t : Int), ∃ t1,
      textureLoop env parts i { b with _textureID := t } g =
        ((textureLoop env parts i b g).1,
         { (textureLoop env parts i b g).2.1 with _textureID := t1 },
         (textureLoop env parts i b g).2.2) := by
  induction parts with
  | nil =>
    intro i b g t
    exact ⟨t, rfl⟩
  | cons p ps ih =>
    intro i b g t
    rw [textureLoop_cons, textureLoop_cons]
    by_cases hp : hasTexture (materialOf env g p.materialID)
    · rw [if_pos hp, if_pos hp]
      cases hfile : env.compressTexture b.textureCalls
          (textureFileName (materialOf env g p.materialID))
          (textureContentTypeCallback (materialOf env g p.materialID)) with
      | none => exact ⟨b._nodeID, by simp only [hfile]⟩
      | some textureFile =>
        simp only [hfile]
        exact ⟨_, rfl⟩
    · rw [if_neg hp, if_neg hp]
      exact ih (i + 1) b (touch env g p.materialID) t

/-- Two bakers that agree on the identity counter, on the material and texture
records, on the properties of `_objectNode` and on the compressor calls made so
far are in the same state after the loops, up to `_textureID`. -/
theorem afterLoops_of_agree (env : Collaborators) (b1 b2 : OBJBaker) (g : FBXGeometry)
    (mesh0 : FBXMesh) (hid : b1._nodeID = b2._nodeID) (hm : b1._materialIDs = b2._materialIDs)
    (ht : b1._mapTextureMaterial = b2._mapTextureMaterial)
    (hp : b1._objectNode.properties = b2._objectNode.properties)
    (hcalls : b1.textureCalls = b2.textureCalls) : ∃ t1,
    afterLoops env b1 g mesh0 =
      ((afterLoops env b2 g mesh0).1,
       { (afterLoops env b2 g mesh0).2.1 with _textureID := t1 },
       (afterLoops env b2 g mesh0).2.2) := by
  have hb : bakerAfterModel env b1 mesh0 =
      { bakerAfterModel env b2 mesh0 with _textureID := b1._textureID } := by
    simp only [bakerAfterModel, hid, hm, ht, hp, hcalls]
  simp only [afterLoops]
  rw [hb, materialLoop_textureID]
  exact textureLoop_textureID env mesh0.parts 0 _ _ _

/-- The result of `createFBXNodeTree` is the same for two bakers that agree on
the identity counter, the material and texture records, the properties of
`_objectNode` and the compressor calls made so far, up to the member `_textureID`. -/
theorem createFBXNodeTree_of_agree (env : Collaborators) (b1 b2 : OBJBaker) (root : FBXNode)
    (g : FBXGeometry) (hid : b1._nodeID = b2._nodeID) (hm : b1._materialIDs = b2._materialIDs)
    (ht : b1._mapTextureMaterial = b2._mapTextureMaterial)
    (hp : b1._objectNode.properties = b2._objectNode.properties)
    (hcalls : b1.textureCalls = b2.textureCalls) : ∃ t1,
    createFBXNodeTree env b1 root g =
      (createFBXNodeTree env b2 root g).map
        (fun r => { r with baker := { r.baker with _textureID := t1 } }) := by
  cases hg : g.meshes with
  | nil =>
    rw [createFBXNodeTree_nil env b1 root g hg, createFBXNodeTree_nil env b2 root g hg]
    exact ⟨0, rfl⟩
  | cons mesh0 rest =>
    obtain ⟨t1, h1⟩ := afterLoops_of_agree env b1 b2 g mesh0 hid hm ht hp hcalls
    refine ⟨t1, ?_⟩
    rw [createFBXNodeTree_cons env b1 root g mesh0 rest hg,
      createFBXNodeTree_cons env b2 root g mesh0 rest hg, h1]
    simp only
    by_cases hc : (afterLoops env b2 g mesh0).1 = false
    · rw [if_pos hc, if_pos hc]
      rfl
    · rw [if_neg hc, if_neg hc]
      cases connectTextures (afterLoops env b2 g mesh0).2.1._materialIDs
          (afterLoops env b2 g mesh0).2.1._mapTextureMaterial
          { name := CONNECTIONS_NODE_NAME
            properties := []
            children :=
              cNodeOO (afterLoops env b2 g mesh0).2.1._geometryID
                  (afterLoops env b2 g mesh0).2.1._modelID ::
                (afterLoops env b2 g mesh0).2.1._materialIDs.map
                  (fun m => cNodeOO m (afterLoops env b2 g mesh0).2.1._modelID) } with
      | none => rfl
      | some connectionsNode => rfl

/-! ## Acquisition of the working copy -/

theorem copy_fileExists_mono (fs : FileSystem) (source target p : String)
    (hp : fs.fileExists p = true) : (fs.copy source target).fileExists p = true := by
  unfold FileSystem.fileExists
  rw [copy_content_of_exists fs source target p hp]
  exact hp

/-- Once made or impossible, the copy stays so after any other copy. -/
theorem copy_settled_mono (fs : FileSystem) (source target l w : String)
    (h : fs.settled l w) : (fs.copy source target).settled l w := by
  unfold FileSystem.settled at h ⊢
  rw [copy_readable, copy_writable, copy_writeFails]
  rcases h with h | h | h | h
  · exact Or.inl (copy_fileExists_mono fs source target w h)
  · exact Or.inr (Or.inl h)
  · exact Or.inr (Or.inr (Or.inl h))
  · exact Or.inr (Or.inr (Or.inr h))

/-- After `QFile::copy` of an existing file the copy is made or impossible. -/
theorem copy_settled (fs : FileSystem) (l w : String) (hl : fs.fileExists l = true) :
    (fs.copy l w).settled l w := by
  unfold FileSystem.settled
  rw [copy_readable, copy_writable, copy_writeFails]
  by_cases hr : fs.readable l = true
  · obtain ⟨data, hdata⟩ := Option.isSome_iff_exists.mp hl
    have hopen : fs.openForReading l = some data := by
      simp [FileSystem.openForReading, hr, hdata]
    by_cases hcond : fs.fileExists w = true ∨ fs.writable w = false ∨ fs.writeFails w = true
    · rcases hcond with h | h | h
      · exact Or.inl (copy_fileExists_mono fs l w w h)
      · exact Or.inr (Or.inr (Or.inl h))
      · exact Or.inr (Or.inr (Or.inr h))
    · left
      unfold FileSystem.copy
      rw [hopen]
      simp only
      rw [if_neg hcond]
      simp [FileSystem.fileExists, FileSystem.store]
  · right
    left
    simpa using hr

/-- A copy from `l` does not change `w` once the copy of `l` to `w` is made or
impossible. -/
theorem copy_content_of_settled (fs : FileSystem) (l target w : String)
    (h : fs.settled l w) : (fs.copy l target).content w = fs.content w := by
  unfold FileSystem.settled at h
  unfold FileSystem.copy
  cases hopen : fs.openForReading l with
  | none => rfl
  | some data =>
    simp only
    have hr : fs.readable l = true := by
      by_contra hr
      simp [FileSystem.openForReading, hr] at hopen
    split
    · rfl
    · rename_i hcond
      have hne : w ≠ target := by
        intro e
        subst e
        rcases h with h | h | h | h
        · exact hcond (Or.inl h)
        · rw [hr] at h; cases h
        · exact hcond (Or.inr (Or.inl h))
        · exact hcond (Or.inr (Or.inr h))
      simp [FileSystem.store, hne]

/-- What `bakeOBJ` leaves as it is: the reference, the paths it is given, the
connections, what can be read and written, every file but the baked one, and
the existence of every file. -/
theorem bakeOBJ_frame (env : BakeEnvironment) (s s1 : BakeSession)
    (h : bakeOBJ env s = some s1) :
    s1._modelURL = s._modelURL ∧ s1._originalOutputDir = s._originalOutputDir ∧
    s1._originalModelFilePath = s._originalModelFilePath ∧
    s1._bakedOutputDir = s._bakedOutputDir ∧
    s1.bakeOBJConnections = s.bakeOBJConnections ∧
    s1.fileSystem.readable = s.fileSystem.readable ∧
    s1.fileSystem.writable = s.fileSystem.writable ∧
    s1.fileSystem.writeFails = s.fileSystem.writeFails ∧
    (∀ p, p ≠ bakedModelFilePathFor s → s1.fileSystem.content p = s.fileSystem.content p) ∧
    (∀ p, s.fileSystem.fileExists p = true → s1.fileSystem.fileExists p = true) := by
  cases hread : s.fileSystem.openForReading s._originalModelFilePath with
  | none =>
    simp only [bakeOBJ, hread] at h
    cases h
    exact ⟨rfl, rfl, rfl, rfl, rfl, rfl, rfl, rfl, fun _ _ => rfl, fun _ hp => hp⟩
  | some objData =>
    cases hparse : env.readOBJ objData true s._modelURL with
    | none => simp [bakeOBJ, hread, hparse] at h
    | some geometry =>
      cases hbuild : createFBXNodeTree env.toCollaborators s.baker FBXNode.empty geometry with
      | none => simp [bakeOBJ, hread, hparse, hbuild] at h
      | some built =>
        rw [bakeOBJ_of_built env s objData geometry built hread hparse hbuild] at h
        by_cases hw : s.fileSystem.writable (bakedModelFilePathFor s) = false
        · rw [if_pos hw] at h
          cases h
          exact ⟨rfl, rfl, rfl, rfl, rfl, rfl, rfl, rfl, fun _ _ => rfl, fun _ hp => hp⟩
        · rw [if_neg hw] at h
          cases h
          refine ⟨rfl, rfl, rfl, rfl, rfl, rfl, rfl, rfl, ?_, ?_⟩
          · intro p hp
            simp [FileSystem.writeAll, FileSystem.store, hp]
          · intro p hp
            by_cases e : p = bakedModelFilePathFor s
            · simp [FileSystem.fileExists, FileSystem.writeAll, FileSystem.store, e]
            · simpa [FileSystem.fileExists, FileSystem.writeAll, FileSystem.store, e] using hp

/-- The frame of `bakeOBJ` for the slots run by `emit OBJLoaded()`. -/
theorem runSlots_frame (env : BakeEnvironment) (n : Nat) : ∀ (s s1 : BakeSession),
    runSlots (bakeOBJ env) n s = some s1 →
    s1._modelURL = s._modelURL ∧ s1._originalOutputDir = s._originalOutputDir ∧
    s1._originalModelFilePath = s._originalModelFilePath ∧
    s1._bakedOutputDir = s._bakedOutputDir ∧
    s1.bakeOBJConnections = s.bakeOBJConnections ∧
    s1.fileSystem.readable = s.fileSystem.readable ∧
    s1.fileSystem.writable = s.fileSystem.writable ∧
    s1.fileSystem.writeFails = s.fileSystem.writeFails ∧
    (∀ p, n = 0 ∨ p ≠ bakedModelFilePathFor s →
      s1.fileSystem.content p = s.fileSystem.content p) ∧
    (∀ p, s.fileSystem.fileExists p = true → s1.fileSystem.fileExists p = true) := by
  induction n with
  | zero =>
    intro s s1 h
    simp only [runSlots, Option.some.injEq] at h
    subst h
    exact ⟨rfl, rfl, rfl, rfl, rfl, rfl, rfl, rfl, fun _ _ => rfl, fun _ hp => hp⟩
  | succ n ih =>
    intro s s1 h
    simp only [runSlots] at h
    cases hb : bakeOBJ env s with
    | none => simp [hb] at h
    | some s2 =>
      simp only [hb, Option.some_bind] at h
      obtain ⟨a1, a2, a3, a4, a5, a6, a7, a8, a9, a10⟩ := bakeOBJ_frame env s s2 hb
      obtain ⟨c1, c2, c3, c4, c5, c6, c7, c8, c9, c10⟩ := ih s2 s1 h
      have hpath : bakedModelFilePathFor s2 = bakedModelFilePathFor s := by
        simp only [bakedModelFilePathFor, a1, a4]
      refine ⟨c1.trans a1, c2.trans a2, c3.trans a3, c4.trans a4, c5.trans a5, c6.trans a6,
        c7.trans a7, c8.trans a8, ?_, fun p hp => c10 p (a10 p hp)⟩
      intro p hp
      have hne : p ≠ bakedModelFilePathFor s := by
        rcases hp with hp | hp
        · cases hp
        · exact hp
      rw [c9 p (Or.inr (by rw [hpath]; exact hne)), a9 p hne]

/-- What a call of `loadOBJ` on a local reference leaves as it is, provided
`bakeOBJ` is not connected or the baked file is not the working copy: the
reference, the paths and the connections; after the call the copy of an
existing input to the working path is made or impossible; and once that is so,
the call leaves the working copy as it is. -/
theorem loadOBJ_frame (env : BakeEnvironment) (s s1 : BakeSession)
    (hlocal : s._modelURL.isLocalFile = true)
    (hconn : s.bakeOBJConnections = 0 ∨ bakedModelFilePathFor s ≠ s._originalModelFilePath)
    (h : loadOBJ env s = some s1) :
    s1._modelURL = s._modelURL ∧ s1._originalOutputDir = s._originalOutputDir ∧
    s1._originalModelFilePath = s._originalModelFilePath ∧
    s1._bakedOutputDir = s._bakedOutputDir ∧
    s1.bakeOBJConnections = s.bakeOBJConnections ∧
    (s.fileSystem.fileExists s._modelURL.toLocalFile = true →
      s1.fileSystem.settled s._modelURL.toLocalFile s._originalModelFilePath) ∧
    (s.fileSystem.settled s._modelURL.toLocalFile s._originalModelFilePath →
      s1.fileSystem.content s._originalModelFilePath =
        s.fileSystem.content s._originalModelFilePath) := by
  unfold loadOBJ at h
  rw [if_pos hlocal] at h
  simp only at h
  by_cases hex : s.fileSystem.fileExists s._modelURL.toLocalFile = false
  · rw [if_pos hex] at h
    cases h
    refine ⟨rfl, rfl, rfl, rfl, rfl, ?_, fun _ => rfl⟩
    intro hyes
    rw [hex] at hyes
    cases hyes
  · rw [if_neg hex] at h
    unfold emitOBJLoaded at h
    obtain ⟨c1, c2, c3, c4, c5, c6, c7, c8, c9, c10⟩ := runSlots_frame env _ _ _ h
    have hkeep : s1.fileSystem.content s._originalModelFilePath =
        ((if s._originalOutputDir ≠ "" then
            s.fileSystem.copy s._modelURL.toLocalFile
              (s._originalOutputDir ++ "/" ++ s._modelURL.fileName)
          else s.fileSystem).copy s._modelURL.toLocalFile s._originalModelFilePath).content
          s._originalModelFilePath := by
      apply c9
      rcases hconn with hconn | hconn
      · exact Or.inl hconn
      · exact Or.inr (fun e => hconn e.symm)
    refine ⟨c1, c2, c3, c4, c5, ?_, ?_⟩
    · intro hyes
      have hfs1 : (if s._originalOutputDir ≠ "" then
            s.fileSystem.copy s._modelURL.toLocalFile
              (s._originalOutputDir ++ "/" ++ s._modelURL.fileName)
          else s.fileSystem).fileExists s._modelURL.toLocalFile = true := by
        split
        · exact copy_fileExists_mono _ _ _ _ hyes
        · exact hyes
      have hset := copy_settled _ s._modelURL.toLocalFile s._originalModelFilePath hfs1
      unfold FileSystem.settled at hset ⊢
      rw [c6, c7, c8]
      rcases hset with hset | hset | hset | hset
      · exact Or.inl (c10 _ hset)
      · exact Or.inr (Or.inl hset)
      · exact Or.inr (Or.inr (Or.inl hset))
      · exact Or.inr (Or.inr (Or.inr hset))
    · intro hset
      rw [hkeep]
      have hfs1 : (if s._originalOutputDir ≠ "" then
            s.fileSystem.copy s._modelURL.toLocalFile
              (s._originalOutputDir ++ "/" ++ s._modelURL.fileName)
          else s.fileSystem).settled s._modelURL.toLocalFile s._originalModelFilePath ∧
          (if s._originalOutputDir ≠ "" then
            s.fileSystem.copy s._modelURL.toLocalFile
              (s._originalOutputDir ++ "/" ++ s._modelURL.fileName)
          else s.fileSystem).content s._originalModelFilePath =
            s.fileSystem.content s._originalModelFilePath := by
        split
        · exact ⟨copy_settled_mono _ _ _ _ _ hset, copy_content_of_settled _ _ _ _ hset⟩
        · exact ⟨hset, rfl⟩
      rw [copy_content_of_settled _ _ _ _ hfs1.1, hfs1.2]

/-- On a local reference, a call of `bake` that returns delivers the completion
signal exactly once when no connection was made before. -/
theorem bake_local_finished_once (env : BakeEnvironment) (s s1 : BakeSession)
    (hlocal : s._modelURL.isLocalFile = true) (hconn : s.bakeOBJConnections = 0)
    (h : bake env s = some s1) :
    ∃ rest, s1.events = s.events ++ rest ∧ rest.count BakeEvent.finished = 1 := by
  unfold bake loadOBJ at h
  simp only [hlocal, if_true] at h
  by_cases hex : s.fileSystem.fileExists s._modelURL.toLocalFile = false
  · rw [if_pos hex] at h
    cases h
    exact ⟨[BakeEvent.finished], rfl, by decide⟩
  · rw [if_neg hex] at h
    obtain ⟨rest, h1, h2⟩ := emitOBJLoaded_events env _ s1 h
    refine ⟨BakeEvent.OBJLoaded :: rest, h1, ?_⟩
    rw [List.count_cons, h2]
    simp [hconn]

/-- On a remote reference, `bake` posts the request and connects `bakeOBJ`; a
call of `handleOBJNetworkReply` that returns then delivers the completion
signal exactly once. -/
theorem bake_remote_finished_once (env : BakeEnvironment) (reply : QNetworkReply)
    (s s1 : BakeSession) (hremote : s._modelURL.isLocalFile = false)
    (hconn : s.bakeOBJConnections = 0) :
    bake env s = some { s with bakeOBJConnections := 1
                               events := s.events ++ [BakeEvent.networkRequest] } ∧
    (handleOBJNetworkReply env reply
        { s with bakeOBJConnections := 1, events := s.events ++ [BakeEvent.networkRequest] } =
        some s1 →
      ∃ rest, s1.events = s.events ++ BakeEvent.networkRequest :: rest ∧
        rest.count BakeEvent.finished = 1) := by
  constructor
  · simp [bake, loadOBJ, hremote, hconn]
  · intro h
    unfold handleOBJNetworkReply at h
    simp only at h
    split at h
    · split at h
      · cases h
        exact ⟨[BakeEvent.finished], by simp [handleError], by decide⟩
      · split at h
        · cases h
          exact ⟨[BakeEvent.finished], by simp [handleError], by decide⟩
        · obtain ⟨rest, h1, h2⟩ := emitOBJLoaded_events env _ s1 h
          refine ⟨BakeEvent.OBJLoaded :: rest, by rw [h1]; simp, ?_⟩
          rw [List.count_cons, h2]
          simp
    · cases h
      exact ⟨[BakeEvent.finished], by simp [handleError], by decide⟩

/-! ## The selection lists -/

theorem QMap.find_insert {α : Type} (m : List (String × α)) (key : String) (value : α)
    (k : String) :
    QMap.find (QMap.insert m key value) k = if k = key then some value else QMap.find m k := by
  induction m with
  | nil =>
    by_cases h : k = key
    · simp [QMap.insert, QMap.find, h]
    · have h1 : ¬ key = k := fun e => h e.symm
      simp [QMap.insert, QMap.find, h, h1]
  | cons kv rest ih =>
    obtain ⟨k0, v0⟩ := kv
    simp only [QMap.insert]
    by_cases h1 : key = k0
    · subst h1
      rw [if_pos rfl]
      by_cases h : k = key
      · simp [QMap.find, h]
      · have h2 : ¬ key = k := fun e => h e.symm
        simp [QMap.find, h, h2]
    · rw [if_neg h1]
      by_cases h3 : key.data < k0.data
      · rw [if_pos h3]
        by_cases h : k = key
        · simp [QMap.find, h]
        · have h2 : ¬ key = k := fun e => h e.symm
          simp [QMap.find, h, h2]
      · rw [if_neg h3]
        simp only [QMap.find, ih]
        by_cases h : k = key
        · subst h
          have h4 : ¬ k0 = k := fun e => h1 e.symm
          simp [h4]
        · simp [h]

theorem QMap.find_assign {α : Type} (m : List (String × α)) (key : String) (value : α)
    (k : String) (hfound : (QMap.find m key).isSome = true) :
    QMap.find (QMap.assign m key value) k = if k = key then some value else QMap.find m k := by
  induction m with
  | nil => simp [QMap.find] at hfound
  | cons kv rest ih =>
    obtain ⟨k0, v0⟩ := kv
    simp only [QMap.assign]
    by_cases h1 : k0 = key
    · subst h1
      rw [if_pos rfl]
      by_cases h : k = k0
      · simp [QMap.find, h]
      · have h2 : ¬ k0 = k := fun e => h e.symm
        simp [QMap.find, h, h2]
    · rw [if_neg h1]
      simp only [QMap.find, if_neg h1] at hfound
      simp only [QMap.find, ih hfound]
      by_cases h : k = key
      · subst h
        simp [h1]
      · simp [h]

theorem QMap.find_filter_ne {α : Type} (m : List (String × α)) (key k : String) :
    QMap.find (m.filter (fun kv => kv.1 != key)) k =
      if k = key then none else QMap.find m k := by
  induction m with
  | nil => simp [QMap.find]
  | cons kv rest ih =>
    obtain ⟨k0, v0⟩ := kv
    by_cases h1 : k0 = key
    · subst h1
      simp only [List.filter, bne_self_eq_false, ih, QMap.find]
      by_cases h : k = k0
      · simp [h]
      · have h2 : ¬ k0 = k := fun e => h e.symm
        simp [h, h2]
    · have hb : (k0 != key) = true := by simpa using h1
      simp only [List.filter, hb, QMap.find, ih]
      by_cases h : k = key
      · subst h
        simp [h1]
      · simp [h]

theorem foldl_push_back (l : List QUuid) :
    ∀ acc : List QUuid, l.foldl (fun acc j => acc ++ [j]) acc = acc ++ l := by
  induction l with
  | nil => intro acc; simp
  | cons x xs ih => intro acc; simp [List.foldl, ih]

theorem GameplayObjects.consistent_constructed (flag : Bool) :
    (GameplayObjects.constructed flag).consistent := by
  intro _
  exact ⟨rfl, rfl, rfl⟩

theorem GameplayObjects.containsData_addToGameplayObjects (o : GameplayObjects) (item : ItemID) :
    (o.addToGameplayObjects item).2.containsData = true := by
  cases item <;> simp only [GameplayObjects.addToGameplayObjects] <;> split <;> rfl

theorem GameplayObjects.consistent_addToGameplayObjects (o : GameplayObjects) (item : ItemID) :
    (o.addToGameplayObjects item).2.consistent := by
  intro h
  rw [GameplayObjects.containsData_addToGameplayObjects] at h
  cases h

theorem GameplayObjects.consistent_removeFromGameplayObjects (o : GameplayObjects)
    (item : ItemID) (h : o.consistent) : (o.removeFromGameplayObjects item).2.consistent := by
  intro hflag
  cases item <;> simp only [GameplayObjects.removeFromGameplayObjects] at hflag ⊢ <;>
    obtain ⟨h1, h2, h3⟩ := h hflag <;> simp [h1, h2, h3]

/-- The map returned for an object whose vectors are empty unless `containsData`
is set. -/
theorem getSelectedItemsList_of_find (s : SelectionScriptingInterface) (listName : String)
    (o : GameplayObjects) (hfind : QMap.find s._selectedItemsListMap listName = some o)
    (ho : o.consistent) :
    s.getSelectedItemsList listName =
      [("avatars", o._avatarIDs), ("entities", o._entityIDs), ("overlays", o._overlayIDs)] := by
  have h1 : "entities" ≠ "avatars" := by decide
  have h2 : ¬ "entities".data < "avatars".data := by decide
  have h3 : "overlays" ≠ "avatars" := by decide
  have h4 : ¬ "overlays".data < "avatars".data := by decide
  have h5 : "overlays" ≠ "entities" := by decide
  have h6 : ¬ "overlays".data < "entities".data := by decide
  simp only [SelectionScriptingInterface.getSelectedItemsList, hfind, QMap.insert, foldl_push_back,
    List.nil_append, if_neg h1, if_neg h2, if_neg h3, if_neg h4, if_neg h5, if_neg h6]
  by_cases hflag : o.containsData = true
  · simp only [hflag, true_and]
    have hl : ∀ l : List QUuid, (if ¬ l.isEmpty = true then l else []) = l := by
      intro l
      cases l <;> simp
    rw [hl, hl, hl]
  · have hflag1 : o.containsData = false := by simpa using hflag
    obtain ⟨e1, e2, e3⟩ := ho hflag1
    simp [hflag1, e1, e2, e3]

theorem getSelectedItemsList_of_absent (s : SelectionScriptingInterface) (listName : String)
    (hfind : QMap.find s._selectedItemsListMap listName = none) :
    s.getSelectedItemsList listName = [] := by
  simp [SelectionScriptingInterface.getSelectedItemsList, hfind]

theorem map_onSelectedItemsListChanged (s : SelectionScriptingInterface) (listName : String) :
    (s.onSelectedItemsListChanged listName)._selectedItemsListMap = s._selectedItemsListMap := by
  unfold SelectionScriptingInterface.onSelectedItemsListChanged
  simp only
  split <;> rfl

/-- The list found under a name after the template `addToGameplayObjects`. -/
theorem find_addToGameplayObjects (flag : Bool) (s : SelectionScriptingInterface)
    (listName : String) (idToAdd : ItemID) (k : String) :
    QMap.find (s.addToGameplayObjects flag listName idToAdd).2._selectedItemsListMap k =
      if k = listName then
        some ((QMap.value (GameplayObjects.constructed flag) s._selectedItemsListMap
          listName).addToGameplayObjects idToAdd).2
      else QMap.find s._selectedItemsListMap k := by
  simp only [SelectionScriptingInterface.addToGameplayObjects, map_onSelectedItemsListChanged,
    QMap.find_insert]

/-- The list found under a name after the template `removeFromGameplayObjects`. -/
theorem find_removeFromGameplayObjects (s : SelectionScriptingInterface)
    (listName : String) (idToRemove : ItemID) (k : String) :
    QMap.find (s.removeFromGameplayObjects listName idToRemove).2._selectedItemsListMap k =
      if k = listName then
        (QMap.find s._selectedItemsListMap listName).map
          (fun o => (o.removeFromGameplayObjects idToRemove).2)
      else QMap.find s._selectedItemsListMap k := by
  unfold SelectionScriptingInterface.removeFromGameplayObjects
  cases hfind : QMap.find s._selectedItemsListMap listName with
  | none =>
    simp only [Option.map_none']
    by_cases h : k = listName
    · rw [if_pos h, h, hfind]
    · rw [if_neg h]
  | some o =>
    simp only [map_onSelectedItemsListChanged, Option.map_some']
    rw [QMap.find_assign _ _ _ _ (by rw [hfind]; rfl)]

theorem find_clearSelectedItemsList (flag : Bool) (s : SelectionScriptingInterface)
    (listName k : String) :
    QMap.find (s.clearSelectedItemsList flag listName).2._selectedItemsListMap k =
      if k = listName then some (GameplayObjects.constructed flag)
      else QMap.find s._selectedItemsListMap k := by
  simp only [SelectionScriptingInterface.clearSelectedItemsList, map_onSelectedItemsListChanged,
    QMap.find_insert]

theorem find_removeListFromMap (s : SelectionScriptingInterface) (listName k : String) :
    QMap.find (s.removeListFromMap listName).2._selectedItemsListMap k =
      if k = listName then none else QMap.find s._selectedItemsListMap k := by
  unfold SelectionScriptingInterface.removeListFromMap
  simp only
  split
  · simp only [map_onSelectedItemsListChanged, QMap.remove, QMap.find_filter_ne]
  · simp only [QMap.remove, QMap.find_filter_ne]

/-- The list found under a name after `addToSelectedItemsList` with one of the
three item types. -/
theorem find_addToSelectedItemsList (flag : Bool) (s : SelectionScriptingInterface)
    (listName : String) (item : ItemID) (k : String) :
    QMap.find (s.addToSelectedItemsList flag listName item.itemType item.uuid).2._selectedItemsListMap
        k =
      if k = listName then
        some ((QMap.value (GameplayObjects.constructed flag) s._selectedItemsListMap
          listName).addToGameplayObjects item).2
      else QMap.find s._selectedItemsListMap k := by
  cases item with
  | avatar id =>
    simp only [SelectionScriptingInterface.addToSelectedItemsList, ItemID.itemType, ItemID.uuid,
      if_true, find_addToGameplayObjects]
  | entity id =>
    have h1 : ¬ "entity" = "avatar" := by decide
    simp only [SelectionScriptingInterface.addToSelectedItemsList, ItemID.itemType, ItemID.uuid,
      if_true, if_neg h1, find_addToGameplayObjects]
  | overlay id =>
    have h1 : ¬ "overlay" = "avatar" := by decide
    have h2 : ¬ "overlay" = "entity" := by decide
    simp only [SelectionScriptingInterface.addToSelectedItemsList, ItemID.itemType, ItemID.uuid,
      if_true, if_neg h1, if_neg h2, find_addToGameplayObjects]

/-- Every call keeps the lists of the map consistent. -/
theorem consistent_call (flag : Bool) (s : SelectionScriptingInterface) (c : SelectionCall)
    (h : ∀ k o, QMap.find s._selectedItemsListMap k = some o → o.consistent) :
    ∀ k o, QMap.find (s.call flag c)._selectedItemsListMap k = some o → o.consistent := by
  have hadd : ∀ listName item k o,
      QMap.find (s.addToGameplayObjects flag listName item).2._selectedItemsListMap k = some o →
        o.consistent := by
    intro listName item k o hk
    rw [find_addToGameplayObjects] at hk
    by_cases e : k = listName
    · rw [if_pos e] at hk
      cases hk
      exact GameplayObjects.consistent_addToGameplayObjects _ _
    · rw [if_neg e] at hk
      exact h k o hk
  have hremove : ∀ listName item k o,
      QMap.find (s.removeFromGameplayObjects listName item).2._selectedItemsListMap k = some o →
        o.consistent := by
    intro listName item k o hk
    rw [find_removeFromGameplayObjects] at hk
    by_cases e : k = listName
    · rw [if_pos e] at hk
      cases hfind : QMap.find s._selectedItemsListMap listName with
      | none => rw [hfind] at hk; cases hk
      | some o1 =>
        rw [hfind] at hk
        cases hk
        exact GameplayObjects.consistent_removeFromGameplayObjects _ _ (h listName o1 hfind)
    · rw [if_neg e] at hk
      exact h k o hk
  intro k o hk
  cases c with
  | addToSelectedItemsList listName itemType id =>
    simp only [SelectionScriptingInterface.call,
      SelectionScriptingInterface.addToSelectedItemsList] at hk
    split at hk
    · exact hadd _ _ k o hk
    · split at hk
      · exact hadd _ _ k o hk
      · split at hk
        · exact hadd _ _ k o hk
        · exact h k o hk
  | removeFromSelectedItemsList listName itemType id =>
    simp only [SelectionScriptingInterface.call,
      SelectionScriptingInterface.removeFromSelectedItemsList] at hk
    split at hk
    · exact hremove _ _ k o hk
    · split at hk
      · exact hremove _ _ k o hk
      · split at hk
        · exact hremove _ _ k o hk
        · exact h k o hk
  | clearSelectedItemsList listName =>
    simp only [SelectionScriptingInterface.call, find_clearSelectedItemsList] at hk
    by_cases e : k = listName
    · rw [if_pos e] at hk
      cases hk
      exact GameplayObjects.consistent_constructed flag
    · rw [if_neg e] at hk
      exact h k o hk
  | removeListFromMap listName =>
    simp only [SelectionScriptingInterface.call, find_removeListFromMap] at hk
    by_cases e : k = listName
    · rw [if_pos e] at hk
      cases hk
    · rw [if_neg e] at hk
      exact h k o hk

/-- After any sequence of calls on the constructed interface, the lists of the
map are consistent. -/
theorem consistent_calls (flag : Bool) (cs : List SelectionCall) :
    ∀ s : SelectionScriptingInterface,
      (∀ k o, QMap.find s._selectedItemsListMap k = some o → o.consistent) →
      ∀ k o, QMap.find (s.calls flag cs)._selectedItemsListMap k = some o → o.consistent := by
  induction cs with
  | nil => intro s h; exact h
  | cons c cs ih =>
    intro s h
    exact ih (s.call flag c) (consistent_call flag s c h)

theorem consistent_constructed_calls (flag : Bool) (cs : List SelectionCall) :
    ∀ k o, QMap.find
      (SelectionScriptingInterface.constructed.calls flag cs)._selectedItemsListMap k = some o →
      o.consistent :=
  consistent_calls flag cs SelectionScriptingInterface.constructed (by
    intro k o hk
    simp [SelectionScriptingInterface.constructed, QMap.find] at hk)

theorem nodup_push_back (l : List QUuid) (id : QUuid) (h : l.Nodup) (hid : id ∉ l) :
    (l ++ [id]).Nodup := by
  rw [List.nodup_append]
  refine ⟨h, List.nodup_singleton id, ?_⟩
  intro a ha hb
  simp only [List.mem_singleton] at hb
  subst hb
  exact hid ha

/-- A call keeps the three vectors free of duplicates. -/
theorem GameplayObjects.nodup_call (o : GameplayObjects) (c : GameplayCall)
    (h : o._avatarIDs.Nodup ∧ o._entityIDs.Nodup ∧ o._overlayIDs.Nodup) :
    (o.call c)._avatarIDs.Nodup ∧ (o.call c)._entityIDs.Nodup ∧ (o.call c)._overlayIDs.Nodup := by
  obtain ⟨h1, h2, h3⟩ := h
  cases c with
  | addToGameplayObjects item =>
    cases item with
    | avatar id =>
      simp only [GameplayObjects.call, GameplayObjects.addToGameplayObjects]
      split
      · rename_i hid
        exact ⟨nodup_push_back _ _ h1 hid, h2, h3⟩
      · exact ⟨h1, h2, h3⟩
    | entity id =>
      simp only [GameplayObjects.call, GameplayObjects.addToGameplayObjects]
      split
      · rename_i hid
        exact ⟨h1, nodup_push_back _ _ h2 hid, h3⟩
      · exact ⟨h1, h2, h3⟩
    | overlay id =>
      simp only [GameplayObjects.call, GameplayObjects.addToGameplayObjects]
      split
      · rename_i hid
        exact ⟨h1, h2, nodup_push_back _ _ h3 hid⟩
      · exact ⟨h1, h2, h3⟩
  | removeFromGameplayObjects item =>
    cases item with
    | avatar id => exact ⟨h1.filter _, h2, h3⟩
    | entity id => exact ⟨h1, h2.filter _, h3⟩
    | overlay id => exact ⟨h1, h2, h3.filter _⟩

theorem GameplayObjects.nodup_calls (cs : List GameplayCall) : ∀ o : GameplayObjects,
    o._avatarIDs.Nodup ∧ o._entityIDs.Nodup ∧ o._overlayIDs.Nodup →
    (o.calls cs)._avatarIDs.Nodup ∧ (o.calls cs)._entityIDs.Nodup ∧
      (o.calls cs)._overlayIDs.Nodup := by
  induction cs with
  | nil => intro o h; exact h
  | cons c cs ih =>
    intro o h
    exact ih (o.call c) (GameplayObjects.nodup_call o c h)

/-- The vector an identifier is kept in, after it is added. -/
theorem GameplayObjects.idsFor_addToGameplayObjects (o : GameplayObjects) (item : ItemID) :
    (o.addToGameplayObjects item).2.idsFor item =
      if item.uuid ∉ o.idsFor item then o.idsFor item ++ [item.uuid] else o.idsFor item := by
  cases item <;>
    simp only [GameplayObjects.addToGameplayObjects, GameplayObjects.idsFor, ItemID.uuid] <;>
    split <;> rfl

/-- The vector an identifier is kept in, after it is removed. -/
theorem GameplayObjects.idsFor_removeFromGameplayObjects (o : GameplayObjects) (item : ItemID) :
    (o.removeFromGameplayObjects item).2.idsFor item =
      (o.idsFor item).filter (fun x => x != item.uuid) := by
  cases item <;> rfl

theorem textureEdges_length (mats : List Int) (pairs : List (Int × Nat)) :
    (textureEdges mats pairs).length = 2 * pairs.length := by
  induction pairs with
  | nil => rfl
  | cons p ps ih =>
    simp only [textureEdges, List.flatMap_cons, List.length_append, List.length_cons,
      List.length_nil] at ih ⊢
    rw [ih]
    omega

theorem textureEdges_edgeKind (mats : List Int) (pairs : List (Int × Nat)) :
    ∀ e ∈ textureEdges mats pairs, e.edgeKind = some CONNECTIONS_NODE_PROPERTY_1 := by
  intro e he
  simp only [textureEdges, List.mem_flatMap, List.mem_cons, List.mem_singleton,
    List.not_mem_nil, or_false] at he
  obtain ⟨tm, _, he | he⟩ := he <;> rw [he] <;> rfl

/-- For every call that returns, the first two children of `_objectNode` are the
Geometry node, which carries `_geometryID`, and the Model node, which carries
the identity after `_modelID`. -/
theorem objectNode_geometry_and_model (env : Collaborators) (b : OBJBaker) (root : FBXNode)
    (g : FBXGeometry) (mesh0 : FBXMesh) (rest : List FBXMesh) (hg : g.meshes = mesh0 :: rest)
    (r : BuildResult) (h : createFBXNodeTree env b root g = some r) :
    ∃ others, r.baker._objectNode.children =
      geometryNodeOf r.baker._geometryID (env.compressMesh mesh0 false).2 ::
        modelNodeOf (nextNodeID r.baker._modelID) :: others := by
  obtain ⟨hb, _⟩ := createFBXNodeTree_some env b root g mesh0 rest hg r h
  obtain ⟨idxs, nodes, h1, h2, _, _, _, _, _, _, h9, _⟩ := afterLoops_ids env b g mesh0
  rw [hb, h1, h2, h9]
  exact ⟨_, rfl⟩

theorem copy_content_of_ne (fs : FileSystem) (source target p : String) (hne : p ≠ target) :
    (fs.copy source target).content p = fs.content p := by
  unfold FileSystem.copy
  cases fs.openForReading source with
  | none => rfl
  | some data =>
    simp only
    split
    · rfl
    · simp [FileSystem.store, hne]

/-- A copy that can be made gives the target the bytes of the source. -/
theorem copy_content_target (fs : FileSystem) (l w : String)
    (hl : fs.fileExists l = true) (hr : fs.readable l = true)
    (hw : fs.fileExists w = false) (hopen : fs.writable w = true)
    (hwrite : fs.writeFails w = false) : (fs.copy l w).content w = fs.content l := by
  obtain ⟨data, hdata⟩ := Option.isSome_iff_exists.mp hl
  have hread : fs.openForReading l = some data := by
    simp [FileSystem.openForReading, hr, hdata]
  unfold FileSystem.copy
  rw [hread]
  simp only
  rw [if_neg (by simp [hw, hopen, hwrite])]
  simp [FileSystem.store, hdata]

/-- The first acquisition gives the working copy the bytes of the input: when
the input exists and can be read, no file is at the working-copy path yet and
that path can be written, the working copy holds the bytes of the input after
`loadOBJ`. -/
theorem loadOBJ_working_copy (env : BakeEnvironment) (s s1 : BakeSession)
    (hlocal : s._modelURL.isLocalFile = true)
    (hconn : s.bakeOBJConnections = 0 ∨ bakedModelFilePathFor s ≠ s._originalModelFilePath)
    (hl : s.fileSystem.fileExists s._modelURL.toLocalFile = true)
    (hr : s.fileSystem.readable s._modelURL.toLocalFile = true)
    (hw : s.fileSystem.fileExists s._originalModelFilePath = false)
    (hopen : s.fileSystem.writable s._originalModelFilePath = true)
    (hwrite : s.fileSystem.writeFails s._originalModelFilePath = false)
    (h : loadOBJ env s = some s1) :
    s1.fileSystem.content s._originalModelFilePath =
      s.fileSystem.content s._modelURL.toLocalFile := by
  unfold loadOBJ at h
  rw [if_pos hlocal] at h
  simp only at h
  rw [if_neg (by simp [hl])] at h
  unfold emitOBJLoaded at h
  obtain ⟨_, _, _, _, _, _, _, _, c9, _⟩ := runSlots_frame env _ _ _ h
  have hkeep := c9 s._originalModelFilePath (by
    rcases hconn with hconn | hconn
    · exact Or.inl hconn
    · exact Or.inr (fun e => hconn e.symm))
  rw [hkeep]
  simp only
  by_cases hdir : s._originalOutputDir ≠ ""
  · rw [if_pos hdir]
    by_cases hsame : s._originalModelFilePath = s._originalOutputDir ++ "/" ++ s._modelURL.fileName
    · rw [← hsame, copy_copy_same]
      exact copy_content_target _ _ _ hl hr hw hopen hwrite
    · rw [copy_content_target _ _ _ (copy_fileExists_mono _ _ _ _ hl)
        (by rw [copy_readable]; exact hr)
        (by
          unfold FileSystem.fileExists at hw ⊢
          rw [copy_content_of_ne _ _ _ _ hsame]
          exact hw)
        (by rw [copy_writable]; exact hopen) (by rw [copy_writeFails]; exact hwrite)]
      exact copy_content_of_exists _ _ _ _ hl
  · rw [if_neg hdir]
    exact copy_content_target _ _ _ hl hr hw hopen hwrite

/-- The texture loop when the compressor answers a null pointer for the part at
place `k` and has an answer for every textured part before it: the loop leaves
the function there, and the compressor calls made are those for the textured
parts up to and including that part. -/
theorem textureLoop_fails_at (env : Collaborators) (matOf : String → FBXMaterial)
    (parts : List FBXMeshPart) :
    ∀ (k i : Nat) (b : OBJBaker) (g : FBXGeometry) (p : FBXMeshPart),
      (∀ key, materialOf env g key = matOf key) →
      parts[k]? = some p → hasTexture (matOf p.materialID) →
      (∀ (j : Nat) (q : FBXMeshPart), j < k → parts[j]? = some q →
        hasTexture (matOf q.materialID) →
        env.compressTexture
          (b.textureCalls ++
            (((parts.take j).map (fun q => matOf q.materialID)).filter
              (fun m => hasTexture m)).map
              (fun m => (textureFileName m, textureContentTypeCallback m)))
          (textureFileName (matOf q.materialID))
          (textureContentTypeCallback (matOf q.materialID)) ≠ none) →
      env.compressTexture
          (b.textureCalls ++
            (((parts.take k).map (fun q => matOf q.materialID)).filter
              (fun m => hasTexture m)).map
              (fun m => (textureFileName m, textureContentTypeCallback m)))
          (textureFileName (matOf p.materialID))
          (textureContentTypeCallback (matOf p.materialID)) = none →
      (textureLoop env parts i b g).1 = false ∧
      (textureLoop env parts i b g).2.1.textureCalls =
        b.textureCalls ++
          (((parts.take (k + 1)).map (fun q => matOf q.materialID)).filter
            (fun m => hasTexture m)).map
            (fun m => (textureFileName m, textureContentTypeCallback m)) := by
  induction parts with
  | nil => intro k i b g p _ hp; simp at hp
  | cons q qs ih =>
    intro k i b g p hg hp hT hearlier hfail
    rw [textureLoop_cons]
    have hm : materialOf env g q.materialID = matOf q.materialID := hg _
    have hg1 : ∀ key, materialOf env (touch env g q.materialID) key = matOf key := by
      intro key
      rw [materialOf_touch, hg]
    rw [hm]
    cases k with
    | zero =>
      simp only [List.getElem?_cons_zero, Option.some.injEq] at hp
      subst hp
      simp only [List.take_zero, List.map_nil, List.filter_nil, List.append_nil] at hfail
      rw [if_pos hT]
      simp only [hfail]
      simp [hT]
    | succ k =>
      simp only [List.getElem?_cons_succ] at hp
      by_cases hTq : hasTexture (matOf q.materialID)
      · rw [if_pos hTq]
        have hfirst := hearlier 0 q (Nat.succ_pos k) (by simp) hTq
        simp only [List.take_zero, List.map_nil, List.filter_nil, List.append_nil] at hfirst
        cases hf : env.compressTexture b.textureCalls (textureFileName (matOf q.materialID))
            (textureContentTypeCallback (matOf q.materialID)) with
        | none => exact absurd hf hfirst
        | some f =>
          simp only []
          obtain ⟨h1, h2⟩ := ih k (i + 1)
            { b with
              _nodeID := nextNodeID b._nodeID
              _textureID := b._nodeID
              _mapTextureMaterial := b._mapTextureMaterial ++ [(b._nodeID, i)]
              textureCalls := b.textureCalls ++
                [(textureFileName (matOf q.materialID),
                  textureContentTypeCallback (matOf q.materialID))]
              _objectNode := b._objectNode.appendChild
                (textureNodeOf b._nodeID (texturePropertyString (matOf q.materialID)) f) }
            (touch env g q.materialID) p hg1 hp hT
            (by
              intro j q1 hj hq1 hTq1
              have := hearlier (j + 1) q1 (by omega) (by simpa using hq1) hTq1
              simpa [List.filter_cons, hTq] using this)
            (by simpa [List.filter_cons, hTq] using hfail)
          refine ⟨?_, ?_⟩
          · exact h1
          · rw [h2]
            simp [List.filter_cons, hTq]
      · rw [if_neg hTq]
        obtain ⟨h1, h2⟩ := ih k (i + 1) b (touch env g q.materialID) p hg1 hp hT
          (by
            intro j q1 hj hq1 hTq1
            have := hearlier (j + 1) q1 (by omega) (by simpa using hq1) hTq1
            simpa [List.filter_cons, hTq] using this)
          (by simpa [List.filter_cons, hTq] using hfail)
        refine ⟨h1, ?_⟩
        rw [h2]
        simp [List.filter_cons, hTq]

/-! ## The claims -/

/-- The shape of the tree on the end-to-end scenario document, for every
compressor and every baker that has recorded no material and no texture: three
children of the root, three children of Objects, two "OO" edges whose target is
the member `_modelID`. -/
theorem default_scenario_shape (env : Collaborators) (b : OBJBaker) (root : FBXNode)
    (hm : b._materialIDs = []) (ht : b._mapTextureMaterial = []) :
    ∃ r settings objects connections geometry model material geometryID modelID materialID,
      createFBXNodeTree env b root defaultScenario = some r ∧ r.completed = true ∧
      r.rootNode.children = [settings, objects, connections] ∧
      settings.name = GLOBAL_SETTINGS_NODE_NAME ∧ objects.name = OBJECTS_NODE_NAME ∧
      connections.name = CONNECTIONS_NODE_NAME ∧
      objects.children = [geometry, model, material] ∧
      geometry.name = GEOMETRY_NODE_NAME ∧ model.name = MODEL_NODE_NAME ∧
      material.name = MATERIAL_NODE_NAME ∧
      material.properties = [.longlong materialID, .qstring "default", .byteArray MESH] ∧
      geometry.identity = some geometryID ∧
      r.baker._geometryID = geometryID ∧ r.baker._modelID = modelID ∧
      r.baker._materialIDs = [materialID] ∧
      connections.children = [cNodeOO geometryID modelID, cNodeOO materialID modelID] ∧
      countEdges CONNECTIONS_NODE_PROPERTY connections.children = 2 := by
  obtain ⟨r, hr, hc, h1, h2, h3, _, _, h6, h7⟩ :=
    createFBXNodeTree_single_material env b root defaultScenario
      { parts := [{ materialID := "default" }] } [] "default" plainMaterial rfl rfl
      (by decide) (by simp) hm ht
  refine ⟨r, globalSettingsNode, r.baker._objectNode,
    { name := CONNECTIONS_NODE_NAME
      properties := []
      children := [cNodeOO b._nodeID (nextNodeID b._nodeID),
        cNodeOO (nextNodeID (nextNodeID b._nodeID)) (nextNodeID b._nodeID)] },
    geometryNodeOf b._nodeID (env.compressMesh { parts := [{ materialID := "default" }] } false).2,
    modelNodeOf (nextNodeID (nextNodeID b._nodeID)),
    materialNodeOf (nextNodeID (nextNodeID b._nodeID)) "default" plainMaterial,
    b._nodeID, nextNodeID b._nodeID, nextNodeID (nextNodeID b._nodeID), hr, hc, ?_, rfl, ?_, rfl, ?_,
    rfl, rfl, rfl, rfl, rfl, h1, h2, ?_, rfl, ?_⟩
  · rw [h7]
    rfl
  · rw [h6]
  · rw [h6]
    rfl
  · rw [h3]
    rfl
  · simp [countEdges, cNodeOO, FBXNode.edgeKind]

/-- C1 (the code at the failing input): on the end-to-end scenario document (one
mesh, one part, the single material "default" without textures) and a baker
starting at identity 0, the root has exactly the three children settings,
objects, connections, the objects node has exactly the three children geometry,
model, material, and the connections node has exactly two edges, both "OO".
But the edges are (0 -> 1) and (2 -> 1), while the Geometry node carries 0, the
Model node carries 2 and the Material node carries 2: the target 1 of both
edges is not the identity of the Model node, so neither edge leads to the model
node, and the source 2 of the second edge is carried by the Model node as well
as by the Material node. -/
theorem c1_default_scenario_edges_miss_model_node :
    ∃ r settings objects connections geometry model material,
      createFBXNodeTree sampleCollaborators (freshBaker 0) FBXNode.empty defaultScenario =
        some r ∧ r.completed = true ∧
      r.rootNode.children = [settings, objects, connections] ∧
      settings.name = "GlobalSettings" ∧ objects.name = "Objects" ∧
      connections.name = "Connections" ∧
      objects.children = [geometry, model, material] ∧
      geometry.name = "Geometry" ∧ model.name = "Model" ∧ material.name = "Material" ∧
      geometry.properties = [.longlong 0, .byteArray "Geometry", .byteArray "Mesh"] ∧
      model.properties = [.longlong 2, .byteArray "Model", .byteArray "Mesh"] ∧
      material.properties = [.longlong 2, .qstring "default", .byteArray "Mesh"] ∧
      connections.children =
        [{ name := "C", properties := [.byteArray "OO", .longlong 0, .longlong 1],
           children := [] },
         { name := "C", properties := [.byteArray "OO", .longlong 2, .longlong 1],
           children := [] }] ∧
      r.baker._geometryID = 0 ∧ r.baker._modelID = 1 ∧ r.baker._materialIDs = [2] ∧
      model.identity = some 2 ∧ model.identity ≠ some 1 ∧
      (some 1 : Option Int) ∉ objects.children.map FBXNode.identity :=
  ⟨_, _, _, _, _, _, _, rfl, rfl, rfl, rfl, rfl, rfl, rfl, rfl, rfl, rfl, rfl, rfl, rfl, rfl,
    rfl, rfl, rfl, rfl, by decide, by decide⟩

/-- C2 (the code at the failing input): on the end-to-end scenario document with
a baker starting at identity 0, the nodes under Objects carry the identities
0 (Geometry), 2 (Model) and 2 (Material), while both edges of the Connections
node have target 1, the value of `_modelID`: the target of every edge is the
identity of no node under Objects. -/
theorem c2_edge_target_names_no_object :
    ∃ r connections,
      createFBXNodeTree sampleCollaborators (freshBaker 0) FBXNode.empty defaultScenario =
        some r ∧ r.completed = true ∧
      r.rootNode.children = [globalSettingsNode, r.baker._objectNode, connections] ∧
      r.baker._objectNode.name = OBJECTS_NODE_NAME ∧
      r.baker._objectNode.children.map FBXNode.identity = [some 0, some 2, some 2] ∧
      connections.name = CONNECTIONS_NODE_NAME ∧
      connections.children = [cNodeOO 0 1, cNodeOO 2 1] ∧
      (some 1 : Option Int) ∉ r.baker._objectNode.children.map FBXNode.identity :=
  ⟨_, _, rfl, rfl, rfl, rfl, rfl, rfl, rfl, by decide⟩

/-- C3 (the code at the failing input): on the end-to-end scenario document with
a baker starting at identity 0, the Model node and the Material node under
Objects both carry the identity 2, so the identities under Objects are not
pairwise distinct. -/
theorem c3_model_and_material_share_identity :
    ∃ r geometry model material,
      createFBXNodeTree sampleCollaborators (freshBaker 0) FBXNode.empty defaultScenario =
        some r ∧
      r.baker._objectNode.children = [geometry, model, material] ∧
      geometry.name = GEOMETRY_NODE_NAME ∧ model.name = MODEL_NODE_NAME ∧
      material.name = MATERIAL_NODE_NAME ∧
      geometry.identity = some 0 ∧ model.identity = some 2 ∧ material.identity = some 2 ∧
      ¬ (r.baker._objectNode.children.map FBXNode.identity).Nodup :=
  ⟨_, _, _, _, rfl, rfl, rfl, rfl, rfl, rfl, rfl, rfl, by decide⟩

/-- C4 (counterexample): the document `twoPartsOneMaterial` contains exactly one
material, without texture file names, referenced by both parts of its mesh; a
call on a baker starting at identity 0 emits two Material nodes, not one,
advances the identity counter four times, not three, and emits three "OO"
edges, not two. -/
theorem c4_counterexample_two_parts :
    twoPartsOneMaterial.materials = [("default", plainMaterial)] ∧
    ¬ hasTexture plainMaterial ∧
    ∃ r connections,
      createFBXNodeTree sampleCollaborators (freshBaker 0) FBXNode.empty twoPartsOneMaterial =
        some r ∧ r.completed = true ∧
      r.rootNode.children = [globalSettingsNode, r.baker._objectNode, connections] ∧
      countNamed MATERIAL_NODE_NAME r.baker._objectNode.children = 2 ∧
      r.baker._materialIDs = [2, 3] ∧
      r.baker._nodeID = 4 ∧ nextNodeID^[3] (freshBaker 0)._nodeID = 3 ∧
      connections.children = [cNodeOO 0 1, cNodeOO 2 1, cNodeOO 3 1] ∧
      countEdges CONNECTIONS_NODE_PROPERTY connections.children = 3 :=
  ⟨rfl, by decide, _, _, rfl, rfl, rfl, by decide, rfl, rfl, by decide, rfl, by decide⟩

/-- C4 (amended): for every geometry document that contains exactly one material
and no texture file names, with every part of the first mesh referencing that
material, a call on a baker that has recorded no material and no texture emits
exactly one Material node per mesh part (`P` of them), advances the identity
counter exactly `P + 2` times (geometry, model, one per part), and emits exactly
`1 + P` "OO" edges (geometry to model, then each material identity to model) and
no "OP" edge. With a single part these are the numbers 1, 3 and 2. -/
theorem c4_single_material_one_node_per_part (env : Collaborators) (b : OBJBaker)
    (root : FBXNode) (g : FBXGeometry) (mesh0 : FBXMesh) (rest : List FBXMesh) (k : String)
    (m : FBXMaterial) (hg : g.meshes = mesh0 :: rest) (hmat : g.materials = [(k, m)])
    (halbedo : m.albedoTexture.filename = "") (hspecular : m.specularTexture.filename = "")
    (hparts : ∀ p ∈ mesh0.parts, p.materialID = k)
    (hm : b._materialIDs = []) (ht : b._mapTextureMaterial = []) :
    ∃ r connections,
      createFBXNodeTree env b root g = some r ∧ r.completed = true ∧
      r.rootNode.children = [globalSettingsNode, r.baker._objectNode, connections] ∧
      countNamed MATERIAL_NODE_NAME r.baker._objectNode.children = mesh0.parts.length ∧
      r.baker._objectNode.children.length = 2 + mesh0.parts.length ∧
      r.baker._nodeID = nextNodeID^[mesh0.parts.length + 2] b._nodeID ∧
      r.baker._materialIDs.length = mesh0.parts.length ∧
      r.baker._mapTextureMaterial = [] ∧
      connections.children =
        cNodeOO r.baker._geometryID r.baker._modelID ::
          r.baker._materialIDs.map (fun id => cNodeOO id r.baker._modelID) ∧
      countEdges CONNECTIONS_NODE_PROPERTY connections.children = 1 + mesh0.parts.length ∧
      countEdges CONNECTIONS_NODE_PROPERTY_1 connections.children = 0 := by
  have hno : ¬ hasTexture m := by
    unfold hasTexture
    simp [halbedo, hspecular]
  obtain ⟨r, hr, hc, h1, h2, h3, h4, h5, h6, h7⟩ :=
    createFBXNodeTree_single_material env b root g mesh0 rest k m hg hmat hno hparts hm ht
  refine ⟨r, _, hr, hc, by rw [h7], ?_, ?_, ?_, ?_, h4, ?_, ?_, ?_⟩
  · rw [h6]
    simp only [countNamed_cons, countNamed_map_materialNodeOf]
    simp [newMaterialIDs, List.length_iterate, geometryNodeOf, modelNodeOf, GEOMETRY_NODE_NAME,
      MODEL_NODE_NAME, MATERIAL_NODE_NAME]
  · rw [h6]
    simp [newMaterialIDs, List.length_iterate]
    omega
  · rw [h5, iterate_nextNodeID_add_two]
  · rw [h3, newMaterialIDs, List.length_iterate]
  · rw [h1, h2, h3]
  · simp only [countEdges_cons, countEdges_map_cNodeOO]
    simp [newMaterialIDs, List.length_iterate, cNodeOO, FBXNode.edgeKind]
    omega
  · simp only [countEdges_cons, countEdges_map_cNodeOO]
    simp [cNodeOO, FBXNode.edgeKind, CONNECTIONS_NODE_PROPERTY, CONNECTIONS_NODE_PROPERTY_1]

/-- Witness of C4 (amended) on the document with two parts and one material. -/
theorem c4_single_material_one_node_per_part_witness :
    twoPartsOneMaterial.materials = [("default", plainMaterial)] ∧
    plainMaterial.albedoTexture.filename = "" ∧ plainMaterial.specularTexture.filename = "" ∧
    (freshBaker 0)._materialIDs = [] ∧ (freshBaker 0)._mapTextureMaterial = [] ∧
    ∃ r connections,
      createFBXNodeTree sampleCollaborators (freshBaker 0) FBXNode.empty twoPartsOneMaterial =
        some r ∧ r.completed = true ∧
      r.rootNode.children = [globalSettingsNode, r.baker._objectNode, connections] ∧
      countNamed MATERIAL_NODE_NAME r.baker._objectNode.children = 2 ∧
      r.baker._objectNode.children.length = 2 + 2 ∧
      r.baker._nodeID = nextNodeID^[2 + 2] (freshBaker 0)._nodeID ∧
      r.baker._materialIDs.length = 2 ∧
      r.baker._mapTextureMaterial = [] ∧
      connections.children =
        cNodeOO r.baker._geometryID r.baker._modelID ::
          r.baker._materialIDs.map (fun id => cNodeOO id r.baker._modelID) ∧
      countEdges CONNECTIONS_NODE_PROPERTY connections.children = 1 + 2 ∧
      countEdges CONNECTIONS_NODE_PROPERTY_1 connections.children = 0 :=
  ⟨rfl, rfl, rfl, rfl, rfl,
    c4_single_material_one_node_per_part sampleCollaborators (freshBaker 0) FBXNode.empty
      twoPartsOneMaterial { parts := [{ materialID := "default" }, { materialID := "default" }] }
      [] "default" plainMaterial rfl rfl rfl rfl (by decide) rfl rfl⟩

/-- C5: for every geometry document whose first mesh has M parts, each
referencing a material with a non-empty albedo texture file name, the file
names being pairwise distinct, a call on a baker that has recorded no material
and no texture, with texture compressions that all succeed, runs to its end with
these counts, N being the number of distinct materials the parts reference. The
parts reference M distinct materials, so N = M. The identity counter is advanced
exactly 2 + N + M times (by 2 + N + M when no 64-bit overflow occurs): N
material identities and M texture identities are recorded next to the geometry
and model identities. The children of the Connections node are exactly 1 + N
"OO" edges followed by exactly 2 * M "OP" edges. When the materials of the
document are the ones the parts reference (distinct names, each referenced by a
part, each reference a name of the document), N is the number of materials of
the document. -/
theorem c5_identities_and_edges (env : Collaborators) (b : OBJBaker) (root : FBXNode)
    (g : FBXGeometry) (mesh0 : FBXMesh) (rest : List FBXMesh) (hg : g.meshes = mesh0 :: rest)
    (hparts : ∀ p ∈ mesh0.parts, (materialOf env g p.materialID).albedoTexture.filename ≠ "")
    (hdistinct : (mesh0.parts.map
      (fun p => (materialOf env g p.materialID).albedoTexture.filename)).Nodup)
    (hok : ∀ h f u, env.compressTexture h f u ≠ none)
    (hm : b._materialIDs = []) (ht : b._mapTextureMaterial = []) :
    ∃ r connections ooEdges opEdges,
      createFBXNodeTree env b root g = some r ∧ r.completed = true ∧
      r.rootNode.children = [globalSettingsNode, r.baker._objectNode, connections] ∧
      connections.name = "Connections" ∧
      (mesh0.parts.map (fun p => p.materialID)).dedup.length = mesh0.parts.length ∧
      r.baker._nodeID =
        nextNodeID^[2 + (mesh0.parts.map (fun p => p.materialID)).dedup.length +
          mesh0.parts.length] b._nodeID ∧
      (-9223372036854775808 ≤ b._nodeID →
        b._nodeID + (2 + (mesh0.parts.map (fun p => p.materialID)).dedup.length +
          mesh0.parts.length : Nat) < 9223372036854775808 →
        r.baker._nodeID = b._nodeID +
          (2 + (mesh0.parts.map (fun p => p.materialID)).dedup.length +
            mesh0.parts.length : Nat)) ∧
      r.baker._materialIDs.length = (mesh0.parts.map (fun p => p.materialID)).dedup.length ∧
      r.baker._mapTextureMaterial.length = mesh0.parts.length ∧
      connections.children = ooEdges ++ opEdges ∧
      ooEdges.length = 1 + (mesh0.parts.map (fun p => p.materialID)).dedup.length ∧
      (∀ e ∈ ooEdges, e.name = "C" ∧ e.edgeKind = some "OO") ∧
      opEdges.length = 2 * mesh0.parts.length ∧
      (∀ e ∈ opEdges, e.name = "C" ∧ e.edgeKind = some "OP") ∧
      ((materialKeys g.materials).Nodup →
        (∀ key ∈ materialKeys g.materials, ∃ p ∈ mesh0.parts, p.materialID = key) →
        (∀ p ∈ mesh0.parts, p.materialID ∈ materialKeys g.materials) →
        g.materials.length = (mesh0.parts.map (fun p => p.materialID)).dedup.length) := by
  obtain ⟨r, hr, hc⟩ := createFBXNodeTree_fresh_completed env b root g mesh0 rest hg hok hm ht
  obtain ⟨⟨tid, h1⟩, _, h3, _⟩ := createFBXNodeTree_completed env b root g mesh0 rest hg r hr hc
  have hnames : (mesh0.parts.map (fun p => p.materialID)).Nodup := by
    have hcomp : mesh0.parts.map (fun p => (materialOf env g p.materialID).albedoTexture.filename) =
        (mesh0.parts.map (fun p => p.materialID)).map
          (fun name => (materialOf env g name).albedoTexture.filename) := by
      rw [List.map_map]
      rfl
    rw [hcomp] at hdistinct
    exact List.Nodup.of_map _ hdistinct
  have hN : (mesh0.parts.map (fun p => p.materialID)).dedup.length = mesh0.parts.length := by
    rw [List.Nodup.dedup hnames, List.length_map]
  have hlen : (newTextureSteps env b g mesh0).length = mesh0.parts.length := by
    rw [newTextureSteps_length, texturedMaterials_length_of_all]
    intro p hp
    exact Or.inl (hparts p hp)
  have hid : r.baker._nodeID =
      nextNodeID^[2 + mesh0.parts.length + mesh0.parts.length] b._nodeID := by
    rw [h1]
    simp only [hlen, firstTextureID]
    rw [show 2 + mesh0.parts.length + mesh0.parts.length =
      mesh0.parts.length + (mesh0.parts.length + 2) by omega,
      Function.iterate_add_apply, iterate_nextNodeID_add_two]
  have hmats : r.baker._materialIDs.length = mesh0.parts.length := by
    rw [h1]
    simp [hm, newMaterialIDs, List.length_iterate]
  have hmap : r.baker._mapTextureMaterial.length = mesh0.parts.length := by
    rw [h1]
    simp [ht, hlen]
  rw [hN]
  refine ⟨r, connectionsNodeOf r.baker,
    cNodeOO r.baker._geometryID r.baker._modelID ::
      r.baker._materialIDs.map (fun m => cNodeOO m r.baker._modelID),
    textureEdges r.baker._materialIDs r.baker._mapTextureMaterial,
    hr, hc, by rw [h3], rfl, rfl, hid, ?_, hmats, hmap, rfl, ?_, ?_, ?_, ?_, ?_⟩
  · intro hlo hhi
    rw [hid]
    exact iterate_nextNodeID_eq _ _ hlo hhi
  · simp [hmats]
    omega
  · intro e he
    simp only [List.mem_cons, List.mem_map] at he
    rcases he with he | ⟨m, _, he⟩
    · rw [he]; exact ⟨rfl, rfl⟩
    · rw [← he]; exact ⟨rfl, rfl⟩
  · rw [textureEdges_length, hmap]
  · intro e he
    simp only [textureEdges, List.mem_flatMap, List.mem_cons, List.mem_singleton,
      List.not_mem_nil, or_false] at he
    obtain ⟨tm, _, he | he⟩ := he <;> rw [he] <;> exact ⟨rfl, rfl⟩
  · intro hkeys hreferenced hpresent
    have h1le : (materialKeys g.materials).length ≤
        (mesh0.parts.map (fun p => p.materialID)).length := by
      apply (List.subperm_of_subset hkeys _).length_le
      intro key hkey
      obtain ⟨p, hp, hpk⟩ := hreferenced key hkey
      rw [List.mem_map]
      exact ⟨p, hp, hpk⟩
    have h2le : (mesh0.parts.map (fun p => p.materialID)).length ≤
        (materialKeys g.materials).length := by
      apply (List.subperm_of_subset hnames _).length_le
      intro name hname
      rw [List.mem_map] at hname
      obtain ⟨p, hp, hpk⟩ := hname
      rw [← hpk]
      exact hpresent p hp
    simp only [materialKeys, List.length_map] at h1le h2le
    omega

/-- Witness of C5 on the document with two materials, each with its own albedo
texture and referenced by one of the two parts: N = M = 2, the counter ends at
6, there are 3 "OO" edges and 4 "OP" edges. -/
theorem c5_identities_and_edges_witness :
    twoTexturedParts.materials.length = 2 ∧
    (∀ p ∈ ([{ materialID := "a" }, { materialID := "b" }] : List FBXMeshPart),
      (materialOf sampleCollaborators twoTexturedParts p.materialID).albedoTexture.filename
        ≠ "") ∧
    (([{ materialID := "a" }, { materialID := "b" }] : List FBXMeshPart).map
      (fun p => (materialOf sampleCollaborators twoTexturedParts
        p.materialID).albedoTexture.filename)).Nodup ∧
    (∃ r0, createFBXNodeTree sampleCollaborators (freshBaker 0) FBXNode.empty twoTexturedParts =
        some r0 ∧ r0.baker._nodeID = 6 ∧ r0.baker._materialIDs = [2, 3] ∧
      r0.baker._mapTextureMaterial = [(4, 0), (5, 1)]) ∧
    ∃ r connections ooEdges opEdges,
      createFBXNodeTree sampleCollaborators (freshBaker 0) FBXNode.empty twoTexturedParts =
        some r ∧ r.completed = true ∧
      r.rootNode.children = [globalSettingsNode, r.baker._objectNode, connections] ∧
      connections.name = "Connections" ∧
      (([{ materialID := "a" }, { materialID := "b" }] : List FBXMeshPart).map
        (fun p => p.materialID)).dedup.length = 2 ∧
      r.baker._nodeID =
        nextNodeID^[2 + (([{ materialID := "a" }, { materialID := "b" }] : List FBXMeshPart).map
          (fun p => p.materialID)).dedup.length + 2] (freshBaker 0)._nodeID ∧
      (-9223372036854775808 ≤ (freshBaker 0)._nodeID →
        (freshBaker 0)._nodeID +
          (2 + (([{ materialID := "a" }, { materialID := "b" }] : List FBXMeshPart).map
            (fun p => p.materialID)).dedup.length + 2 : Nat) < 9223372036854775808 →
        r.baker._nodeID = (freshBaker 0)._nodeID +
          (2 + (([{ materialID := "a" }, { materialID := "b" }] : List FBXMeshPart).map
            (fun p => p.materialID)).dedup.length + 2 : Nat)) ∧
      r.baker._materialIDs.length =
        (([{ materialID := "a" }, { materialID := "b" }] : List FBXMeshPart).map
          (fun p => p.materialID)).dedup.length ∧
      r.baker._mapTextureMaterial.length = 2 ∧
      connections.children = ooEdges ++ opEdges ∧
      ooEdges.length =
        1 + (([{ materialID := "a" }, { materialID := "b" }] : List FBXMeshPart).map
          (fun p => p.materialID)).dedup.length ∧
      (∀ e ∈ ooEdges, e.name = "C" ∧ e.edgeKind = some "OO") ∧
      opEdges.length = 2 * 2 ∧
      (∀ e ∈ opEdges, e.name = "C" ∧ e.edgeKind = some "OP") ∧
      ((materialKeys twoTexturedParts.materials).Nodup →
        (∀ key ∈ materialKeys twoTexturedParts.materials,
          ∃ p ∈ ([{ materialID := "a" }, { materialID := "b" }] : List FBXMeshPart),
            p.materialID = key) →
        (∀ p ∈ ([{ materialID := "a" }, { materialID := "b" }] : List FBXMeshPart),
          p.materialID ∈ materialKeys twoTexturedParts.materials) →
        twoTexturedParts.materials.length =
          (([{ materialID := "a" }, { materialID := "b" }] : List FBXMeshPart).map
            (fun p => p.materialID)).dedup.length) :=
  ⟨rfl, by decide, by decide, ⟨_, rfl, rfl, rfl, rfl⟩,
    c5_identities_and_edges sampleCollaborators (freshBaker 0) FBXNode.empty twoTexturedParts
      { parts := [{ materialID := "a" }, { materialID := "b" }] } [] rfl (by decide) (by decide)
      (fun _ _ _ => by simp [sampleCollaborators]) rfl rfl⟩

/-- C6 (counterexample): the document `sharedMaterial` has two materials and a
mesh whose two parts both reference the material "a"; a call emits two Material
nodes for "a", with the two identities 2 and 3, not a single one. -/
theorem c6_counterexample_shared_material :
    sharedMaterial.materials.length = 2 ∧
    sharedMaterial.meshes = [{ parts := [{ materialID := "a" }, { materialID := "a" }] }] ∧
    ∃ r geometry model material1 material2,
      createFBXNodeTree sampleCollaborators (freshBaker 0) FBXNode.empty sharedMaterial =
        some r ∧ r.completed = true ∧
      r.baker._objectNode.children = [geometry, model, material1, material2] ∧
      material1.name = MATERIAL_NODE_NAME ∧ material2.name = MATERIAL_NODE_NAME ∧
      material1.properties = [.longlong 2, .qstring "a", .byteArray MESH] ∧
      material2.properties = [.longlong 3, .qstring "a", .byteArray MESH] ∧
      r.baker._materialIDs = [2, 3] ∧
      countNamed MATERIAL_NODE_NAME r.baker._objectNode.children = 2 :=
  ⟨rfl, rfl, _, _, _, _, _, rfl, rfl, rfl, rfl, rfl, rfl, rfl, rfl, by decide⟩

/-- C6 (amended): for every geometry document with more than one material, a
call allocates one material identity and emits one Material node for each part
of the first mesh, in part order, each node carrying its identity, the material
name of its part and that material's properties; a material referenced by
several parts yields one Material node per referencing part. -/
theorem c6_one_material_node_per_part (env : Collaborators) (b : OBJBaker) (root : FBXNode)
    (g : FBXGeometry) (mesh0 : FBXMesh) (rest : List FBXMesh) (r : BuildResult)
    (hg : g.meshes = mesh0 :: rest) (hN : 1 < g.materials.length)
    (h : createFBXNodeTree env b root g = some r) :
    r.baker._materialIDs = b._materialIDs ++ newMaterialIDs b mesh0.parts.length ∧
    (newMaterialIDs b mesh0.parts.length).length = mesh0.parts.length ∧
    ∃ geometry model textures,
      r.baker._objectNode.children =
        geometry :: model ::
          (List.zipWith
            (fun id p => materialNodeOf id p.materialID (materialOf env g p.materialID))
            (newMaterialIDs b mesh0.parts.length) mesh0.parts ++ textures) ∧
      geometry.name = GEOMETRY_NODE_NAME ∧ model.name = MODEL_NODE_NAME ∧
      ∀ node ∈ textures, node.name = TEXTURE_NODE_NAME := by
  obtain ⟨h1, _⟩ := createFBXNodeTree_some env b root g mesh0 rest hg r h
  obtain ⟨idxs, nodes, _, _, h4, _, _, _, _, _, h10, h11⟩ := afterLoops_ids env b g mesh0
  refine ⟨by rw [h1, h4], by rw [newMaterialIDs, List.length_iterate],
    geometryNodeOf b._nodeID (env.compressMesh mesh0 false).2,
    modelNodeOf (nextNodeID (nextNodeID b._nodeID)), nodes, ?_, rfl, rfl, h11⟩
  rw [h1, h10, newMaterialNodes, materialNames_of_two_le env mesh0.parts g (by omega),
    List.zipWith_map_right]

/-- Witness of C6 (amended) on the document whose two parts share a material. -/
theorem c6_one_material_node_per_part_witness :
    1 < sharedMaterial.materials.length ∧
    ∃ r, createFBXNodeTree sampleCollaborators (freshBaker 0) FBXNode.empty sharedMaterial =
        some r ∧
      r.baker._materialIDs = (freshBaker 0)._materialIDs ++ newMaterialIDs (freshBaker 0) 2 ∧
      (newMaterialIDs (freshBaker 0) 2).length = 2 ∧
      ∃ geometry model textures,
        r.baker._objectNode.children =
          geometry :: model ::
            (List.zipWith
              (fun id (p : FBXMeshPart) => materialNodeOf id p.materialID
                (materialOf sampleCollaborators sharedMaterial p.materialID))
              (newMaterialIDs (freshBaker 0) 2)
              ([{ materialID := "a" }, { materialID := "a" }] : List FBXMeshPart) ++ textures) ∧
        geometry.name = GEOMETRY_NODE_NAME ∧ model.name = MODEL_NODE_NAME ∧
        ∀ node ∈ textures, node.name = TEXTURE_NODE_NAME :=
  ⟨by decide, _, rfl,
    c6_one_material_node_per_part sampleCollaborators (freshBaker 0) FBXNode.empty sharedMaterial
      { parts := [{ materialID := "a" }, { materialID := "a" }] } [] _ rfl (by decide) rfl⟩

/-- C8: absent 64-bit overflow, a call on a baker that has recorded no material
and no texture issues its identities in strictly increasing order, geometry
first, then model, then the material identities in the order the Material nodes
are emitted, then the texture identities in the order the mesh parts are
scanned: geometryID < modelID < every material identity < every texture
identity, the material identities increase along `_materialIDs` (which lists
the identities of the Material nodes in emission order) and the recorded
(texture identity, part index) pairs increase in both components. -/
theorem c8_identities_strictly_increase (env : Collaborators) (b : OBJBaker) (root : FBXNode)
    (g : FBXGeometry) (mesh0 : FBXMesh) (rest : List FBXMesh) (r : BuildResult)
    (hg : g.meshes = mesh0 :: rest)
    (hm : b._materialIDs = []) (ht : b._mapTextureMaterial = [])
    (hlo : -9223372036854775808 ≤ b._nodeID)
    (hhi : b._nodeID + (2 + 2 * mesh0.parts.length) < 9223372036854775808)
    (h : createFBXNodeTree env b root g = some r) :
    r.baker._geometryID = b._nodeID ∧ r.baker._modelID = b._nodeID + 1 ∧
    r.baker._materialIDs =
      (List.range mesh0.parts.length).map (fun j : Nat => b._nodeID + 2 + j) ∧
    r.baker._mapTextureMaterial.map Prod.fst =
      (List.range r.baker._mapTextureMaterial.length).map
        (fun j : Nat => b._nodeID + 2 + mesh0.parts.length + j) ∧
    r.baker._nodeID = b._nodeID + 2 + mesh0.parts.length + r.baker._mapTextureMaterial.length ∧
    r.baker._geometryID < r.baker._modelID ∧
    (∀ m ∈ r.baker._materialIDs, r.baker._modelID < m) ∧
    (∀ m ∈ r.baker._materialIDs, ∀ t ∈ r.baker._mapTextureMaterial, m < t.1) ∧
    r.baker._materialIDs.Pairwise (· < ·) ∧
    r.baker._mapTextureMaterial.Pairwise (fun s t => s.1 < t.1 ∧ s.2 < t.2) ∧
    ∃ geometry model materialNodes otherNodes,
      r.baker._objectNode.children = geometry :: model :: (materialNodes ++ otherNodes) ∧
      geometry.identity = some r.baker._geometryID ∧
      materialNodes.map FBXNode.identity = r.baker._materialIDs.map some := by
  obtain ⟨h1, _⟩ := createFBXNodeTree_some env b root g mesh0 rest hg r h
  obtain ⟨idxs, nodes, h2, h3, h4, h5, h6, h7, h8, h9, h10, _⟩ := afterLoops_ids env b g mesh0
  rw [← h1] at h2 h3 h4 h5 h6 h10
  rw [hm, List.nil_append] at h4
  rw [ht, List.nil_append] at h5
  have hn1 : nextNodeID b._nodeID = b._nodeID + 1 := nextNodeID_eq_add_one _ hlo (by omega)
  have hn2 : nextNodeID (nextNodeID b._nodeID) = b._nodeID + 2 := by
    rw [hn1, nextNodeID_eq_add_one _ (by omega) (by omega)]
    ring
  have hfirst : firstTextureID b mesh0.parts.length = b._nodeID + 2 + mesh0.parts.length := by
    rw [firstTextureID, hn2, iterate_nextNodeID_eq _ _ (by omega) (by omega)]
  have hmats : r.baker._materialIDs =
      (List.range mesh0.parts.length).map (fun j : Nat => b._nodeID + 2 + j) := by
    rw [h4, newMaterialIDs, hn2, iterate_nextNodeID_range _ _ (by omega) (by omega)]
  have hlen : r.baker._mapTextureMaterial.length = idxs.length := by
    rw [h5]
    simp [List.length_iterate]
  have hids : r.baker._mapTextureMaterial.map Prod.fst =
      (List.range idxs.length).map (fun j : Nat => b._nodeID + 2 + mesh0.parts.length + j) := by
    rw [h5, map_fst_zip_of_length _ _ (by simp [List.length_iterate]), hfirst,
      iterate_nextNodeID_range _ _ (by omega) (by omega)]
  have hpairs : r.baker._mapTextureMaterial.Pairwise (fun s t => s.1 < t.1 ∧ s.2 < t.2) := by
    rw [h5]
    apply pairwise_zip_lt _ _ _ h8
    rw [hfirst]
    exact pairwise_iterate_nextNodeID _ _ (by omega) (by omega)
  have hmodel : r.baker._modelID = b._nodeID + 1 := by rw [h3, hn1]
  have hmatmem : ∀ m ∈ r.baker._materialIDs, ∃ j : Nat, j < mesh0.parts.length ∧
      m = b._nodeID + 2 + j := by
    intro m hmem
    rw [hmats] at hmem
    obtain ⟨j, hj, rfl⟩ := List.mem_map.mp hmem
    exact ⟨j, List.mem_range.mp hj, rfl⟩
  refine ⟨h2, hmodel, hmats, by rw [hids, hlen], ?_, by rw [h2, hmodel]; omega, ?_, ?_, ?_,
    hpairs, geometryNodeOf b._nodeID (env.compressMesh mesh0 false).2,
    modelNodeOf (nextNodeID (nextNodeID b._nodeID)), newMaterialNodes env b g mesh0, nodes, h10,
    by rw [h2]; rfl, ?_⟩
  · rw [h6, hfirst, iterate_nextNodeID_eq _ _ (by omega) (by omega), hlen]
  · intro m hmem
    obtain ⟨j, _, rfl⟩ := hmatmem m hmem
    rw [hmodel]
    omega
  · intro m hmem t htm
    obtain ⟨j, hj, rfl⟩ := hmatmem m hmem
    have ht1 : t.1 ∈ r.baker._mapTextureMaterial.map Prod.fst := List.mem_map_of_mem _ htm
    rw [hids] at ht1
    obtain ⟨i, _, hi⟩ := List.mem_map.mp ht1
    rw [← hi]
    omega
  · rw [hmats, List.pairwise_map]
    exact (List.pairwise_lt_range _).imp (fun hab => by omega)
  · rw [newMaterialNodes_identity, h4]

/-- Witness of C8 on the document with three parts, two of them textured. -/
theorem c8_identities_strictly_increase_witness :
    (freshBaker 0)._materialIDs = [] ∧ (freshBaker 0)._mapTextureMaterial = [] ∧
    -9223372036854775808 ≤ (freshBaker 0)._nodeID ∧
    (freshBaker 0)._nodeID + (2 + 2 * 3) < 9223372036854775808 ∧
    ∃ r, createFBXNodeTree sampleCollaborators (freshBaker 0) FBXNode.empty mixedTextures =
        some r ∧
      r.baker._geometryID = (freshBaker 0)._nodeID ∧ r.baker._modelID = (freshBaker 0)._nodeID + 1 ∧
      r.baker._materialIDs = (List.range 3).map (fun j : Nat => (freshBaker 0)._nodeID + 2 + j) ∧
      r.baker._mapTextureMaterial.map Prod.fst =
        (List.range r.baker._mapTextureMaterial.length).map
          (fun j : Nat => (freshBaker 0)._nodeID + 2 + (3 : Nat) + j) ∧
      r.baker._nodeID = (freshBaker 0)._nodeID + 2 + (3 : Nat) + r.baker._mapTextureMaterial.length ∧
      r.baker._geometryID < r.baker._modelID ∧
      (∀ m ∈ r.baker._materialIDs, r.baker._modelID < m) ∧
      (∀ m ∈ r.baker._materialIDs, ∀ t ∈ r.baker._mapTextureMaterial, m < t.1) ∧
      r.baker._materialIDs.Pairwise (· < ·) ∧
      r.baker._mapTextureMaterial.Pairwise (fun s t => s.1 < t.1 ∧ s.2 < t.2) ∧
      ∃ geometry model materialNodes otherNodes,
        r.baker._objectNode.children = geometry :: model :: (materialNodes ++ otherNodes) ∧
        geometry.identity = some r.baker._geometryID ∧
        materialNodes.map FBXNode.identity = r.baker._materialIDs.map some :=
  ⟨rfl, rfl, by decide, by decide, _, rfl,
    c8_identities_strictly_increase sampleCollaborators (freshBaker 0) FBXNode.empty
      mixedTextures
      { parts := [{ materialID := "a" }, { materialID := "c" }, { materialID := "b" }] } [] _
      rfl rfl rfl (by decide) (by decide) rfl⟩

/-- C9: albedo wins over specular. On every call that runs to its end, the
texture compressor is called once for each mesh part whose material has a
texture, in part order; for a material with a non-empty albedo file name
(whatever its specular file name) the call passes the albedo file name with the
albedo usage hint and the Texture node's first child is the TextureName node
tagged "Kd"; otherwise (only the specular file name is non-empty) the call
passes the specular file name with the specular usage hint and the tag is "Ka". -/
theorem c9_albedo_wins_over_specular (env : Collaborators) (b : OBJBaker) (root : FBXNode)
    (g : FBXGeometry) (mesh0 : FBXMesh) (rest : List FBXMesh) (r : BuildResult)
    (hg : g.meshes = mesh0 :: rest) (h : createFBXNodeTree env b root g = some r)
    (hc : r.completed = true) :
    ∃ geometry model materialNodes textureNodes calls,
      r.baker._objectNode.children = geometry :: model :: (materialNodes ++ textureNodes) ∧
      materialNodes.length = mesh0.parts.length ∧
      r.baker.textureCalls = b.textureCalls ++ calls ∧
      calls = (texturedMaterials env g mesh0.parts).map (fun m =>
        if m.albedoTexture.filename ≠ "" then
          (m.albedoTexture.filename, TextureUsage.ALBEDO_TEXTURE)
        else (m.specularTexture.filename, TextureUsage.SPECULAR_TEXTURE)) ∧
      textureNodes.map (fun node => (node.name, node.children.head?)) =
        (texturedMaterials env g mesh0.parts).map (fun m =>
          (TEXTURE_NODE_NAME,
            some { name := TEXTURENAME_NODE_NAME
                   properties := [.byteArray (if m.albedoTexture.filename ≠ "" then "Kd" else "Ka")]
                   children := [] })) ∧
      ∀ m ∈ texturedMaterials env g mesh0.parts,
        m.albedoTexture.filename = "" → m.specularTexture.filename ≠ "" := by
  obtain ⟨⟨tid, h1⟩, _, _, _⟩ := createFBXNodeTree_completed env b root g mesh0 rest hg r h hc
  have hmat : texturedMaterials env g mesh0.parts =
      (newTextureSteps env b g mesh0).map (fun s => s.material) :=
    (textureSteps_material env (materialOf env g) mesh0.parts 0 _ _).symm
  refine ⟨geometryNodeOf b._nodeID (env.compressMesh mesh0 false).2,
    modelNodeOf (nextNodeID (nextNodeID b._nodeID)), newMaterialNodes env b g mesh0,
    (newTextureSteps env b g mesh0).map TextureStep.node,
    (newTextureSteps env b g mesh0).map TextureStep.request, by rw [h1],
    newMaterialNodes_length env b g mesh0, by rw [h1], ?_, ?_, ?_⟩
  · rw [hmat, List.map_map]
    apply List.map_congr_left
    intro s _
    simp only [TextureStep.request, textureFileName, textureContentTypeCallback, Function.comp]
    split <;> rfl
  · rw [hmat, List.map_map, List.map_map]
    apply List.map_congr_left
    intro s _
    simp [TextureStep.node, textureNodeOf, texturePropertyString]
  · intro m hmem halbedo
    unfold texturedMaterials at hmem
    have hT := (List.mem_filter.mp hmem).2
    simp only [decide_eq_true_eq] at hT
    rcases hT with hT | hT
    · exact absurd halbedo hT
    · exact hT

/-- Witness of C9 on the document with three parts, two of them textured. -/
theorem c9_albedo_wins_over_specular_witness :
    ∃ r, createFBXNodeTree sampleCollaborators (freshBaker 0) FBXNode.empty mixedTextures =
        some r ∧ r.completed = true ∧
      r.baker.textureCalls =
        [("a.png", TextureUsage.ALBEDO_TEXTURE), ("b.png", TextureUsage.SPECULAR_TEXTURE)] ∧
      ∃ geometry model materialNodes textureNodes calls,
        r.baker._objectNode.children = geometry :: model :: (materialNodes ++ textureNodes) ∧
        materialNodes.length = 3 ∧
        r.baker.textureCalls = (freshBaker 0).textureCalls ++ calls ∧
        calls = (texturedMaterials sampleCollaborators mixedTextures
            [{ materialID := "a" }, { materialID := "c" }, { materialID := "b" }]).map (fun m =>
          if m.albedoTexture.filename ≠ "" then
            (m.albedoTexture.filename, TextureUsage.ALBEDO_TEXTURE)
          else (m.specularTexture.filename, TextureUsage.SPECULAR_TEXTURE)) ∧
        textureNodes.map (fun node => (node.name, node.children.head?)) =
          (texturedMaterials sampleCollaborators mixedTextures
              [{ materialID := "a" }, { materialID := "c" }, { materialID := "b" }]).map (fun m =>
            (TEXTURE_NODE_NAME,
              some { name := TEXTURENAME_NODE_NAME
                     properties :=
                       [.byteArray (if m.albedoTexture.filename ≠ "" then "Kd" else "Ka")]
                     children := [] })) ∧
        ∀ m ∈ texturedMaterials sampleCollaborators mixedTextures
            [{ materialID := "a" }, { materialID := "c" }, { materialID := "b" }],
          m.albedoTexture.filename = "" → m.specularTexture.filename ≠ "" :=
  ⟨_, rfl, rfl, rfl,
    c9_albedo_wins_over_specular sampleCollaborators (freshBaker 0) FBXNode.empty mixedTextures
      { parts := [{ materialID := "a" }, { materialID := "c" }, { materialID := "b" }] } [] _
      rfl rfl rfl⟩

/-- C10: on every call that runs to its end (all texture compressions succeed),
the parts of the first mesh are scanned in document order and a Texture node is
emitted for a part if and only if that part's material has a non-empty albedo or
specular texture file name. With `steps` the emitted textures in order: the
Texture nodes follow the Material nodes under Objects; each carries the identity
allocated for it as its only property and exactly the two children TextureName
and RelativeFilename, the latter holding the file name the texture compressor
answered; the identities are the successive values of the counter; and the
recorded (texture identity, part index) pairs are one per Texture node, in
increasing part-index order. -/
theorem c10_texture_node_per_textured_part (env : Collaborators) (b : OBJBaker)
    (root : FBXNode) (g : FBXGeometry) (mesh0 : FBXMesh) (rest : List FBXMesh) (r : BuildResult)
    (hg : g.meshes = mesh0 :: rest) (h : createFBXNodeTree env b root g = some r)
    (hc : r.completed = true) :
    ∃ (steps : List TextureStep) (geometry model : FBXNode) (materialNodes : List FBXNode),
      materialNodes.length = mesh0.parts.length ∧
      (∀ node ∈ materialNodes, node.name = MATERIAL_NODE_NAME) ∧
      r.baker._objectNode.children =
        geometry :: model :: (materialNodes ++ steps.map (fun s =>
          { name := TEXTURE_NODE_NAME
            properties := [.longlong s.id]
            children :=
              [{ name := TEXTURENAME_NODE_NAME
                 properties := [.byteArray (texturePropertyString s.material)]
                 children := [] },
               { name := RELATIVEFILENAME_NODE_NAME
                 properties := [.byteArray s.file]
                 children := [] }] })) ∧
      (∀ (i : Nat) (p : FBXMeshPart), mesh0.parts[i]? = some p →
        (i ∈ steps.map (fun s => s.index) ↔
          ((materialOf env g p.materialID).albedoTexture.filename ≠ "" ∨
            (materialOf env g p.materialID).specularTexture.filename ≠ ""))) ∧
      (∀ s ∈ steps, ∃ p, mesh0.parts[s.index]? = some p ∧
        s.material = materialOf env g p.materialID) ∧
      (steps.map (fun s => s.index)).Pairwise (· < ·) ∧
      steps.map (fun s => s.id) =
        List.iterate nextNodeID (firstTextureID b mesh0.parts.length) steps.length ∧
      r.baker._nodeID = nextNodeID^[steps.length] (firstTextureID b mesh0.parts.length) ∧
      (∀ (k : Nat) (s : TextureStep), steps[k]? = some s →
        env.compressTexture
            (b.textureCalls ++ (steps.take k).map (fun t =>
              (textureFileName t.material, textureContentTypeCallback t.material)))
            (textureFileName s.material) (textureContentTypeCallback s.material) =
          some s.file) ∧
      r.baker._mapTextureMaterial =
        b._mapTextureMaterial ++ steps.map (fun s => (s.id, s.index)) := by
  obtain ⟨⟨tid, h1⟩, h2, _, _⟩ := createFBXNodeTree_completed env b root g mesh0 rest hg r h hc
  refine ⟨newTextureSteps env b g mesh0,
    geometryNodeOf b._nodeID (env.compressMesh mesh0 false).2,
    modelNodeOf (nextNodeID (nextNodeID b._nodeID)), newMaterialNodes env b g mesh0,
    newMaterialNodes_length env b g mesh0, newMaterialNodes_name env b g mesh0, by rw [h1]; rfl,
    ?_, ?_, textureSteps_index_pairwise _ _ _ _ _ _, textureSteps_id _ _ _ _ _ _, by rw [h1],
    ?_, by rw [h1]⟩
  · intro i p hp
    have := textureSteps_mem_index env (materialOf env g) mesh0.parts 0
      (firstTextureID b mesh0.parts.length) b.textureCalls i p hp
    rw [Nat.zero_add] at this
    exact this
  · intro s hs
    obtain ⟨_, p, hp, _, hmat⟩ := textureSteps_part env (materialOf env g) mesh0.parts 0
      (firstTextureID b mesh0.parts.length) b.textureCalls s hs
    exact ⟨p, by simpa using hp, hmat⟩
  · intro k s hk
    have hmem : s ∈ newTextureSteps env b g mesh0 := List.getElem?_mem hk
    have hhist := textureSteps_history env (materialOf env g) mesh0.parts 0
      (firstTextureID b mesh0.parts.length) b.textureCalls k s hk
    have := h2 s hmem
    rw [hhist] at this
    exact this

/-- Witness of C10 on the document with three parts, two of them textured. -/
theorem c10_texture_node_per_textured_part_witness :
    ∃ r, createFBXNodeTree sampleCollaborators (freshBaker 0) FBXNode.empty mixedTextures =
        some r ∧ r.completed = true ∧
      r.baker._mapTextureMaterial = [(5, 0), (6, 2)] ∧
      ∃ (steps : List TextureStep) (geometry model : FBXNode) (materialNodes : List FBXNode),
        materialNodes.length = 3 ∧
        (∀ node ∈ materialNodes, node.name = MATERIAL_NODE_NAME) ∧
        r.baker._objectNode.children =
          geometry :: model :: (materialNodes ++ steps.map (fun s =>
            { name := TEXTURE_NODE_NAME
              properties := [.longlong s.id]
              children :=
                [{ name := TEXTURENAME_NODE_NAME
                   properties := [.byteArray (texturePropertyString s.material)]
                   children := [] },
                 { name := RELATIVEFILENAME_NODE_NAME
                   properties := [.byteArray s.file]
                   children := [] }] })) ∧
        (∀ (i : Nat) (p : FBXMeshPart),
          ([{ materialID := "a" }, { materialID := "c" }, { materialID := "b" }] :
            List FBXMeshPart)[i]? = some p →
          (i ∈ steps.map (fun s => s.index) ↔
            ((materialOf sampleCollaborators mixedTextures p.materialID).albedoTexture.filename
                ≠ "" ∨
              (materialOf sampleCollaborators mixedTextures p.materialID).specularTexture.filename
                ≠ ""))) ∧
        (∀ s ∈ steps, ∃ p,
          ([{ materialID := "a" }, { materialID := "c" }, { materialID := "b" }] :
            List FBXMeshPart)[s.index]? = some p ∧
          s.material = materialOf sampleCollaborators mixedTextures p.materialID) ∧
        (steps.map (fun s => s.index)).Pairwise (· < ·) ∧
        steps.map (fun s => s.id) =
          List.iterate nextNodeID (firstTextureID (freshBaker 0) 3) steps.length ∧
        r.baker._nodeID = nextNodeID^[steps.length] (firstTextureID (freshBaker 0) 3) ∧
        (∀ (k : Nat) (s : TextureStep), steps[k]? = some s →
          sampleCollaborators.compressTexture
              ((freshBaker 0).textureCalls ++ (steps.take k).map (fun t =>
                (textureFileName t.material, textureContentTypeCallback t.material)))
              (textureFileName s.material) (textureContentTypeCallback s.material) =
            some s.file) ∧
        r.baker._mapTextureMaterial =
          (freshBaker 0)._mapTextureMaterial ++ steps.map (fun s => (s.id, s.index)) :=
  ⟨_, rfl, rfl, rfl,
    c10_texture_node_per_textured_part sampleCollaborators (freshBaker 0) FBXNode.empty
      mixedTextures
      { parts := [{ materialID := "a" }, { materialID := "c" }, { materialID := "b" }] } [] _
      rfl rfl rfl⟩

/-- C11: on every call that runs to its end, the root's children are exactly
three nodes in the fixed order GlobalSettings, Objects, Connections, none of
them the FBXHeaderExtension node; the GlobalSettings node is the same for every
document and carries, under Properties70 / P, the single property entry
("UnitScaleFactor", "double", "Number", "", 100.0). -/
theorem c11_root_children_and_global_settings (env : Collaborators) (b : OBJBaker)
    (root : FBXNode) (g : FBXGeometry) (r : BuildResult)
    (h : createFBXNodeTree env b root g = some r) (hc : r.completed = true) :
    ∃ settings objects connections,
      r.rootNode.children = [settings, objects, connections] ∧
      settings.name = GLOBAL_SETTINGS_NODE_NAME ∧
      objects.name = OBJECTS_NODE_NAME ∧
      connections.name = CONNECTIONS_NODE_NAME ∧
      (∀ child ∈ r.rootNode.children, child.name ≠ headerNode.name) ∧
      settings.properties = [] ∧
      settings.children =
        [{ name := PROPERTIES70_NODE_NAME
           properties := []
           children :=
             [{ name := P_NODE_NAME
                properties := [.qstring "UnitScaleFactor", .qstring "double", .qstring "Number",
                  .qstring "", .double 100]
                children := [] }] }] := by
  obtain ⟨mesh0, rest, hg⟩ := createFBXNodeTree_meshes env b root g r h
  obtain ⟨⟨tid, h1⟩, _, h3, _⟩ := createFBXNodeTree_completed env b root g mesh0 rest hg r h hc
  have hname : r.baker._objectNode.name = OBJECTS_NODE_NAME := by rw [h1]
  refine ⟨globalSettingsNode, r.baker._objectNode, connectionsNodeOf r.baker, by rw [h3], rfl,
    hname, rfl, ?_, rfl, rfl⟩
  intro child hchild
  rw [h3] at hchild
  simp only [List.mem_cons, List.mem_singleton, List.not_mem_nil, or_false] at hchild
  rcases hchild with rfl | rfl | rfl
  · decide
  · rw [hname]
    decide
  · show CONNECTIONS_NODE_NAME ≠ FBX_HEADER_EXTENSION
    decide

/-- Witness of C11 on the document with three parts, two of them textured. -/
theorem c11_root_children_and_global_settings_witness :
    ∃ r, createFBXNodeTree sampleCollaborators (freshBaker 0) FBXNode.empty mixedTextures =
        some r ∧ r.completed = true ∧
      ∃ settings objects connections,
        r.rootNode.children = [settings, objects, connections] ∧
        settings.name = GLOBAL_SETTINGS_NODE_NAME ∧
        objects.name = OBJECTS_NODE_NAME ∧
        connections.name = CONNECTIONS_NODE_NAME ∧
        (∀ child ∈ r.rootNode.children, child.name ≠ headerNode.name) ∧
        settings.properties = [] ∧
        settings.children =
          [{ name := PROPERTIES70_NODE_NAME
             properties := []
             children :=
               [{ name := P_NODE_NAME
                  properties := [.qstring "UnitScaleFactor", .qstring "double",
                    .qstring "Number", .qstring "", .double 100]
                  children := [] }] }] :=
  ⟨_, rfl, rfl,
    c11_root_children_and_global_settings sampleCollaborators (freshBaker 0) FBXNode.empty
      mixedTextures _ rfl rfl⟩

/-- C12: on every call that runs to its end, the children of the Objects node
are, in order: the Geometry node, the Model node, the Material nodes in the
order their identities were allocated, then the Texture nodes in the order
their identities were allocated; absent 64-bit overflow of the counter, the
identities of the Objects children from the third child on are strictly
increasing. -/
theorem c12_objects_children_in_allocation_order (env : Collaborators) (b : OBJBaker)
    (root : FBXNode) (g : FBXGeometry) (mesh0 : FBXMesh) (rest : List FBXMesh)
    (r : BuildResult) (hg : g.meshes = mesh0 :: rest)
    (hlo : -9223372036854775808 ≤ b._nodeID)
    (hhi : b._nodeID + (2 + 2 * mesh0.parts.length) < 9223372036854775808)
    (h : createFBXNodeTree env b root g = some r) (hc : r.completed = true) :
    ∃ (objects connections geometry model : FBXNode) (materialNodes textureNodes : List FBXNode)
        (materialIDs textureIDs : List Int),
      r.rootNode.children = [globalSettingsNode, objects, connections] ∧
      objects.name = OBJECTS_NODE_NAME ∧
      objects.children = geometry :: model :: (materialNodes ++ textureNodes) ∧
      geometry.name = GEOMETRY_NODE_NAME ∧ model.name = MODEL_NODE_NAME ∧
      (∀ node ∈ materialNodes, node.name = MATERIAL_NODE_NAME) ∧
      (∀ node ∈ textureNodes, node.name = TEXTURE_NODE_NAME) ∧
      materialNodes.map FBXNode.identity = materialIDs.map some ∧
      textureNodes.map FBXNode.identity = textureIDs.map some ∧
      r.baker._materialIDs = b._materialIDs ++ materialIDs ∧
      r.baker._mapTextureMaterial.map Prod.fst =
        b._mapTextureMaterial.map Prod.fst ++ textureIDs ∧
      materialIDs ++ textureIDs =
        (List.range (materialIDs.length + textureIDs.length)).map
          (fun j : Nat => b._nodeID + 2 + j) ∧
      (objects.children.drop 2).map FBXNode.identity = (materialIDs ++ textureIDs).map some ∧
      (materialIDs ++ textureIDs).Pairwise (· < ·) := by
  obtain ⟨⟨tid, h1⟩, _, h3, _⟩ := createFBXNodeTree_completed env b root g mesh0 rest hg r h hc
  have hlen := newTextureSteps_length_le env b g mesh0
  have hn1 : nextNodeID b._nodeID = b._nodeID + 1 := nextNodeID_eq_add_one _ hlo (by omega)
  have hn2 : nextNodeID (nextNodeID b._nodeID) = b._nodeID + 2 := by
    rw [hn1, nextNodeID_eq_add_one _ (by omega) (by omega)]
    ring
  have hsteps : (newTextureSteps env b g mesh0).map (fun s => s.id) =
      List.iterate nextNodeID (firstTextureID b mesh0.parts.length)
        (newTextureSteps env b g mesh0).length := textureSteps_id _ _ _ _ _ _
  have hall : newMaterialIDs b mesh0.parts.length ++
      (newTextureSteps env b g mesh0).map (fun s => s.id) =
      List.iterate nextNodeID (b._nodeID + 2)
        (mesh0.parts.length + (newTextureSteps env b g mesh0).length) := by
    rw [hsteps, List.iterate_add, newMaterialIDs, firstTextureID, hn2]
  have hlens : (newMaterialIDs b mesh0.parts.length).length +
      ((newTextureSteps env b g mesh0).map (fun s => s.id)).length =
      mesh0.parts.length + (newTextureSteps env b g mesh0).length := by
    simp [newMaterialIDs, List.length_iterate]
  refine ⟨r.baker._objectNode, connectionsNodeOf r.baker,
    geometryNodeOf b._nodeID (env.compressMesh mesh0 false).2,
    modelNodeOf (nextNodeID (nextNodeID b._nodeID)), newMaterialNodes env b g mesh0,
    (newTextureSteps env b g mesh0).map TextureStep.node, newMaterialIDs b mesh0.parts.length,
    (newTextureSteps env b g mesh0).map (fun s => s.id), by rw [h3], by rw [h1], by rw [h1],
    rfl, rfl, newMaterialNodes_name env b g mesh0, newTextureSteps_name env b g mesh0,
    newMaterialNodes_identity env b g mesh0, newTextureSteps_identity env b g mesh0,
    by rw [h1], ?_, ?_, ?_, ?_⟩
  · rw [h1]
    simp [List.map_map, Function.comp]
  · rw [hlens, hall]
    exact iterate_nextNodeID_range _ _ (by omega) (by push_cast; omega)
  · rw [h1]
    simp only [List.drop_succ_cons, List.drop_zero, List.map_append]
    rw [newMaterialNodes_identity, newTextureSteps_identity]
  · rw [hall]
    exact pairwise_iterate_nextNodeID _ _ (by omega) (by push_cast; omega)

/-- Witness of C12 on the document with three parts, two of them textured. -/
theorem c12_objects_children_in_allocation_order_witness :
    -9223372036854775808 ≤ (freshBaker 0)._nodeID ∧
    (freshBaker 0)._nodeID + (2 + 2 * 3) < 9223372036854775808 ∧
    ∃ r, createFBXNodeTree sampleCollaborators (freshBaker 0) FBXNode.empty mixedTextures =
        some r ∧ r.completed = true ∧
      r.baker._objectNode.children.map FBXNode.identity =
        [some 0, some 2, some 2, some 3, some 4, some 5, some 6] ∧
      ∃ (objects connections geometry model : FBXNode)
          (materialNodes textureNodes : List FBXNode) (materialIDs textureIDs : List Int),
        r.rootNode.children = [globalSettingsNode, objects, connections] ∧
        objects.name = OBJECTS_NODE_NAME ∧
        objects.children = geometry :: model :: (materialNodes ++ textureNodes) ∧
        geometry.name = GEOMETRY_NODE_NAME ∧ model.name = MODEL_NODE_NAME ∧
        (∀ node ∈ materialNodes, node.name = MATERIAL_NODE_NAME) ∧
        (∀ node ∈ textureNodes, node.name = TEXTURE_NODE_NAME) ∧
        materialNodes.map FBXNode.identity = materialIDs.map some ∧
        textureNodes.map FBXNode.identity = textureIDs.map some ∧
        r.baker._materialIDs = (freshBaker 0)._materialIDs ++ materialIDs ∧
        r.baker._mapTextureMaterial.map Prod.fst =
          (freshBaker 0)._mapTextureMaterial.map Prod.fst ++ textureIDs ∧
        materialIDs ++ textureIDs =
          (List.range (materialIDs.length + textureIDs.length)).map
            (fun j : Nat => (freshBaker 0)._nodeID + 2 + j) ∧
        (objects.children.drop 2).map FBXNode.identity = (materialIDs ++ textureIDs).map some ∧
        (materialIDs ++ textureIDs).Pairwise (· < ·) :=
  ⟨by decide, by decide, _, rfl, rfl, rfl,
    c12_objects_children_in_allocation_order sampleCollaborators (freshBaker 0) FBXNode.empty
      mixedTextures
      { parts := [{ materialID := "a" }, { materialID := "c" }, { materialID := "b" }] } [] _
      rfl (by decide) (by decide) rfl rfl⟩

/-- C13: for every material name and geometry document,
`setMaterialNodeProperties` allocates exactly one identity (the counter advances
once), appends it to `_materialIDs` and changes no other member, sets the node's
properties to that identity, the material name and "Mesh", and appends exactly
one Properties70 child whose four P children are, in order, DiffuseColor with
the three diffuse components, SpecularColor with the three specular components,
Shininess and Opacity of the material stored under the name, each entry
beginning with its semantic name and type tag. -/
theorem c13_setMaterialNodeProperties (env : Collaborators) (b : OBJBaker)
    (materialNode : FBXNode) (material : String) (geometry : FBXGeometry) :
    (setMaterialNodeProperties env b materialNode material geometry).1 =
      { b with _nodeID := nextNodeID b._nodeID, _materialIDs := b._materialIDs ++ [b._nodeID] } ∧
    (setMaterialNodeProperties env b materialNode material geometry).2.1.name =
      materialNode.name ∧
    (setMaterialNodeProperties env b materialNode material geometry).2.1.properties =
      [.longlong b._nodeID, .qstring material, .byteArray "Mesh"] ∧
    (setMaterialNodeProperties env b materialNode material geometry).2.1.children =
      materialNode.children ++
        [{ name := "Properties70"
           properties := []
           children :=
             [{ name := "P"
                properties := [.qstring "DiffuseColor", .qstring "Color", .qstring "",
                  .qstring "A",
                  .float (materialOf env geometry material).diffuseColor.x,
                  .float (materialOf env geometry material).diffuseColor.y,
                  .float (materialOf env geometry material).diffuseColor.z]
                children := [] },
              { name := "P"
                properties := [.qstring "SpecularColor", .qstring "Color", .qstring "",
                  .qstring "A",
                  .float (materialOf env geometry material).specularColor.x,
                  .float (materialOf env geometry material).specularColor.y,
                  .float (materialOf env geometry material).specularColor.z]
                children := [] },
              { name := "P"
                properties := [.qstring "Shininess", .qstring "Number", .qstring "",
                  .qstring "A", .float (materialOf env geometry material).shininess]
                children := [] },
              { name := "P"
                properties := [.qstring "Opacity", .qstring "Number", .qstring "",
                  .qstring "A", .float (materialOf env geometry material).opacity]
                children := [] }] }] ∧
    (∀ m, geometry.materials.lookup material = some m →
      materialOf env geometry material = m ∧
      (setMaterialNodeProperties env b materialNode material geometry).2.2 = geometry) :=
  ⟨rfl, rfl, rfl, rfl, fun m hm =>
    ⟨materialOf_of_lookup env geometry material m hm, touch_of_lookup env geometry material m hm⟩⟩

/-- C14 (the code at the failing input): with a mesh compressor that reports
failure on the first mesh of the end-to-end scenario document,
`createFBXNodeTree` drops the answer of `compressMesh` and runs to its end with
a root of three children, and `bakeOBJ` records no error, serializes the tree,
writes the baked file and appends its path to the output file list. -/
theorem c14_mesh_compressor_failure_ignored :
    (failingMeshEnvironment.compressMesh { parts := [{ materialID := "default" }] } false).1 =
      false ∧
    ∃ built s1,
      createFBXNodeTree failingMeshEnvironment.toCollaborators (freshBaker 0) FBXNode.empty
        defaultScenario = some built ∧
      built.completed = true ∧ built.rootNode.children.length = 3 ∧
      bakeOBJ failingMeshEnvironment (sampleSession workingCopy) = some s1 ∧
      s1._errorList = [] ∧
      s1._outputFiles = ["/out/a.b.baked.fbx"] ∧
      s1.events = [BakeEvent.bakeOBJ, BakeEvent.readOBJ, BakeEvent.createFBXNodeTree,
        BakeEvent.encodeFBX, BakeEvent.finished] ∧
      s1.fileSystem.content "/out/a.b.baked.fbx" = some "tree" :=
  ⟨rfl, _, _, rfl, rfl, rfl, rfl, rfl, rfl, rfl, rfl⟩

/-- C15 (the code at the failing input): with a texture compressor that answers
a null pointer for the textured part of the document `twoMaterialsOnePart`,
`createFBXNodeTree` returns at line 289 with the root untouched, and `bakeOBJ`
goes on: it records no error, serializes the root without children, writes the
baked file and appends its path to the output file list. -/
theorem c15_texture_failure_still_written :
    ∃ built s1,
      createFBXNodeTree failingTextureEnvironment.toCollaborators (freshBaker 0) FBXNode.empty
        twoMaterialsOnePart = some built ∧
      built.completed = false ∧ built.rootNode.children = [] ∧
      bakeOBJ failingTextureEnvironment (sampleSession workingCopy) = some s1 ∧
      s1._errorList = [] ∧
      s1._outputFiles = ["/out/a.b.baked.fbx"] ∧
      s1.events = [BakeEvent.bakeOBJ, BakeEvent.readOBJ, BakeEvent.createFBXNodeTree,
        BakeEvent.encodeFBX, BakeEvent.finished] ∧
      s1.fileSystem.content "/out/a.b.baked.fbx" = some "empty" :=
  ⟨_, _, rfl, rfl, rfl, rfl, rfl, rfl, rfl, rfl⟩

/-- A call that returns early leaves the root as it was passed in, and it
returned because the compressor answered a null pointer for a textured part,
which was its last call. -/
theorem abort_has_failing_part (env : Collaborators) (b : OBJBaker) (root : FBXNode)
    (g : FBXGeometry) (mesh0 : FBXMesh) (rest : List FBXMesh) (r : BuildResult)
    (hg : g.meshes = mesh0 :: rest) (h : createFBXNodeTree env b root g = some r)
    (hc : r.completed = false) :
    r.rootNode = root ∧
    ∃ (k : Nat) (p : FBXMeshPart), mesh0.parts[k]? = some p ∧
      hasTexture (materialOf env g p.materialID) ∧
      env.compressTexture
          (b.textureCalls ++ (texturedMaterials env g (mesh0.parts.take k)).map
            (fun m => (textureFileName m, textureContentTypeCallback m)))
          (textureFileName (materialOf env g p.materialID))
          (textureContentTypeCallback (materialOf env g p.materialID)) = none ∧
      r.baker.textureCalls =
        b.textureCalls ++ (texturedMaterials env g (mesh0.parts.take (k + 1))).map
          (fun m => (textureFileName m, textureContentTypeCallback m)) := by
  obtain ⟨h1, h2, _, h4, _⟩ := createFBXNodeTree_some env b root g mesh0 rest hg r h
  have hc1 : (afterLoops env b g mesh0).1 = false := by rw [← h2, hc]
  have hgeo := (materialLoop_geometry env mesh0.parts (bakerAfterModel env b mesh0) g).2
  obtain ⟨k, p, hp, hT, hcalls, hnone⟩ := textureLoop_aborted env (materialOf env g) mesh0.parts 0
    (materialLoop env mesh0.parts (bakerAfterModel env b mesh0) g).1
    (materialLoop env mesh0.parts (bakerAfterModel env b mesh0) g).2 hgeo hc1
  rw [materialLoop_textureCalls] at hcalls hnone
  exact ⟨h4 hc, k, p, hp, hT, hnone, by rw [h1]; exact hcalls⟩

/-- C16: if the texture compressor answers a null pointer for a mesh part, the
call aborts at once without output. Let the part at place k of the first mesh
be textured, let the compressor have an answer for every textured part before
it and a null pointer for this one (each call seen with the calls made before
it). Then `createFBXNodeTree` returns without running to its end, the root node
is exactly the one passed in (no settings, objects or connections child is
attached), and the compressor calls made are exactly those for the textured
parts up to and including the part at place k, the failing call being the
last: no compression is attempted for a later part. -/
theorem c16_null_answer_aborts (env : Collaborators) (b : OBJBaker) (root : FBXNode)
    (g : FBXGeometry) (mesh0 : FBXMesh) (rest : List FBXMesh) (k : Nat) (p : FBXMeshPart)
    (hg : g.meshes = mesh0 :: rest) (hp : mesh0.parts[k]? = some p)
    (hT : hasTexture (materialOf env g p.materialID))
    (hearlier : ∀ (j : Nat) (q : FBXMeshPart), j < k → mesh0.parts[j]? = some q →
      hasTexture (materialOf env g q.materialID) →
      env.compressTexture
        (b.textureCalls ++ (texturedMaterials env g (mesh0.parts.take j)).map
          (fun m => (textureFileName m, textureContentTypeCallback m)))
        (textureFileName (materialOf env g q.materialID))
        (textureContentTypeCallback (materialOf env g q.materialID)) ≠ none)
    (hfail : env.compressTexture
      (b.textureCalls ++ (texturedMaterials env g (mesh0.parts.take k)).map
        (fun m => (textureFileName m, textureContentTypeCallback m)))
      (textureFileName (materialOf env g p.materialID))
      (textureContentTypeCallback (materialOf env g p.materialID)) = none) :
    ∃ r, createFBXNodeTree env b root g = some r ∧ r.completed = false ∧
      r.rootNode = root ∧
      r.baker.textureCalls =
        b.textureCalls ++
          ((texturedMaterials env g (mesh0.parts.take k)).map
              (fun m => (textureFileName m, textureContentTypeCallback m)) ++
            [(textureFileName (materialOf env g p.materialID),
              textureContentTypeCallback (materialOf env g p.materialID))]) ∧
      r.baker.textureCalls.length =
        b.textureCalls.length + (texturedMaterials env g (mesh0.parts.take k)).length + 1 := by
  have hgeo := (materialLoop_geometry env mesh0.parts (bakerAfterModel env b mesh0) g).2
  obtain ⟨h1, h2⟩ := textureLoop_fails_at env (materialOf env g) mesh0.parts k 0
    (materialLoop env mesh0.parts (bakerAfterModel env b mesh0) g).1
    (materialLoop env mesh0.parts (bakerAfterModel env b mesh0) g).2 p hgeo hp hT
    (by
      intro j q hj hq hTq
      rw [materialLoop_textureCalls]
      exact hearlier j q hj hq hTq)
    (by
      rw [materialLoop_textureCalls]
      exact hfail)
  rw [materialLoop_textureCalls,
    show (bakerAfterModel env b mesh0).textureCalls = b.textureCalls from rfl] at h2
  have hc : (afterLoops env b g mesh0).1 = false := h1
  have hcalls : (afterLoops env b g mesh0).2.1.textureCalls =
      b.textureCalls ++
        ((texturedMaterials env g (mesh0.parts.take k)).map
            (fun m => (textureFileName m, textureContentTypeCallback m)) ++
          [(textureFileName (materialOf env g p.materialID),
            textureContentTypeCallback (materialOf env g p.materialID))]) := by
    have htake : mesh0.parts.take (k + 1) = mesh0.parts.take k ++ [p] := by
      rw [List.take_succ, hp]
      rfl
    have h3 : (afterLoops env b g mesh0).2.1.textureCalls = _ := h2
    rw [h3, htake]
    simp [texturedMaterials, List.filter_append, List.filter_cons, hT]
  rw [createFBXNodeTree_cons env b root g mesh0 rest hg, if_pos hc]
  refine ⟨_, rfl, rfl, rfl, hcalls, ?_⟩
  rw [hcalls]
  simp
  omega

/-- Witness of C16 on the document with three textured parts and a texture
compressor that answers a null pointer for "b.png", the texture of the second
part: the calls made are those for "a.png" and "b.png", none for "c.png". -/
theorem c16_null_answer_aborts_witness :
    hasTexture (materialOf (failsOn "b.png") threeTextures "c") ∧
    (failsOn "b.png").compressTexture
      [("a.png", TextureUsage.ALBEDO_TEXTURE), ("b.png", TextureUsage.ALBEDO_TEXTURE)]
      "c.png" TextureUsage.ALBEDO_TEXTURE ≠ none ∧
    ∃ r, createFBXNodeTree (failsOn "b.png") (freshBaker 0) FBXNode.empty threeTextures =
        some r ∧ r.completed = false ∧ r.rootNode = FBXNode.empty ∧
      r.baker.textureCalls =
        [("a.png", TextureUsage.ALBEDO_TEXTURE), ("b.png", TextureUsage.ALBEDO_TEXTURE)] ∧
      ∃ r1, createFBXNodeTree (failsOn "b.png") (freshBaker 0) FBXNode.empty threeTextures =
          some r1 ∧ r1.completed = false ∧ r1.rootNode = FBXNode.empty ∧
        r1.baker.textureCalls =
          (freshBaker 0).textureCalls ++
            ((texturedMaterials (failsOn "b.png") threeTextures
                (([{ materialID := "a" }, { materialID := "b" }, { materialID := "c" }] :
                  List FBXMeshPart).take 1)).map
                (fun m => (textureFileName m, textureContentTypeCallback m)) ++
              [(textureFileName (materialOf (failsOn "b.png") threeTextures "b"),
                textureContentTypeCallback (materialOf (failsOn "b.png") threeTextures "b"))]) ∧
        r1.baker.textureCalls.length =
          (freshBaker 0).textureCalls.length +
            (texturedMaterials (failsOn "b.png") threeTextures
              (([{ materialID := "a" }, { materialID := "b" }, { materialID := "c" }] :
                List FBXMeshPart).take 1)).length + 1 :=
  ⟨by decide, by decide, _, rfl, rfl, rfl, rfl,
    c16_null_answer_aborts (failsOn "b.png") (freshBaker 0) FBXNode.empty threeTextures
      { parts := [{ materialID := "a" }, { materialID := "b" }, { materialID := "c" }] } [] 1
      { materialID := "b" } rfl rfl (by decide)
      (by
        intro j q hj hq _
        have hj0 : j = 0 := by omega
        subst hj0
        simp only [List.getElem?_cons_zero, Option.some.injEq] at hq
        subst hq
        decide)
      rfl⟩

/-- C17: for every local-file input reference whose file does not exist,
`loadOBJ` (and `bake`, which calls it) records the error "Could not find "
followed by the reference, copies nothing (the files are unchanged), does not
emit `OBJLoaded`, so that `bakeOBJ` is not entered, and leaves the output file
list as it was. -/
theorem c17_missing_local_file (env : BakeEnvironment) (s : BakeSession)
    (hlocal : s._modelURL.isLocalFile = true)
    (hmissing : s.fileSystem.fileExists s._modelURL.toLocalFile = false) :
    ∃ s1 s2 newEvents,
      loadOBJ env s = some s1 ∧ bake env s = some s2 ∧
      s1 = handleError s ("Could not find " ++ s._modelURL.toString) ∧
      s1._errorList = s._errorList ++ ["Could not find " ++ s._modelURL.toString] ∧
      s2._errorList = s._errorList ++ ["Could not find " ++ s._modelURL.toString] ∧
      s1.fileSystem = s.fileSystem ∧ s2.fileSystem = s.fileSystem ∧
      s1._outputFiles = s._outputFiles ∧ s2._outputFiles = s._outputFiles ∧
      s1.baker = s.baker ∧ s2.baker = s.baker ∧
      s1.events = s.events ++ newEvents ∧ s2.events = s.events ++ newEvents ∧
      BakeEvent.OBJLoaded ∉ newEvents ∧ BakeEvent.bakeOBJ ∉ newEvents ∧
      BakeEvent.readOBJ ∉ newEvents := by
  refine ⟨handleError s ("Could not find " ++ s._modelURL.toString),
    handleError { s with bakeOBJConnections := s.bakeOBJConnections + 1 }
      ("Could not find " ++ s._modelURL.toString),
    [BakeEvent.finished], ?_, ?_, rfl, rfl, rfl, rfl, rfl, rfl, rfl, rfl, rfl, rfl, rfl,
    by decide, by decide, by decide⟩
  · simp [loadOBJ, hlocal, hmissing]
  · simp [bake, loadOBJ, hlocal, hmissing]

/-- Witness of C17 on a session whose local file `/in/a.b.obj` does not exist. -/
theorem c17_missing_local_file_witness :
    (sampleSession (singleFile "/in/other.obj" "v 0 0 0"))._modelURL.isLocalFile = true ∧
    (singleFile "/in/other.obj" "v 0 0 0").fileExists "/in/a.b.obj" = false ∧
    ∃ s1 s2 newEvents,
      loadOBJ (sampleEnvironment (some defaultScenario))
        (sampleSession (singleFile "/in/other.obj" "v 0 0 0")) = some s1 ∧
      bake (sampleEnvironment (some defaultScenario))
        (sampleSession (singleFile "/in/other.obj" "v 0 0 0")) = some s2 ∧
      s1 = handleError (sampleSession (singleFile "/in/other.obj" "v 0 0 0"))
        ("Could not find " ++
          (sampleSession (singleFile "/in/other.obj" "v 0 0 0"))._modelURL.toString) ∧
      s1._errorList = (sampleSession (singleFile "/in/other.obj" "v 0 0 0"))._errorList ++
        ["Could not find " ++
          (sampleSession (singleFile "/in/other.obj" "v 0 0 0"))._modelURL.toString] ∧
      s2._errorList = (sampleSession (singleFile "/in/other.obj" "v 0 0 0"))._errorList ++
        ["Could not find " ++
          (sampleSession (singleFile "/in/other.obj" "v 0 0 0"))._modelURL.toString] ∧
      s1.fileSystem = (sampleSession (singleFile "/in/other.obj" "v 0 0 0")).fileSystem ∧
      s2.fileSystem = (sampleSession (singleFile "/in/other.obj" "v 0 0 0")).fileSystem ∧
      s1._outputFiles = (sampleSession (singleFile "/in/other.obj" "v 0 0 0"))._outputFiles ∧
      s2._outputFiles = (sampleSession (singleFile "/in/other.obj" "v 0 0 0"))._outputFiles ∧
      s1.baker = (sampleSession (singleFile "/in/other.obj" "v 0 0 0")).baker ∧
      s2.baker = (sampleSession (singleFile "/in/other.obj" "v 0 0 0")).baker ∧
      s1.events = (sampleSession (singleFile "/in/other.obj" "v 0 0 0")).events ++ newEvents ∧
      s2.events = (sampleSession (singleFile "/in/other.obj" "v 0 0 0")).events ++ newEvents ∧
      BakeEvent.OBJLoaded ∉ newEvents ∧ BakeEvent.bakeOBJ ∉ newEvents ∧
      BakeEvent.readOBJ ∉ newEvents :=
  ⟨rfl, rfl,
    c17_missing_local_file (sampleEnvironment (some defaultScenario))
      (sampleSession (singleFile "/in/other.obj" "v 0 0 0")) rfl rfl⟩

/-- C18: in `bakeOBJ`, once the tree is built and serialized, the baked path is
appended to the output file list if and only if the output file can be opened
for writing: when it opens, exactly that one entry is appended, no error is
recorded and the serialized bytes are written; when it does not, the error
"Error opening <path> for writing" is recorded, the output file list is
unchanged and so are the files. -/
theorem c18_output_recorded_iff_opened (env : BakeEnvironment) (s : BakeSession)
    (objData : String) (geometry : FBXGeometry) (built : BuildResult)
    (hread : s.fileSystem.openForReading s._originalModelFilePath = some objData)
    (hparse : env.readOBJ objData true s._modelURL = some geometry)
    (hbuild : createFBXNodeTree env.toCollaborators s.baker FBXNode.empty geometry = some built) :
    ∃ s1, bakeOBJ env s = some s1 ∧
      s1._bakedModelFilePath = bakedModelFilePathFor s ∧
      (s.fileSystem.writable s1._bakedModelFilePath = true →
        s1._outputFiles = s._outputFiles ++ [s1._bakedModelFilePath] ∧
        s1._errorList = s._errorList ∧
        s1.fileSystem =
          s.fileSystem.writeAll s1._bakedModelFilePath (env.encodeFBX built.rootNode)) ∧
      (s.fileSystem.writable s1._bakedModelFilePath = false →
        s1._outputFiles = s._outputFiles ∧
        s1._errorList =
          s._errorList ++ ["Error opening " ++ s1._bakedModelFilePath ++ " for writing"] ∧
        s1.fileSystem = s.fileSystem) := by
  rw [bakeOBJ_of_built env s objData geometry built hread hparse hbuild]
  by_cases hw : s.fileSystem.writable (bakedModelFilePathFor s) = false
  · rw [if_pos hw]
    refine ⟨_, rfl, rfl, ?_, ?_⟩
    · intro hw1
      change s.fileSystem.writable (bakedModelFilePathFor s) = true at hw1
      rw [hw] at hw1
      cases hw1
    · intro _
      exact ⟨rfl, rfl, rfl⟩
  · rw [if_neg hw]
    refine ⟨_, rfl, rfl, ?_, ?_⟩
    · intro _
      exact ⟨rfl, rfl, rfl⟩
    · intro hw1
      exact absurd hw1 hw

/-- Witness of C18 on the sample session with the working copy in place. -/
theorem c18_output_recorded_iff_opened_witness :
    workingCopy.openForReading "/work/a.b.obj" = some "v 0 0 0" ∧
    ∃ built,
      createFBXNodeTree (sampleEnvironment (some defaultScenario)).toCollaborators
        (sampleSession workingCopy).baker FBXNode.empty defaultScenario = some built ∧
      ∃ s1, bakeOBJ (sampleEnvironment (some defaultScenario)) (sampleSession workingCopy) =
          some s1 ∧
        s1._bakedModelFilePath = bakedModelFilePathFor (sampleSession workingCopy) ∧
        (workingCopy.writable s1._bakedModelFilePath = true →
          s1._outputFiles =
            (sampleSession workingCopy)._outputFiles ++ [s1._bakedModelFilePath] ∧
          s1._errorList = (sampleSession workingCopy)._errorList ∧
          s1.fileSystem =
            workingCopy.writeAll s1._bakedModelFilePath
              ((sampleEnvironment (some defaultScenario)).encodeFBX built.rootNode)) ∧
        (workingCopy.writable s1._bakedModelFilePath = false →
          s1._outputFiles = (sampleSession workingCopy)._outputFiles ∧
          s1._errorList = (sampleSession workingCopy)._errorList ++
            ["Error opening " ++ s1._bakedModelFilePath ++ " for writing"] ∧
          s1.fileSystem = workingCopy) :=
  ⟨rfl, _, rfl,
    c18_output_recorded_iff_opened (sampleEnvironment (some defaultScenario))
      (sampleSession workingCopy) "v 0 0 0" defaultScenario _ rfl rfl rfl⟩

/-- C19: whenever `bakeOBJ` computes the output path, it equals
`<outputDir> + "/" + <baseName> + ".baked.fbx"`, where `baseName` is the input's
file name with its final extension removed: the text before the last '.', and
the whole file name when it contains no '.'. -/
theorem c19_baked_file_path (env : BakeEnvironment) (s : BakeSession)
    (objData : String) (geometry : FBXGeometry) (built : BuildResult)
    (hread : s.fileSystem.openForReading s._originalModelFilePath = some objData)
    (hparse : env.readOBJ objData true s._modelURL = some geometry)
    (hbuild : createFBXNodeTree env.toCollaborators s.baker FBXNode.empty geometry = some built) :
    ∃ s1 baseName, bakeOBJ env s = some s1 ∧
      s1._bakedModelFilePath = s._bakedOutputDir ++ "/" ++ baseName ++ ".baked.fbx" ∧
      (∀ pre ext : String, s._modelURL.fileName = pre ++ "." ++ ext → '.' ∉ ext.data →
        baseName = pre) ∧
      ('.' ∉ s._modelURL.fileName.data → baseName = s._modelURL.fileName) := by
  obtain ⟨s1, h1, h2, _⟩ :=
    bakeOBJ_path_of_built env s objData geometry built hread hparse hbuild
  refine ⟨s1, left s._modelURL.fileName (lastIndexOf s._modelURL.fileName '.'), h1, ?_, ?_, ?_⟩
  · rw [h2, bakedModelFilePathFor]
    simp only [String.append_assoc]
  · intro pre ext hname hext
    rw [hname]
    exact left_lastIndexOf_dot pre ext hext
  · intro hno
    exact left_lastIndexOf_no_dot _ hno

/-- Witness of C19: the file name "a.b.obj" gives "/out/a.b.baked.fbx". -/
theorem c19_baked_file_path_witness :
    (sampleSession workingCopy)._modelURL.fileName = "a.b.obj" ∧
    bakedModelFilePathFor (sampleSession workingCopy) = "/out/a.b.baked.fbx" ∧
    ∃ s1 baseName,
      bakeOBJ (sampleEnvironment (some defaultScenario)) (sampleSession workingCopy) = some s1 ∧
      s1._bakedModelFilePath =
        (sampleSession workingCopy)._bakedOutputDir ++ "/" ++ baseName ++ ".baked.fbx" ∧
      (∀ pre ext : String,
        (sampleSession workingCopy)._modelURL.fileName = pre ++ "." ++ ext → '.' ∉ ext.data →
        baseName = pre) ∧
      ('.' ∉ (sampleSession workingCopy)._modelURL.fileName.data →
        baseName = (sampleSession workingCopy)._modelURL.fileName) :=
  ⟨rfl, by decide,
    c19_baked_file_path (sampleEnvironment (some defaultScenario)) (sampleSession workingCopy)
      "v 0 0 0" defaultScenario _ rfl rfl rfl⟩

/-- C20 (the code at the failing input): `bakeOBJ` has no branch for a reader
that fails. With a reader that answers a null pointer for the working copy, the
call has no defined result (`*geometry` is evaluated at once) and no error is
recorded; with a reader that hands back a document with one empty mesh instead,
the bake runs to its end: no error is recorded, the tree is built and
serialized, and the baked path is appended to the output file list. -/
theorem c20_reader_failure_not_reported :
    workingCopy.openForReading (sampleSession workingCopy)._originalModelFilePath =
      some "v 0 0 0" ∧
    bakeOBJ (sampleEnvironment none) (sampleSession workingCopy) = none ∧
    ∃ s1, bakeOBJ (sampleEnvironment (some emptyMeshDocument)) (sampleSession workingCopy) =
        some s1 ∧
      s1._errorList = [] ∧ s1._outputFiles = ["/out/a.b.baked.fbx"] ∧
      s1.events = [BakeEvent.bakeOBJ, BakeEvent.readOBJ, BakeEvent.createFBXNodeTree,
        BakeEvent.encodeFBX, BakeEvent.finished] :=
  ⟨rfl, rfl, _, rfl, rfl, rfl, rfl⟩

/-- C21: for every remote input reference, `handleOBJNetworkReply` emits
`OBJLoaded` (which triggers baking) if and only if the reply has no transport
error and the working copy was opened and written. Then the working copy holds
the body of the reply. On transport failure it records exactly one error,
"Failed to download " followed by the reference; on a failed open or write of
the working copy it records exactly one error "Could not create copy of ...";
in both cases no `OBJLoaded` is emitted and the output file list is unchanged. -/
theorem c21_reply_triggers_baking_iff_copy_written (env : BakeEnvironment)
    (requestReply : QNetworkReply) (s : BakeSession) :
    ((requestReply.noError = true ∧ s.fileSystem.writable s._originalModelFilePath = true ∧
        s.fileSystem.writeFails s._originalModelFilePath = false) →
      ∃ fs, fs.content s._originalModelFilePath = some requestReply.body ∧
        handleOBJNetworkReply env requestReply s = emitOBJLoaded env { s with fileSystem := fs } ∧
        ∀ s1, handleOBJNetworkReply env requestReply s = some s1 →
          ∃ rest, s1.events = s.events ++ BakeEvent.OBJLoaded :: rest) ∧
    (¬ (requestReply.noError = true ∧ s.fileSystem.writable s._originalModelFilePath = true ∧
        s.fileSystem.writeFails s._originalModelFilePath = false) →
      ∃ s1 message,
        handleOBJNetworkReply env requestReply s = some s1 ∧
        s1._errorList = s._errorList ++ [message] ∧
        s1.events = s.events ++ [BakeEvent.finished] ∧
        s1._outputFiles = s._outputFiles ∧
        (requestReply.noError = false →
          message = "Failed to download " ++ s._modelURL.toString) ∧
        (requestReply.noError = true →
          s.fileSystem.writable s._originalModelFilePath = false →
          message = "Could not create copy of " ++ s._modelURL.toString ++
            " (Failed to open " ++ s._originalModelFilePath ++ ")") ∧
        (requestReply.noError = true →
          s.fileSystem.writable s._originalModelFilePath = true →
          message = "Could not create copy of " ++ s._modelURL.toString ++
            " (Failed to write)")) := by
  constructor
  · rintro ⟨h1, h2, h3⟩
    have hstore : (s.fileSystem.writeAll s._originalModelFilePath requestReply.body).content
        s._originalModelFilePath = some requestReply.body := by
      simp [FileSystem.writeAll, FileSystem.store, h3]
    have hw : ¬ s.fileSystem.writable s._originalModelFilePath = false := by simp [h2]
    have hf : ¬ s.fileSystem.writeFails s._originalModelFilePath = true := by simp [h3]
    have heq : handleOBJNetworkReply env requestReply s = emitOBJLoaded env
        { s with
          fileSystem :=
            if s._originalOutputDir ≠ "" then
              FileSystem.copy (s.fileSystem.writeAll s._originalModelFilePath requestReply.body)
                s._originalModelFilePath (s._originalOutputDir ++ "/" ++ s._modelURL.fileName)
            else s.fileSystem.writeAll s._originalModelFilePath requestReply.body } := by
      simp only [handleOBJNetworkReply, h1, if_true, if_neg hw, if_neg hf]
    refine ⟨_, ?_, heq, ?_⟩
    · split
      · rw [copy_content_of_exists _ _ _ _ (by simp [FileSystem.fileExists, hstore]), hstore]
      · exact hstore
    · intro s1 hs1
      rw [heq] at hs1
      obtain ⟨rest, hrest, _⟩ := emitOBJLoaded_events env _ s1 hs1
      exact ⟨rest, hrest⟩
  · intro hnot
    by_cases h1 : requestReply.noError = true
    · by_cases h2 : s.fileSystem.writable s._originalModelFilePath = false
      · refine ⟨handleError s ("Could not create copy of " ++ s._modelURL.toString ++
            " (Failed to open " ++ s._originalModelFilePath ++ ")"),
          "Could not create copy of " ++ s._modelURL.toString ++
            " (Failed to open " ++ s._originalModelFilePath ++ ")",
          by simp only [handleOBJNetworkReply, h1, if_true, if_pos h2],
          rfl, rfl, rfl, ?_, ?_, ?_⟩
        · intro h; rw [h1] at h; cases h
        · intro _ _; rfl
        · intro _ h; rw [h2] at h; cases h
      · have h3 : s.fileSystem.writeFails s._originalModelFilePath = true := by
          by_contra h3
          apply hnot
          exact ⟨h1, by simpa using h2, by simpa using h3⟩
        refine ⟨handleError { s with
            fileSystem := s.fileSystem.writeAll s._originalModelFilePath requestReply.body }
            ("Could not create copy of " ++ s._modelURL.toString ++ " (Failed to write)"),
          "Could not create copy of " ++ s._modelURL.toString ++ " (Failed to write)",
          by simp only [handleOBJNetworkReply, h1, if_true, if_neg h2, if_pos h3],
          rfl, rfl, rfl, ?_, ?_, ?_⟩
        · intro h; rw [h1] at h; cases h
        · intro _ h; exact absurd h h2
        · intro _ _; rfl
    · have h1f : requestReply.noError = false := by simpa using h1
      refine ⟨handleError s ("Failed to download " ++ s._modelURL.toString),
        "Failed to download " ++ s._modelURL.toString,
        by simp [handleOBJNetworkReply, h1f], rfl, rfl, rfl, ?_, ?_, ?_⟩
      · intro _; rfl
      · intro h; exact absurd h h1
      · intro h; exact absurd h h1

/-- Witness of C21: a reply without error for the remote sample session that awaits it, on a
file system in which the working copy can be written. -/
theorem c21_reply_triggers_baking_iff_copy_written_witness :
    (sampleReply.noError = true ∧
      (awaitingReply noFiles).fileSystem.writable (awaitingReply noFiles)._originalModelFilePath =
        true ∧
      (awaitingReply noFiles).fileSystem.writeFails (awaitingReply noFiles)._originalModelFilePath =
        false) ∧
    ∃ fs, fs.content (awaitingReply noFiles)._originalModelFilePath = some sampleReply.body ∧
      handleOBJNetworkReply (sampleEnvironment (some defaultScenario)) sampleReply
          (awaitingReply noFiles) =
        emitOBJLoaded (sampleEnvironment (some defaultScenario))
          { awaitingReply noFiles with fileSystem := fs } ∧
      ∀ s1, handleOBJNetworkReply (sampleEnvironment (some defaultScenario)) sampleReply
          (awaitingReply noFiles) = some s1 →
        ∃ rest, s1.events = (awaitingReply noFiles).events ++ BakeEvent.OBJLoaded :: rest :=
  ⟨⟨rfl, rfl, rfl⟩,
    (c21_reply_triggers_baking_iff_copy_written (sampleEnvironment (some defaultScenario))
      sampleReply (awaitingReply noFiles)).1 ⟨rfl, rfl, rfl⟩⟩

/-- C22: determinism of `createFBXNodeTree`. Two runs on the same geometry
document and the same root, with compressors that give the same results, each
on a baker of a fresh session (same identity counter, empty material and
texture records, same properties of `_objectNode`, same compressor calls made
before) have the same outcome whatever the other members of the two bakers
hold: without a mesh neither run is defined; otherwise both return, and they
agree on whether the tree was completed, on the root node (settings, objects
and connections, with every name, property value, order and identity), on the
`_objectNode` member, on the document left behind and on the identity counter
and identity records of the baker. -/
theorem c22_same_tree_in_fresh_sessions (env1 env2 : Collaborators) (b1 b2 : OBJBaker)
    (root : FBXNode) (g : FBXGeometry)
    (hmesh : ∀ mesh deformers, env1.compressMesh mesh deformers = env2.compressMesh mesh deformers)
    (htexture : ∀ calls file usage,
      env1.compressTexture calls file usage = env2.compressTexture calls file usage)
    (hdefault : env1.defaultMaterial = env2.defaultMaterial)
    (hid : b1._nodeID = b2._nodeID)
    (hm1 : b1._materialIDs = []) (hm2 : b2._materialIDs = [])
    (ht1 : b1._mapTextureMaterial = []) (ht2 : b2._mapTextureMaterial = [])
    (hp : b1._objectNode.properties = b2._objectNode.properties)
    (hcalls : b1.textureCalls = b2.textureCalls) :
    (g.meshes = [] →
      createFBXNodeTree env1 b1 root g = none ∧ createFBXNodeTree env2 b2 root g = none) ∧
    (g.meshes ≠ [] →
      ∃ r1 r2, createFBXNodeTree env1 b1 root g = some r1 ∧
        createFBXNodeTree env2 b2 root g = some r2 ∧
        r1.completed = r2.completed ∧ r1.rootNode = r2.rootNode ∧ r1.geometry = r2.geometry ∧
        r1.baker._objectNode = r2.baker._objectNode ∧
        r1.baker._nodeID = r2.baker._nodeID ∧
        r1.baker._geometryID = r2.baker._geometryID ∧
        r1.baker._modelID = r2.baker._modelID ∧
        r1.baker._materialIDs = r2.baker._materialIDs ∧
        r1.baker._mapTextureMaterial = r2.baker._mapTextureMaterial ∧
        r1.baker.textureCalls = r2.baker.textureCalls) := by
  have henv : env1 = env2 := by
    cases env1
    cases env2
    simp only [Collaborators.mk.injEq]
    exact ⟨funext fun mesh => funext fun d => hmesh mesh d,
      funext fun calls => funext fun file => funext fun usage => htexture calls file usage,
      hdefault⟩
  subst henv
  constructor
  · intro hg
    exact ⟨createFBXNodeTree_nil env1 b1 root g hg, createFBXNodeTree_nil env1 b2 root g hg⟩
  · intro hg
    obtain ⟨mesh0, rest, hcons⟩ : ∃ mesh0 rest, g.meshes = mesh0 :: rest := by
      cases hmeshes : g.meshes with
      | nil => exact absurd hmeshes hg
      | cons mesh0 rest => exact ⟨mesh0, rest, rfl⟩
    obtain ⟨r2, hr2⟩ := createFBXNodeTree_fresh env1 b2 root g mesh0 rest hcons hm2 ht2
    obtain ⟨t1, h1⟩ := createFBXNodeTree_of_agree env1 b1 b2 root g hid (by rw [hm1, hm2])
      (by rw [ht1, ht2]) hp hcalls
    rw [hr2] at h1
    exact ⟨_, r2, h1, hr2, rfl, rfl, rfl, rfl, rfl, rfl, rfl, rfl, rfl, rfl⟩

/-- Witness of C22: the fresh baker and a baker with stale members on the
document with three parts, two of them textured. -/
theorem c22_same_tree_in_fresh_sessions_witness :
    mixedTextures.meshes ≠ [] ∧ (staleBaker 0)._geometryID ≠ (freshBaker 0)._geometryID ∧
    (staleBaker 0)._objectNode ≠ (freshBaker 0)._objectNode ∧
    (mixedTextures.meshes = [] →
      createFBXNodeTree sampleCollaborators (freshBaker 0) FBXNode.empty mixedTextures = none ∧
      createFBXNodeTree sampleCollaborators (staleBaker 0) FBXNode.empty mixedTextures = none) ∧
    (mixedTextures.meshes ≠ [] →
      ∃ r1 r2,
        createFBXNodeTree sampleCollaborators (freshBaker 0) FBXNode.empty mixedTextures =
          some r1 ∧
        createFBXNodeTree sampleCollaborators (staleBaker 0) FBXNode.empty mixedTextures =
          some r2 ∧
        r1.completed = r2.completed ∧ r1.rootNode = r2.rootNode ∧ r1.geometry = r2.geometry ∧
        r1.baker._objectNode = r2.baker._objectNode ∧
        r1.baker._nodeID = r2.baker._nodeID ∧
        r1.baker._geometryID = r2.baker._geometryID ∧
        r1.baker._modelID = r2.baker._modelID ∧
        r1.baker._materialIDs = r2.baker._materialIDs ∧
        r1.baker._mapTextureMaterial = r2.baker._mapTextureMaterial ∧
        r1.baker.textureCalls = r2.baker.textureCalls) :=
  ⟨by simp [mixedTextures], by decide, by simp [staleBaker, freshBaker, FBXNode.empty],
    c22_same_tree_in_fresh_sessions sampleCollaborators sampleCollaborators (freshBaker 0)
      (staleBaker 0) FBXNode.empty mixedTextures (fun _ _ => rfl) (fun _ _ _ => rfl) rfl rfl rfl
      rfl rfl rfl rfl rfl⟩

/-- C23 (the code at the failing inputs): a bake whose texture compression fails
completes like a success, and a bake whose reader fails never completes. For
the local sample input and a texture compressor that answers a null pointer,
`createFBXNodeTree` returns early, yet `bake` ends with one completion signal,
an empty error list and one output file; the same happens on the remote route
through `handleOBJNetworkReply`. With a reader that answers a null pointer the
call has no defined result, so no completion signal is delivered. -/
theorem c23_failed_bake_completes_as_success :
    (∃ built, createFBXNodeTree failingTextureEnvironment.toCollaborators (freshBaker 0)
        FBXNode.empty twoMaterialsOnePart = some built ∧ built.completed = false) ∧
    (∃ s1, bake failingTextureEnvironment (sampleSession localInput) = some s1 ∧
      s1.events = [BakeEvent.OBJLoaded, BakeEvent.bakeOBJ, BakeEvent.readOBJ,
        BakeEvent.createFBXNodeTree, BakeEvent.encodeFBX, BakeEvent.finished] ∧
      s1._errorList = [] ∧ s1._outputFiles = ["/out/a.b.baked.fbx"]) ∧
    bake failingTextureEnvironment (remoteSession noFiles) = some (awaitingReply noFiles) ∧
    (∃ s2, handleOBJNetworkReply failingTextureEnvironment sampleReply (awaitingReply noFiles) =
        some s2 ∧
      s2.events = [BakeEvent.networkRequest, BakeEvent.OBJLoaded, BakeEvent.bakeOBJ,
        BakeEvent.readOBJ, BakeEvent.createFBXNodeTree, BakeEvent.encodeFBX,
        BakeEvent.finished] ∧
      s2._errorList = [] ∧ s2._outputFiles = ["/out/a.b.baked.fbx"]) ∧
    bake (sampleEnvironment none) (sampleSession localInput) = none ∧
    handleOBJNetworkReply (sampleEnvironment none) sampleReply (awaitingReply noFiles) = none :=
  ⟨⟨_, rfl, rfl⟩, ⟨_, rfl, rfl, rfl, rfl⟩, rfl, ⟨_, rfl, rfl, rfl, rfl⟩, rfl, rfl⟩

/-- C24: acquisition is idempotent. For an existing local input reference, when
`loadOBJ` is run and then run again in the session it left (same reference,
same working-copy path), the bytes of the working copy after the second run are
those after the first, provided `bakeOBJ` is not connected to `OBJLoaded` or the
baked file is not written to the working-copy path. -/
theorem c24_acquisition_idempotent (env : BakeEnvironment) (s s1 s2 : BakeSession)
    (hlocal : s._modelURL.isLocalFile = true)
    (hexists : s.fileSystem.fileExists s._modelURL.toLocalFile = true)
    (hconn : s.bakeOBJConnections = 0 ∨ bakedModelFilePathFor s ≠ s._originalModelFilePath)
    (h1 : loadOBJ env s = some s1) (h2 : loadOBJ env s1 = some s2) :
    s1._modelURL = s._modelURL ∧
    s1._originalModelFilePath = s._originalModelFilePath ∧
    s2._originalModelFilePath = s._originalModelFilePath ∧
    s2.fileSystem.content s._originalModelFilePath =
      s1.fileSystem.content s._originalModelFilePath := by
  obtain ⟨a1, _, a3, a4, a5, a6, _⟩ := loadOBJ_frame env s s1 hlocal hconn h1
  have hlocal1 : s1._modelURL.isLocalFile = true := by rw [a1]; exact hlocal
  have hconn1 : s1.bakeOBJConnections = 0 ∨
      bakedModelFilePathFor s1 ≠ s1._originalModelFilePath := by
    have hpath : bakedModelFilePathFor s1 = bakedModelFilePathFor s := by
      simp only [bakedModelFilePathFor, a1, a4]
    rw [a5, hpath, a3]
    exact hconn
  obtain ⟨_, _, b3, _, _, _, b7⟩ := loadOBJ_frame env s1 s2 hlocal1 hconn1 h2
  rw [a1, a3] at b7
  exact ⟨a1, a3, b3.trans a3, b7 (a6 hexists)⟩

/-- Witness of C24: the local sample session with `bakeOBJ` connected, on a file
system that holds only the input file; the working copy holds the bytes of the
input after the first run and after the second. -/
theorem c24_acquisition_idempotent_witness :
    ∃ s1 s2,
      loadOBJ (sampleEnvironment (some defaultScenario)) (connectedSession localInput) = some s1 ∧
      loadOBJ (sampleEnvironment (some defaultScenario)) s1 = some s2 ∧
      s1.fileSystem.content "/work/a.b.obj" = some "v 0 0 0" ∧
      s1._modelURL = (connectedSession localInput)._modelURL ∧
      s1._originalModelFilePath = (connectedSession localInput)._originalModelFilePath ∧
      s2._originalModelFilePath = (connectedSession localInput)._originalModelFilePath ∧
      s2.fileSystem.content (connectedSession localInput)._originalModelFilePath =
        s1.fileSystem.content (connectedSession localInput)._originalModelFilePath :=
  ⟨_, _, rfl, rfl, rfl,
    c24_acquisition_idempotent (sampleEnvironment (some defaultScenario))
      (connectedSession localInput) _ _ rfl rfl (Or.inr (by decide)) rfl rfl⟩

/-- C25: the item types "avatar", "entity" and "overlay" are exactly the valid
ones. For every list name and id, `addToSelectedItemsList` returns true if and
only if the item type is one of the three; `removeFromSelectedItemsList` returns
true only for one of the three; and for any other item type both functions
return false and leave the interface, hence every selection list, as it was,
with no signal emitted. -/
theorem c25_valid_item_types (flag : Bool) (s : SelectionScriptingInterface)
    (listName itemType : String) (id : QUuid) :
    ((s.addToSelectedItemsList flag listName itemType id).1 = true ↔
      itemType = "avatar" ∨ itemType = "entity" ∨ itemType = "overlay") ∧
    ((s.removeFromSelectedItemsList listName itemType id).1 = true →
      itemType = "avatar" ∨ itemType = "entity" ∨ itemType = "overlay") ∧
    (¬ (itemType = "avatar" ∨ itemType = "entity" ∨ itemType = "overlay") →
      s.addToSelectedItemsList flag listName itemType id = (false, s) ∧
      s.removeFromSelectedItemsList listName itemType id = (false, s)) := by
  by_cases h1 : itemType = "avatar"
  · refine ⟨⟨fun _ => Or.inl h1, fun _ => ?_⟩, fun _ => Or.inl h1, fun h => absurd (Or.inl h1) h⟩
    simp [SelectionScriptingInterface.addToSelectedItemsList, h1,
      SelectionScriptingInterface.addToGameplayObjects]
  · by_cases h2 : itemType = "entity"
    · refine ⟨⟨fun _ => Or.inr (Or.inl h2), fun _ => ?_⟩, fun _ => Or.inr (Or.inl h2),
        fun h => absurd (Or.inr (Or.inl h2)) h⟩
      simp [SelectionScriptingInterface.addToSelectedItemsList, h2,
        SelectionScriptingInterface.addToGameplayObjects]
    · by_cases h3 : itemType = "overlay"
      · refine ⟨⟨fun _ => Or.inr (Or.inr h3), fun _ => ?_⟩, fun _ => Or.inr (Or.inr h3),
          fun h => absurd (Or.inr (Or.inr h3)) h⟩
        simp [SelectionScriptingInterface.addToSelectedItemsList, h3,
          SelectionScriptingInterface.addToGameplayObjects]
      · have hadd : s.addToSelectedItemsList flag listName itemType id = (false, s) := by
          simp only [SelectionScriptingInterface.addToSelectedItemsList, if_neg h1, if_neg h2,
            if_neg h3]
        have hremove : s.removeFromSelectedItemsList listName itemType id = (false, s) := by
          simp only [SelectionScriptingInterface.removeFromSelectedItemsList, if_neg h1,
            if_neg h2, if_neg h3]
        refine ⟨⟨fun h => ?_, fun h => ?_⟩, fun h => ?_, fun _ => ⟨hadd, hremove⟩⟩
        · rw [hadd] at h
          cases h
        · rcases h with h | h | h
          · exact absurd h h1
          · exact absurd h h2
          · exact absurd h h3
        · rw [hremove] at h
          cases h

/-- C26: after any sequence of calls of the functions that write the selection
map, made on the constructed interface, `getSelectedItemsList` returns for a
list name present in the map exactly the properties `avatars`, `entities` and
`overlays`, holding the avatar, entity and overlay identifiers of that list in
the order of its vectors, and for a list name not present the empty object. The
order of a vector is insertion order: after `addToSelectedItemsList` with an
identifier the list does not hold yet, the property of its item type holds the
identifiers it held before followed by the new one. -/
theorem c26_selected_items_list (flag : Bool) (cs : List SelectionCall) (listName : String) :
    (∀ o, QMap.find
        (SelectionScriptingInterface.constructed.calls flag cs)._selectedItemsListMap listName =
          some o →
      (SelectionScriptingInterface.constructed.calls flag cs).getSelectedItemsList listName =
        [("avatars", o._avatarIDs), ("entities", o._entityIDs), ("overlays", o._overlayIDs)]) ∧
    (QMap.find
        (SelectionScriptingInterface.constructed.calls flag cs)._selectedItemsListMap listName =
          none →
      (SelectionScriptingInterface.constructed.calls flag cs).getSelectedItemsList listName =
        []) ∧
    (∀ o id, QMap.find
        (SelectionScriptingInterface.constructed.calls flag cs)._selectedItemsListMap listName =
          some o →
      (id ∉ o._avatarIDs →
        ((SelectionScriptingInterface.constructed.calls flag cs).addToSelectedItemsList flag
            listName "avatar" id).2.getSelectedItemsList listName =
          [("avatars", o._avatarIDs ++ [id]), ("entities", o._entityIDs),
            ("overlays", o._overlayIDs)]) ∧
      (id ∉ o._entityIDs →
        ((SelectionScriptingInterface.constructed.calls flag cs).addToSelectedItemsList flag
            listName "entity" id).2.getSelectedItemsList listName =
          [("avatars", o._avatarIDs), ("entities", o._entityIDs ++ [id]),
            ("overlays", o._overlayIDs)]) ∧
      (id ∉ o._overlayIDs →
        ((SelectionScriptingInterface.constructed.calls flag cs).addToSelectedItemsList flag
            listName "overlay" id).2.getSelectedItemsList listName =
          [("avatars", o._avatarIDs), ("entities", o._entityIDs),
            ("overlays", o._overlayIDs ++ [id])])) := by
  refine ⟨?_, ?_, ?_⟩
  · intro o hfind
    exact getSelectedItemsList_of_find _ listName o hfind
      (consistent_constructed_calls flag cs listName o hfind)
  · intro hfind
    exact getSelectedItemsList_of_absent _ listName hfind
  · intro o id hfind
    have hvalue : QMap.value (GameplayObjects.constructed flag)
        (SelectionScriptingInterface.constructed.calls flag cs)._selectedItemsListMap listName =
        o := by
      simp [QMap.value, hfind]
    have hstep : ∀ item : ItemID, item.uuid = id →
        ((SelectionScriptingInterface.constructed.calls flag cs).addToSelectedItemsList flag
            listName item.itemType id).2.getSelectedItemsList listName =
          [("avatars", (o.addToGameplayObjects item).2._avatarIDs),
            ("entities", (o.addToGameplayObjects item).2._entityIDs),
            ("overlays", (o.addToGameplayObjects item).2._overlayIDs)] := by
      intro item hitem
      subst hitem
      apply getSelectedItemsList_of_find
      · rw [find_addToSelectedItemsList, if_pos rfl, hvalue]
      · exact GameplayObjects.consistent_addToGameplayObjects _ _
    refine ⟨fun hid => ?_, fun hid => ?_, fun hid => ?_⟩
    · have h := hstep (.avatar id) rfl
      simpa [ItemID.itemType, GameplayObjects.addToGameplayObjects, hid] using h
    · have h := hstep (.entity id) rfl
      simpa [ItemID.itemType, GameplayObjects.addToGameplayObjects, hid] using h
    · have h := hstep (.overlay id) rfl
      simpa [ItemID.itemType, GameplayObjects.addToGameplayObjects, hid] using h

/-- C30: the vectors of a `GameplayObjects` never hold duplicates. After any
sequence of `addToGameplayObjects` and `removeFromGameplayObjects` calls on a
constructed object, each of the avatar, entity and overlay vectors holds every
identifier at most once. In the object reached, adding an identifier that its
vector holds leaves the vector as it is; adding one that it does not hold puts
it at the end; after removing an identifier the vector does not hold it, is a
sublist of the vector before (the others keep their order) and holds every other
identifier it held. -/
theorem c30_no_duplicates (flag : Bool) (cs : List GameplayCall) (item : ItemID) :
    ((GameplayObjects.constructed flag).calls cs)._avatarIDs.Nodup ∧
    ((GameplayObjects.constructed flag).calls cs)._entityIDs.Nodup ∧
    ((GameplayObjects.constructed flag).calls cs)._overlayIDs.Nodup ∧
    (item.uuid ∈ ((GameplayObjects.constructed flag).calls cs).idsFor item →
      (((GameplayObjects.constructed flag).calls cs).addToGameplayObjects item).2.idsFor item =
        ((GameplayObjects.constructed flag).calls cs).idsFor item) ∧
    (item.uuid ∉ ((GameplayObjects.constructed flag).calls cs).idsFor item →
      (((GameplayObjects.constructed flag).calls cs).addToGameplayObjects item).2.idsFor item =
        ((GameplayObjects.constructed flag).calls cs).idsFor item ++ [item.uuid]) ∧
    item.uuid ∉
      (((GameplayObjects.constructed flag).calls cs).removeFromGameplayObjects item).2.idsFor
        item ∧
    List.Sublist
      ((((GameplayObjects.constructed flag).calls cs).removeFromGameplayObjects item).2.idsFor
        item)
      (((GameplayObjects.constructed flag).calls cs).idsFor item) ∧
    (∀ x ∈ ((GameplayObjects.constructed flag).calls cs).idsFor item, x ≠ item.uuid →
      x ∈ (((GameplayObjects.constructed flag).calls cs).removeFromGameplayObjects item).2.idsFor
        item) := by
  obtain ⟨h1, h2, h3⟩ := GameplayObjects.nodup_calls cs (GameplayObjects.constructed flag)
    ⟨List.nodup_nil, List.nodup_nil, List.nodup_nil⟩
  refine ⟨h1, h2, h3, ?_, ?_, ?_, ?_, ?_⟩
  · intro hin
    rw [GameplayObjects.idsFor_addToGameplayObjects, if_neg (fun h => h hin)]
  · intro hout
    rw [GameplayObjects.idsFor_addToGameplayObjects, if_pos hout]
  · rw [GameplayObjects.idsFor_removeFromGameplayObjects]
    simp [List.mem_filter]
  · rw [GameplayObjects.idsFor_removeFromGameplayObjects]
    exact List.filter_sublist _
  · intro x hx hne
    rw [GameplayObjects.idsFor_removeFromGameplayObjects]
    simp [List.mem_filter, hx, hne]

/-- C27 (the code at the failing input): on the document with three parts and a
baker starting at identity 0, the Geometry node carries 0, the value of
`_geometryID` and the source of the geometry-to-model edge, but the Model node
carries 2 while `_modelID`, the target of each of the four object-to-object
edges, is 1. -/
theorem c27_model_node_carries_next_identity :
    ∃ r geometry model others connections,
      createFBXNodeTree sampleCollaborators (freshBaker 0) FBXNode.empty mixedTextures =
        some r ∧ r.completed = true ∧
      r.rootNode.children = [globalSettingsNode, r.baker._objectNode, connections] ∧
      r.baker._objectNode.children = geometry :: model :: others ∧
      geometry.name = GEOMETRY_NODE_NAME ∧ model.name = MODEL_NODE_NAME ∧
      geometry.identity = some 0 ∧ r.baker._geometryID = 0 ∧
      model.identity = some 2 ∧ r.baker._modelID = 1 ∧
      connections.children.take 4 = [cNodeOO 0 1, cNodeOO 2 1, cNodeOO 3 1, cNodeOO 4 1] ∧
      countEdges CONNECTIONS_NODE_PROPERTY connections.children = 4 :=
  ⟨_, _, _, _, _, rfl, rfl, rfl, rfl, rfl, rfl, rfl, rfl, rfl, rfl, rfl, by decide⟩

/-- C28: for every geometry document whose first mesh has P parts, T of them
with a material (as `geometry.materials[name]` yields it) that has a non-empty
albedo or specular texture file name, a call on a baker that has recorded no
material and no texture, with texture compressions that all succeed, runs to
its end, advances the identity counter 2 + P + T times (by 2 + P + T when no
64-bit overflow occurs), gives the Objects node exactly 2 + P + T children, and
gives the Connections node exactly 1 + P "OO" edges followed by exactly 2 * T
"OP" edges. -/
theorem c28_counts_for_parts_and_textures (env : Collaborators) (b : OBJBaker) (root : FBXNode)
    (g : FBXGeometry) (mesh0 : FBXMesh) (rest : List FBXMesh) (hg : g.meshes = mesh0 :: rest)
    (hok : ∀ h f u, env.compressTexture h f u ≠ none)
    (hm : b._materialIDs = []) (ht : b._mapTextureMaterial = []) :
    ∃ r connections ooEdges opEdges,
      createFBXNodeTree env b root g = some r ∧ r.completed = true ∧
      r.rootNode.children = [globalSettingsNode, r.baker._objectNode, connections] ∧
      r.baker._objectNode.name = OBJECTS_NODE_NAME ∧
      connections.name = CONNECTIONS_NODE_NAME ∧
      r.baker._nodeID =
        nextNodeID^[2 + mesh0.parts.length + (texturedMaterials env g mesh0.parts).length]
          b._nodeID ∧
      (-9223372036854775808 ≤ b._nodeID →
        b._nodeID + (2 + mesh0.parts.length + (texturedMaterials env g mesh0.parts).length : Nat)
          < 9223372036854775808 →
        r.baker._nodeID = b._nodeID +
          (2 + mesh0.parts.length + (texturedMaterials env g mesh0.parts).length : Nat)) ∧
      r.baker._objectNode.children.length =
        2 + mesh0.parts.length + (texturedMaterials env g mesh0.parts).length ∧
      connections.children = ooEdges ++ opEdges ∧
      ooEdges.length = 1 + mesh0.parts.length ∧
      (∀ e ∈ ooEdges, e.edgeKind = some CONNECTIONS_NODE_PROPERTY) ∧
      opEdges.length = 2 * (texturedMaterials env g mesh0.parts).length ∧
      (∀ e ∈ opEdges, e.edgeKind = some CONNECTIONS_NODE_PROPERTY_1) := by
  obtain ⟨r, hr, hc⟩ := createFBXNodeTree_fresh_completed env b root g mesh0 rest hg hok hm ht
  obtain ⟨⟨tid, h1⟩, _, h3, _⟩ := createFBXNodeTree_completed env b root g mesh0 rest hg r hr hc
  have hlen := newTextureSteps_length env b g mesh0
  have hid : r.baker._nodeID =
      nextNodeID^[2 + mesh0.parts.length + (texturedMaterials env g mesh0.parts).length]
        b._nodeID := by
    rw [h1]
    simp only [hlen, firstTextureID]
    rw [show 2 + mesh0.parts.length + (texturedMaterials env g mesh0.parts).length =
      (texturedMaterials env g mesh0.parts).length + (mesh0.parts.length + 2) by omega,
      Function.iterate_add_apply, iterate_nextNodeID_add_two]
  have hmats : r.baker._materialIDs.length = mesh0.parts.length := by
    rw [h1]
    simp [hm, newMaterialIDs, List.length_iterate]
  have hmap : r.baker._mapTextureMaterial.length =
      (texturedMaterials env g mesh0.parts).length := by
    rw [h1]
    simp [ht, hlen]
  refine ⟨r, connectionsNodeOf r.baker,
    cNodeOO r.baker._geometryID r.baker._modelID ::
      r.baker._materialIDs.map (fun m => cNodeOO m r.baker._modelID),
    textureEdges r.baker._materialIDs r.baker._mapTextureMaterial,
    hr, hc, by rw [h3], by rw [h1], rfl, hid, ?_, ?_, rfl, ?_, ?_, ?_, ?_⟩
  · intro hlo hhi
    rw [hid]
    exact iterate_nextNodeID_eq _ _ hlo hhi
  · rw [h1]
    simp only [List.length_cons, List.length_append, List.length_map, newMaterialNodes_length,
      hlen]
    omega
  · simp [hmats]
    omega
  · intro e he
    simp only [List.mem_cons, List.mem_map] at he
    rcases he with he | ⟨m, _, he⟩
    · rw [he]; rfl
    · rw [← he]; rfl
  · rw [textureEdges_length, hmap]
  · exact textureEdges_edgeKind _ _

/-- Witness of C28: the document with three parts, two of them textured, on a
baker starting at 0: the counter ends at 7, Objects has 7 children, Connections
has 4 "OO" edges followed by 4 "OP" edges. -/
theorem c28_counts_for_parts_and_textures_witness :
    (texturedMaterials sampleCollaborators mixedTextures
      [{ materialID := "a" }, { materialID := "c" }, { materialID := "b" }]).length = 2 ∧
    ∃ r connections ooEdges opEdges,
      createFBXNodeTree sampleCollaborators (freshBaker 0) FBXNode.empty mixedTextures =
        some r ∧ r.completed = true ∧
      r.rootNode.children = [globalSettingsNode, r.baker._objectNode, connections] ∧
      r.baker._objectNode.name = OBJECTS_NODE_NAME ∧
      connections.name = CONNECTIONS_NODE_NAME ∧
      r.baker._nodeID = nextNodeID^[2 + 3 + 2] (freshBaker 0)._nodeID ∧
      (-9223372036854775808 ≤ (freshBaker 0)._nodeID →
        (freshBaker 0)._nodeID + (2 + 3 + 2 : Nat) < 9223372036854775808 →
        r.baker._nodeID = (freshBaker 0)._nodeID + (2 + 3 + 2 : Nat)) ∧
      r.baker._objectNode.children.length = 2 + 3 + 2 ∧
      connections.children = ooEdges ++ opEdges ∧
      ooEdges.length = 1 + 3 ∧
      (∀ e ∈ ooEdges, e.edgeKind = some CONNECTIONS_NODE_PROPERTY) ∧
      opEdges.length = 2 * 2 ∧
      (∀ e ∈ opEdges, e.edgeKind = some CONNECTIONS_NODE_PROPERTY_1) :=
  ⟨by decide,
    c28_counts_for_parts_and_textures sampleCollaborators (freshBaker 0) FBXNode.empty
      mixedTextures
      { parts := [{ materialID := "a" }, { materialID := "c" }, { materialID := "b" }] } [] rfl
      (fun _ _ _ => by simp [sampleCollaborators]) rfl rfl⟩

/-- C29: for every geometry document with at least one mesh, a call on a baker
that has recorded no material and no texture makes no access outside a vector
(it returns). When the connection step starts, `_materialIDs` has exactly one
entry per part of the first mesh and every part index recorded in
`_mapTextureMaterial` is smaller than the number of parts; so each lookup
`_materialIDs[partIndex]` is in bounds, and it yields the identity carried by
the Material node emitted for that part, the node at place `partIndex` among
the Material nodes under Objects. -/
theorem c29_material_lookups_in_bounds (env : Collaborators) (b : OBJBaker) (root : FBXNode)
    (g : FBXGeometry) (mesh0 : FBXMesh) (rest : List FBXMesh) (hg : g.meshes = mesh0 :: rest)
    (hm : b._materialIDs = []) (ht : b._mapTextureMaterial = []) :
    ∃ r geometry model materialNodes textureNodes,
      createFBXNodeTree env b root g = some r ∧
      r.baker._materialIDs.length = mesh0.parts.length ∧
      (∀ texMat ∈ r.baker._mapTextureMaterial, texMat.2 < mesh0.parts.length) ∧
      r.baker._objectNode.children = geometry :: model :: (materialNodes ++ textureNodes) ∧
      materialNodes.length = mesh0.parts.length ∧
      (∀ node ∈ materialNodes, node.name = MATERIAL_NODE_NAME) ∧
      (∀ node ∈ textureNodes, node.name = TEXTURE_NODE_NAME) ∧
      (∀ texMat ∈ r.baker._mapTextureMaterial, ∃ id node,
        r.baker._materialIDs[texMat.2]? = some id ∧
        materialNodes[texMat.2]? = some node ∧ node.identity = some id) := by
  obtain ⟨r, hr⟩ := createFBXNodeTree_fresh env b root g mesh0 rest hg hm ht
  obtain ⟨hb, _⟩ := createFBXNodeTree_some env b root g mesh0 rest hg r hr
  obtain ⟨idxs, nodes, _, _, h3, h4, _, _, _, h8, h9, h10⟩ := afterLoops_ids env b g mesh0
  rw [← hb] at h3 h4 h9
  rw [hm, List.nil_append] at h3
  rw [ht, List.nil_append] at h4
  have hlen : r.baker._materialIDs.length = mesh0.parts.length := by
    rw [h3]
    simp [newMaterialIDs, List.length_iterate]
  have hidx : ∀ texMat ∈ r.baker._mapTextureMaterial, texMat.2 < mesh0.parts.length := by
    intro texMat hmem
    rw [h4] at hmem
    exact h8 _ (List.of_mem_zip hmem).2
  refine ⟨r, _, _, newMaterialNodes env b g mesh0, nodes, hr, hlen, hidx, h9,
    newMaterialNodes_length env b g mesh0, newMaterialNodes_name env b g mesh0, h10, ?_⟩
  intro texMat hmem
  have hlt := hidx texMat hmem
  have hlt1 : texMat.2 < r.baker._materialIDs.length := by rw [hlen]; exact hlt
  have hlt2 : texMat.2 < (newMaterialNodes env b g mesh0).length := by
    rw [newMaterialNodes_length]; exact hlt
  refine ⟨r.baker._materialIDs[texMat.2], (newMaterialNodes env b g mesh0)[texMat.2],
    List.getElem?_eq_getElem hlt1, List.getElem?_eq_getElem hlt2, ?_⟩
  have hids := newMaterialNodes_identity env b g mesh0
  rw [← h3] at hids
  have h5 : ((newMaterialNodes env b g mesh0).map FBXNode.identity)[texMat.2]? =
      (r.baker._materialIDs.map some)[texMat.2]? := by rw [hids]
  simpa [List.getElem?_map, List.getElem?_eq_getElem hlt1, List.getElem?_eq_getElem hlt2]
    using h5

/-- Witness of C29: the document with three parts, two of them textured. -/
theorem c29_material_lookups_in_bounds_witness :
    ∃ r0, createFBXNodeTree sampleCollaborators (freshBaker 0) FBXNode.empty mixedTextures =
        some r0 ∧
      r0.baker._materialIDs = [2, 3, 4] ∧ r0.baker._mapTextureMaterial = [(5, 0), (6, 2)] ∧
      ∃ r geometry model materialNodes textureNodes,
        createFBXNodeTree sampleCollaborators (freshBaker 0) FBXNode.empty mixedTextures =
          some r ∧
        r.baker._materialIDs.length = 3 ∧
        (∀ texMat ∈ r.baker._mapTextureMaterial, texMat.2 < 3) ∧
        r.baker._objectNode.children = geometry :: model :: (materialNodes ++ textureNodes) ∧
        materialNodes.length = 3 ∧
        (∀ node ∈ materialNodes, node.name = MATERIAL_NODE_NAME) ∧
        (∀ node ∈ textureNodes, node.name = TEXTURE_NODE_NAME) ∧
        (∀ texMat ∈ r.baker._mapTextureMaterial, ∃ id node,
          r.baker._materialIDs[texMat.2]? = some id ∧
          materialNodes[texMat.2]? = some node ∧ node.identity = some id) :=
  ⟨_, rfl, rfl, rfl,
    c29_material_lookups_in_bounds sampleCollaborators (freshBaker 0) FBXNode.empty
      mixedTextures
      { parts := [{ materialID := "a" }, { materialID := "c" }, { materialID := "b" }] } [] rfl
      rfl rfl⟩

/-- Witness of C25: the item type "pet" on the interface reached by the sample
calls. -/
theorem c25_valid_item_types_witness :
    ¬ ("pet" = "avatar" ∨ "pet" = "entity" ∨ "pet" = "overlay") ∧
    (SelectionScriptingInterface.constructed.calls false sampleCalls).addToSelectedItemsList
        false "a" "pet" 3 =
      (false, SelectionScriptingInterface.constructed.calls false sampleCalls) ∧
    (SelectionScriptingInterface.constructed.calls false sampleCalls).removeFromSelectedItemsList
        "a" "pet" 2 =
      (false, SelectionScriptingInterface.constructed.calls false sampleCalls) :=
  ⟨by decide,
    (c25_valid_item_types false (SelectionScriptingInterface.constructed.calls false sampleCalls)
      "a" "pet" 3).2.2 (by decide) |>.1,
    rfl⟩

/-- Witness of C26: the lists "a" and "b" after the sample calls, and a name
that is not in the map. -/
theorem c26_selected_items_list_witness :
    (∃ o, QMap.find
        (SelectionScriptingInterface.constructed.calls false sampleCalls)._selectedItemsListMap
          "a" = some o ∧
      o._avatarIDs = [2] ∧ o._entityIDs = [7] ∧ o._overlayIDs = [] ∧
      (SelectionScriptingInterface.constructed.calls false sampleCalls).getSelectedItemsList "a" =
        [("avatars", o._avatarIDs), ("entities", o._entityIDs), ("overlays", o._overlayIDs)]) ∧
    (SelectionScriptingInterface.constructed.calls false sampleCalls).getSelectedItemsList "b" =
      [("avatars", []), ("entities", []), ("overlays", [9])] ∧
    (SelectionScriptingInterface.constructed.calls false sampleCalls).getSelectedItemsList "c" =
      [] :=
  ⟨⟨_, rfl, rfl, rfl, rfl, (c26_selected_items_list false sampleCalls "a").1 _ rfl⟩, rfl, rfl⟩

/-- Witness of C30: the object after the sample calls holds the avatar 2 and the
entity 7; adding the avatar 2 again changes nothing, adding the avatar 5 puts
it at the end. -/
theorem c30_no_duplicates_witness :
    ((GameplayObjects.constructed false).calls sampleGameplayCalls)._avatarIDs = [2] ∧
    ((GameplayObjects.constructed false).calls sampleGameplayCalls)._entityIDs = [7] ∧
    ((((GameplayObjects.constructed false).calls sampleGameplayCalls).addToGameplayObjects
      (.avatar 2)).2.idsFor (.avatar 2) = [2]) ∧
    ((((GameplayObjects.constructed false).calls sampleGameplayCalls).addToGameplayObjects
      (.avatar 5)).2.idsFor (.avatar 5) =
        ((GameplayObjects.constructed false).calls sampleGameplayCalls).idsFor (.avatar 5) ++
          [(ItemID.avatar 5).uuid]) :=
  ⟨rfl, rfl, rfl,
    (c30_no_duplicates false sampleGameplayCalls (.avatar 5)).2.2.2.2.1 (by decide)⟩

end Hifi
